import Mathlib

/-! # Wavefront OBJ writer (`wavefront_obj_file_handler.cc`)

A shallow embedding of `face_normal_axis_component`, `write_geomtery_per_mesh` and
`write_object_fprintf`, followed by theorems about the records they write.

Modelling conventions.

* The output stream is the list of records written so far; every `fprintf` of a whole
  line appends one record. A face line (`"f "`, one `fprintf` per polygon vertex, `"\n"`)
  is one record holding the list of its vertex references.
* Raw arrays are lists; an array read is `l[i]?`, and a read outside the list makes the
  function return `none` (undefined behaviour in C++).
* `uint` values are natural numbers, and every `uint` addition of the source is
  reduced modulo `2^32` (`uint32`). A vertex reference holds the `uint` arguments of
  its `fprintf`; `%d` prints such an argument as the signed `int` with the same 32
  bits (`int_of_uint`, `decimal`).
* The `float` type of the coordinates is a type parameter `F`, since the writer only
  copies coordinates.
* `MVert.no` holds `short` components. The `float` accumulator of
  `face_normal_axis_component` always holds an integer value, so it is an `Int`
  that is rounded to the nearest `float` after every addition (`f32_add`); the
  quotient is rounded to the nearest `float` and then truncated (`f32_div_to_int`)
  before the conversion to `short` (`to_short`).
-/

namespace obj

/-! ## Data model -/

/-- Vertex of a mesh: `float co[3]` and `short no[3]`. -/
structure MVert (F : Type) where
  co : Fin 3 → F
  no : Fin 3 → Int

/-- Polygon of a mesh to export: its vertex count, the stored vertex indices and
the stored UV vertex indices. -/
structure Polygon where
  total_vertices_per_poly : Nat
  vertex_index : List Nat
  uv_vertex_index : List Nat
deriving DecidableEq

/-- The part of `ID` that the writer reads: `char name[]`, whose first two
characters are the ID code. -/
structure ID where
  name : String
deriving DecidableEq

/-- The part of `Object` that the writer reads. -/
structure Object where
  id : ID
deriving DecidableEq

/-- Mesh descriptor handed to the writer. The three `tot_*` counters are stored
next to the arrays they describe, as in the source. -/
structure OBJ_obmesh_to_export (F : Type) where
  object : Object
  mvert : List (MVert F)
  tot_vertices : Nat
  uv_coords : List (Fin 2 → F)
  tot_uv_vertices : Nat
  polygon_list : List Polygon
  tot_poly : Nat

/-- The two export options that the writer reads. -/
structure OBJExportParams where
  export_uv : Bool
  export_normals : Bool
deriving DecidableEq

/-- The array `uint offset[3]`: `vertex` is `offset[0]`, `uv` is `offset[1]`,
`normal` is `offset[2]`. -/
structure Offset3 where
  vertex : Nat
  uv : Nat
  normal : Nat
deriving DecidableEq

/-- One vertex reference of a face line, one constructor per format string of the
four face loops. -/
inductive FaceRef where
  /-- Written by `"%d/%d/%d "`. -/
  | v_vt_vn (v vt vn : Nat)
  /-- Written by `"%d//%d "`. -/
  | v_vn (v vn : Nat)
  /-- Written by `"%d/%d "`. -/
  | v_vt (v vt : Nat)
  /-- Written by `"%d "`. -/
  | v (v : Nat)
deriving DecidableEq

/-- One line of the output file. -/
inductive Record (F : Type) where
  /-- Line `# text`. -/
  | comment (text : String)
  /-- Line `o name`. -/
  | o (name : String)
  /-- Line `v x y z`. -/
  | v (x y z : F)
  /-- Line `vt u v`. -/
  | vt (u v : F)
  /-- Line `vn nx ny nz`. -/
  | vn (nx ny nz : Int)
  /-- Line `f refs`. -/
  | f (refs : List FaceRef)
deriving DecidableEq

/-! ## Control flow and arithmetic helpers -/

/-- The loop `for (i = start; i < start + count; i++) body`, threading the state
`s`; a failing iteration ends the loop with `none`. -/
def for_loop {σ : Type} (body : Nat → σ → Option σ) : Nat → Nat → σ → Option σ
  | 0, _, s => some s
  | c + 1, i, s => (body i s).bind (for_loop body c (i + 1))

/-- Array read at a possibly negative index. -/
def index_at {α : Type} (l : List α) (i : Int) : Option α :=
  if i < 0 then none else l[i.toNat]?

/-- Conversion of an integer value to `short`: the value itself when it is in
`-32768 .. 32767`; outside this range, where C++ leaves the conversion of a `float`
undefined, the value in the range that is congruent modulo `2^16`. -/
def to_short (x : Int) : Int :=
  (x + 32768) % 65536 - 32768

/-- The sum or value of type `uint`: reduced modulo `2^32`. -/
def uint32 (n : Nat) : Nat :=
  n % 4294967296

/-- The number `%d` prints for a `uint` argument: its 32 bits read as a signed
`int`, so values from `2^31` come out negative. -/
def int_of_uint (n : Nat) : Int :=
  if n % 4294967296 < 2147483648 then ((n % 4294967296 : Nat) : Int)
  else ((n % 4294967296 : Nat) : Int) - 4294967296

/-- The integer nearest to `num / den`, the even one of two equally near. -/
def round_half_even (num den : Nat) : Nat :=
  if 2 * (num % den) < den then num / den
  else if den < 2 * (num % den) then num / den + 1
  else if (num / den) % 2 = 0 then num / den
  else num / den + 1

/-- The exponent of the spacing of the `float` values around `x`: `0` below `2^24`,
one more each time `x` doubles. The first argument bounds the number of halvings. -/
def f32_ulp_exponent : Nat → Nat → Nat
  | 0, _ => 0
  | fuel + 1, x => if x < 16777216 then 0 else f32_ulp_exponent fuel (x / 2) + 1

/-- The `float` nearest to an integer (round to nearest, ties to even, 24 bits of
significand): integers up to `2^24` in magnitude are `float` values, a larger one
is rounded to a multiple of the spacing `2^(e - 23)`, where `2^e` is its leading
bit. -/
def f32_of_int (x : Int) : Int :=
  if x.natAbs ≤ 16777216 then x
  else
    Int.sign x *
      ((round_half_even x.natAbs (2 ^ f32_ulp_exponent x.natAbs x.natAbs) *
        2 ^ f32_ulp_exponent x.natAbs x.natAbs : Nat) : Int)

/-- The `float` sum of an integer-valued `float` and a `short`. -/
def f32_add (sum : Int) (x : Int) : Int :=
  f32_of_int (sum + x)

/-- The number `t` of fraction bits of the `float` quotient `a / b` when it is below
`2^23`: the first `t` with `b * 2^23 ≤ a * 2^t`, searched from `t` upwards; a zero
numerator needs none. -/
def f32_scale (a b : Nat) : Nat → Nat → Nat
  | 0, t => t
  | fuel + 1, t =>
    if a = 0 ∨ b * 8388608 ≤ a * 2 ^ t then t else f32_scale a b fuel (t + 1)

/-- The integer part of the `float` quotient `sum / n` of an integer-valued `float`
by a `uint`: `n` is converted to `float`, the quotient is rounded to the nearest
`float` (a multiple of `2^(e - 23)` from `2^23` on, a multiple of `2^(-t)` below)
and truncated toward zero. -/
def f32_div_to_int (sum : Int) (n : Nat) : Int :=
  Int.sign sum *
    ((if (f32_of_int n).natAbs * 8388608 ≤ sum.natAbs then
        round_half_even sum.natAbs
            ((f32_of_int n).natAbs *
              2 ^ f32_ulp_exponent sum.natAbs (sum.natAbs / (f32_of_int n).natAbs)) *
          2 ^ f32_ulp_exponent sum.natAbs (sum.natAbs / (f32_of_int n).natAbs)
      else
        round_half_even
            (sum.natAbs *
              2 ^ f32_scale sum.natAbs (f32_of_int n).natAbs
                ((f32_of_int n).natAbs + 24) 0)
            (f32_of_int n).natAbs /
          2 ^ f32_scale sum.natAbs (f32_of_int n).natAbs
            ((f32_of_int n).natAbs + 24) 0 : Nat) : Int)

/-- Axis constant `#define AXIS_X 0`. -/
def AXIS_X : Fin 3 := 0

/-- Axis constant `#define AXIS_Y 1`. -/
def AXIS_Y : Fin 3 := 1

/-- Axis constant `#define AXIS_Z 2`. -/
def AXIS_Z : Fin 3 := 2

/-! ## The three functions of the source -/

/-- Lines 38-47. The loop adds `vertex_list[vertex_index[i] - 1].no[axis]` to the
`float sum`; the result is `short(sum / total_vertices_per_poly)`, a `float`
division. Dividing by zero has no `short` value and gives `none`. -/
def face_normal_axis_component {F : Type} (poly_to_write : Polygon) (axis : Fin 3)
    (vertex_list : List (MVert F)) : Option Int :=
  (for_loop
    (fun i (sum : Int) =>
      (poly_to_write.vertex_index[i]?).bind fun (s : Nat) =>
      (index_at vertex_list ((s : Int) - 1)).bind fun vertex =>
      some (f32_add sum (vertex.no axis)))
    poly_to_write.total_vertices_per_poly 0 0).bind fun sum =>
  if poly_to_write.total_vertices_per_poly = 0 then none
  else some (to_short (f32_div_to_int sum poly_to_write.total_vertices_per_poly))

/-- Lines 58-61: one `v` line per vertex. -/
def write_vertices {F : Type} (m : OBJ_obmesh_to_export F) (outfile : List (Record F)) :
    Option (List (Record F)) :=
  for_loop
    (fun i out =>
      (m.mvert[i]?).bind fun vertex =>
      some (out ++ [Record.v (vertex.co 0) (vertex.co 1) (vertex.co 2)]))
    m.tot_vertices 0 outfile

/-- Lines 67-70: one `vt` line per UV vertex. -/
def write_uv_vertices {F : Type} (m : OBJ_obmesh_to_export F) (outfile : List (Record F)) :
    Option (List (Record F)) :=
  for_loop
    (fun i out =>
      (m.uv_coords[i]?).bind fun uv_vertex =>
      some (out ++ [Record.vt (uv_vertex 0) (uv_vertex 1)]))
    m.tot_uv_vertices 0 outfile

/-- Lines 75-83: one `vn` line per polygon. -/
def write_face_normals {F : Type} (m : OBJ_obmesh_to_export F) (outfile : List (Record F)) :
    Option (List (Record F)) :=
  for_loop
    (fun i out =>
      (m.polygon_list[i]?).bind fun polygon =>
      (face_normal_axis_component polygon AXIS_X m.mvert).bind fun nx =>
      (face_normal_axis_component polygon AXIS_Y m.mvert).bind fun ny =>
      (face_normal_axis_component polygon AXIS_Z m.mvert).bind fun nz =>
      some (out ++ [Record.vn nx ny nz]))
    m.tot_poly 0 outfile

/-- Lines 94-105: face lines `f v1/vt1/vn1 ..`. -/
def write_faces_v_vt_vn {F : Type} (m : OBJ_obmesh_to_export F) (offset : Offset3)
    (outfile : List (Record F)) : Option (List (Record F)) :=
  for_loop
    (fun i out =>
      (m.polygon_list[i]?).bind fun polygon =>
      (for_loop
        (fun j line =>
          (polygon.vertex_index[j]?).bind fun vi =>
          (polygon.uv_vertex_index[j]?).bind fun ui =>
          some (line ++ [FaceRef.v_vt_vn (uint32 (vi + offset.vertex))
            (uint32 (ui + 1 + offset.uv)) (uint32 (i + 1 + offset.normal))]))
        polygon.total_vertices_per_poly 0 []).bind fun line =>
      some (out ++ [Record.f line]))
    m.tot_poly 0 outfile

/-- Lines 109-116: face lines `f v1//vn1 ..`. -/
def write_faces_v_vn {F : Type} (m : OBJ_obmesh_to_export F) (offset : Offset3)
    (outfile : List (Record F)) : Option (List (Record F)) :=
  for_loop
    (fun i out =>
      (m.polygon_list[i]?).bind fun polygon =>
      (for_loop
        (fun j line =>
          (polygon.vertex_index[j]?).bind fun vi =>
          some (line ++ [FaceRef.v_vn (uint32 (vi + offset.vertex))
            (uint32 (i + 1 + offset.normal))]))
        polygon.total_vertices_per_poly 0 []).bind fun line =>
      some (out ++ [Record.f line]))
    m.tot_poly 0 outfile

/-- Lines 122-132: face lines `f v1/vt1 ..`. -/
def write_faces_v_vt {F : Type} (m : OBJ_obmesh_to_export F) (offset : Offset3)
    (outfile : List (Record F)) : Option (List (Record F)) :=
  for_loop
    (fun i out =>
      (m.polygon_list[i]?).bind fun polygon =>
      (for_loop
        (fun j line =>
          (polygon.vertex_index[j]?).bind fun vi =>
          (polygon.uv_vertex_index[j]?).bind fun ui =>
          some (line ++ [FaceRef.v_vt (uint32 (vi + offset.vertex))
            (uint32 (ui + 1 + offset.uv))]))
        polygon.total_vertices_per_poly 0 []).bind fun line =>
      some (out ++ [Record.f line]))
    m.tot_poly 0 outfile

/-- Lines 136-143: face lines `f v1 ..`. -/
def write_faces_v {F : Type} (m : OBJ_obmesh_to_export F) (offset : Offset3)
    (outfile : List (Record F)) : Option (List (Record F)) :=
  for_loop
    (fun i out =>
      (m.polygon_list[i]?).bind fun polygon =>
      (for_loop
        (fun j line =>
          (polygon.vertex_index[j]?).bind fun vi =>
          some (line ++ [FaceRef.v (uint32 (vi + offset.vertex))]))
        polygon.total_vertices_per_poly 0 []).bind fun line =>
      some (out ++ [Record.f line]))
    m.tot_poly 0 outfile

/-- Lines 49-146. The object name is `id.name + 2`: the ID code is skipped. -/
def write_geomtery_per_mesh {F : Type} (outfile : List (Record F))
    (obmesh_to_export : OBJ_obmesh_to_export F) (offset : Offset3)
    (export_params : OBJExportParams) : Option (List (Record F)) :=
  (write_vertices obmesh_to_export
    (outfile ++ [Record.o (obmesh_to_export.object.id.name.drop 2)])).bind fun out1 =>
  (if export_params.export_uv then write_uv_vertices obmesh_to_export out1
    else some out1).bind fun out2 =>
  (if export_params.export_normals then write_face_normals obmesh_to_export out2
    else some out2).bind fun out3 =>
  if export_params.export_normals then
    if export_params.export_uv then write_faces_v_vt_vn obmesh_to_export offset out3
    else write_faces_v_vn obmesh_to_export offset out3
  else
    if export_params.export_uv then write_faces_v_vt obmesh_to_export offset out3
    else write_faces_v obmesh_to_export offset out3

/-- State of the loop of `write_object_fprintf`: the file content and
`index_offset`. -/
structure ExportState (F : Type) where
  outfile : List (Record F)
  index_offset : Offset3
deriving DecidableEq

/-- Lines 169-172: the body of the loop over `meshes_to_export`. -/
def export_mesh_step {F : Type} (meshes_to_export : List (OBJ_obmesh_to_export F))
    (export_params : OBJExportParams) (i : Nat) (st : ExportState F) :
    Option (ExportState F) :=
  (meshes_to_export[i]?).bind fun mesh =>
  (write_geomtery_per_mesh st.outfile mesh st.index_offset export_params).bind fun out =>
  some
    { outfile := out
      index_offset :=
        { vertex := uint32 (st.index_offset.vertex + mesh.tot_vertices)
          uv := uint32 (st.index_offset.uv + mesh.tot_uv_vertices)
          normal := uint32 (st.index_offset.normal + mesh.tot_poly) } }

/-- Lines 165-173 run for the first `count` meshes: `index_offset` starts at
`{0, 0, 0}`, the header line is written, then the loop body runs `count` times. -/
def export_loop {F : Type} (meshes_to_export : List (OBJ_obmesh_to_export F))
    (export_params : OBJExportParams) (count : Nat) : Option (ExportState F) :=
  for_loop (export_mesh_step meshes_to_export export_params) count 0
    { outfile := [Record.comment "Blender 2.90"]
      index_offset := { vertex := 0, uv := 0, normal := 0 } }

/-- What a call of `write_object_fprintf` leaves behind: the file at `filepath`
(`none` when it was not created) and the lines printed on the standard output. -/
structure ExportResult (F : Type) where
  file : Option (List (Record F))
  stdout : List String
deriving DecidableEq

/-- Lines 151-175. `fopen_succeeds` tells whether `fopen(filepath, "w")` returns a
stream. -/
def write_object_fprintf {F : Type} (fopen_succeeds : Bool)
    (meshes_to_export : List (OBJ_obmesh_to_export F)) (export_params : OBJExportParams) :
    Option (ExportResult F) :=
  if fopen_succeeds then
    (export_loop meshes_to_export export_params meshes_to_export.length).bind fun st =>
    some { file := some st.outfile, stdout := [] }
  else
    some { file := none, stdout := ["Error in creating the file\n"] }

/-! ## Reading the output -/

/-- The vertex component of a vertex reference. -/
def FaceRef.vertex : FaceRef → Nat
  | .v_vt_vn a _ _ => a
  | .v_vn a _ => a
  | .v_vt a _ => a
  | .v a => a

/-- The UV component of a vertex reference, if it has one. -/
def FaceRef.uv : FaceRef → Option Nat
  | .v_vt_vn _ b _ => some b
  | .v_vn _ _ => none
  | .v_vt _ b => some b
  | .v _ => none

/-- The normal component of a vertex reference, if it has one. -/
def FaceRef.normal : FaceRef → Option Nat
  | .v_vt_vn _ _ c => some c
  | .v_vn _ c => some c
  | .v_vt _ _ => none
  | .v _ => none

/-- The format string that wrote a vertex reference. -/
def FaceRef.format : FaceRef → String
  | .v_vt_vn _ _ _ => "%d/%d/%d "
  | .v_vn _ _ => "%d//%d "
  | .v_vt _ _ => "%d/%d "
  | .v _ => "%d "

/-- The characters `%d` writes for a `uint` argument: the decimal digits of
`int_of_uint n`, after a minus sign when it is negative. -/
def decimal (n : Nat) : List Char :=
  if n % 4294967296 < 2147483648 then Nat.toDigits 10 (n % 4294967296)
  else '-' :: Nat.toDigits 10 (4294967296 - n % 4294967296)

/-- The characters written for a vertex reference, trailing blank included. -/
def FaceRef.text : FaceRef → List Char
  | .v_vt_vn a b c => decimal a ++ '/' :: decimal b ++ '/' :: decimal c ++ [' ']
  | .v_vn a c => decimal a ++ '/' :: '/' :: decimal c ++ [' ']
  | .v_vt a b => decimal a ++ '/' :: decimal b ++ [' ']
  | .v a => decimal a ++ [' ']

/-- The coordinates of the `v` lines of an output, in file order. -/
def v_lines {F : Type} (out : List (Record F)) : List (F × F × F) :=
  out.filterMap fun r => match r with
    | .v x y z => some (x, y, z)
    | _ => none

/-- The coordinates of the `vt` lines of an output, in file order. -/
def vt_lines {F : Type} (out : List (Record F)) : List (F × F) :=
  out.filterMap fun r => match r with
    | .vt u v => some (u, v)
    | _ => none

/-- The components of the `vn` lines of an output, in file order. -/
def vn_lines {F : Type} (out : List (Record F)) : List (Int × Int × Int) :=
  out.filterMap fun r => match r with
    | .vn nx ny nz => some (nx, ny, nz)
    | _ => none

/-- The vertex references of the `f` lines of an output, in file order. -/
def f_lines {F : Type} (out : List (Record F)) : List (List FaceRef) :=
  out.filterMap fun r => match r with
    | .f refs => some refs
    | _ => none

/-! ## Meshes the writer can read

The writer trusts its input. `readable` collects what the reads it performs for a
given flag pair need: the arrays are at least as long as the counters say, and, when
normals are exported, every polygon has a vertex and stores vertex indices that are
positions, counted from 1, into the vertex array. -/

/-- The reads made for one polygon stay inside its arrays and inside a vertex
array of length `vertex_count`. -/
def polygon_readable (export_params : OBJExportParams) (vertex_count : Nat)
    (polygon : Polygon) : Prop :=
  polygon.total_vertices_per_poly ≤ polygon.vertex_index.length ∧
  (export_params.export_uv = true →
    polygon.total_vertices_per_poly ≤ polygon.uv_vertex_index.length) ∧
  (export_params.export_normals = true →
    0 < polygon.total_vertices_per_poly ∧
    ∀ s ∈ polygon.vertex_index.take polygon.total_vertices_per_poly,
      1 ≤ s ∧ s ≤ vertex_count)

instance (export_params : OBJExportParams) (vertex_count : Nat) (polygon : Polygon) :
    Decidable (polygon_readable export_params vertex_count polygon) := by
  unfold polygon_readable
  exact inferInstance

/-- The reads made for one mesh stay inside its arrays. -/
def readable {F : Type} (export_params : OBJExportParams) (m : OBJ_obmesh_to_export F) :
    Prop :=
  m.tot_vertices ≤ m.mvert.length ∧
  (export_params.export_uv = true → m.tot_uv_vertices ≤ m.uv_coords.length) ∧
  m.tot_poly ≤ m.polygon_list.length ∧
  ∀ polygon ∈ m.polygon_list.take m.tot_poly,
    polygon_readable export_params m.mvert.length polygon

instance {F : Type} (export_params : OBJExportParams) (m : OBJ_obmesh_to_export F) :
    Decidable (readable export_params m) := by
  unfold readable
  exact inferInstance

/-! ## Well-formed meshes -/

/-- A mesh descriptor that keeps the invariants of the data model: the vertex, UV
and polygon arrays have the declared lengths; every polygon has at least one vertex
and index lists of the length of its vertex count; every stored vertex index lies in
`1 .. tot_vertices` and every stored UV index in `0 .. tot_uv_vertices - 1`. -/
def well_formed {F : Type} (m : OBJ_obmesh_to_export F) : Prop :=
  m.mvert.length = m.tot_vertices ∧
  m.uv_coords.length = m.tot_uv_vertices ∧
  m.polygon_list.length = m.tot_poly ∧
  ∀ polygon ∈ m.polygon_list,
    0 < polygon.total_vertices_per_poly ∧
    polygon.vertex_index.length = polygon.total_vertices_per_poly ∧
    polygon.uv_vertex_index.length = polygon.total_vertices_per_poly ∧
    (∀ s ∈ polygon.vertex_index, 1 ≤ s ∧ s ≤ m.tot_vertices) ∧
    (∀ u ∈ polygon.uv_vertex_index, u < m.tot_uv_vertices)

instance {F : Type} (m : OBJ_obmesh_to_export F) : Decidable (well_formed m) := by
  unfold well_formed
  exact inferInstance

/-! ## Closed forms used in the proofs -/

/-- The normal components that `face_normal_axis_component` adds up. -/
def normal_components {F : Type} (polygon : Polygon) (axis : Fin 3)
    (vertex_list : List (MVert F)) : List Int :=
  (polygon.vertex_index.take polygon.total_vertices_per_poly).map fun (s : Nat) =>
    ((index_at vertex_list ((s : Int) - 1)).map fun vertex => vertex.no axis).getD 0

/-- The value of the `float` accumulator after the components of a list were added
to it in order. -/
def f32_sum (components : List Int) : Int :=
  components.foldl f32_add 0

/-- The value of `face_normal_axis_component` on a readable polygon. -/
def averaged_normal {F : Type} (polygon : Polygon) (axis : Fin 3)
    (vertex_list : List (MVert F)) : Int :=
  to_short (f32_div_to_int (f32_sum (normal_components polygon axis vertex_list))
    polygon.total_vertices_per_poly)

/-- The vertex reference written for the stored vertex index `vi` and the stored UV
index `ui` of polygon number `i`. -/
def face_ref (export_params : OBJExportParams) (offset : Offset3) (i vi ui : Nat) : FaceRef :=
  if export_params.export_normals then
    if export_params.export_uv then
      FaceRef.v_vt_vn (uint32 (vi + offset.vertex)) (uint32 (ui + 1 + offset.uv))
        (uint32 (i + 1 + offset.normal))
    else FaceRef.v_vn (uint32 (vi + offset.vertex)) (uint32 (i + 1 + offset.normal))
  else
    if export_params.export_uv then
      FaceRef.v_vt (uint32 (vi + offset.vertex)) (uint32 (ui + 1 + offset.uv))
    else FaceRef.v (uint32 (vi + offset.vertex))

/-- The vertex references written for polygon number `i`. -/
def face_line (export_params : OBJExportParams) (offset : Offset3) (i : Nat)
    (polygon : Polygon) : List FaceRef :=
  if export_params.export_normals then
    if export_params.export_uv then
      List.zipWith
        (fun vi ui => FaceRef.v_vt_vn (uint32 (vi + offset.vertex))
          (uint32 (ui + 1 + offset.uv)) (uint32 (i + 1 + offset.normal)))
        (polygon.vertex_index.take polygon.total_vertices_per_poly)
        (polygon.uv_vertex_index.take polygon.total_vertices_per_poly)
    else
      (polygon.vertex_index.take polygon.total_vertices_per_poly).map fun vi =>
        FaceRef.v_vn (uint32 (vi + offset.vertex)) (uint32 (i + 1 + offset.normal))
  else
    if export_params.export_uv then
      List.zipWith
        (fun vi ui => FaceRef.v_vt (uint32 (vi + offset.vertex))
          (uint32 (ui + 1 + offset.uv)))
        (polygon.vertex_index.take polygon.total_vertices_per_poly)
        (polygon.uv_vertex_index.take polygon.total_vertices_per_poly)
    else
      (polygon.vertex_index.take polygon.total_vertices_per_poly).map fun vi =>
        FaceRef.v (uint32 (vi + offset.vertex))

/-- The `v` lines of a readable mesh. -/
def v_block {F : Type} (m : OBJ_obmesh_to_export F) : List (Record F) :=
  (m.mvert.take m.tot_vertices).map fun vertex =>
    Record.v (vertex.co 0) (vertex.co 1) (vertex.co 2)

/-- The `vt` lines of a readable mesh. -/
def vt_block {F : Type} (m : OBJ_obmesh_to_export F) : List (Record F) :=
  (m.uv_coords.take m.tot_uv_vertices).map fun uv_vertex =>
    Record.vt (uv_vertex 0) (uv_vertex 1)

/-- The `vn` lines of a readable mesh. -/
def vn_block {F : Type} (m : OBJ_obmesh_to_export F) : List (Record F) :=
  (m.polygon_list.take m.tot_poly).map fun polygon =>
    Record.vn (averaged_normal polygon AXIS_X m.mvert)
      (averaged_normal polygon AXIS_Y m.mvert) (averaged_normal polygon AXIS_Z m.mvert)

/-- The `f` lines of a readable mesh. -/
def f_block {F : Type} (export_params : OBJExportParams) (offset : Offset3)
    (m : OBJ_obmesh_to_export F) : List (Record F) :=
  (m.polygon_list.take m.tot_poly).mapIdx fun i polygon =>
    Record.f (face_line export_params offset i polygon)

/-- The lines of a readable mesh. -/
def mesh_block {F : Type} (export_params : OBJExportParams) (offset : Offset3)
    (m : OBJ_obmesh_to_export F) : List (Record F) :=
  Record.o (m.object.id.name.drop 2) :: v_block m ++
    (if export_params.export_uv then vt_block m else []) ++
    (if export_params.export_normals then vn_block m else []) ++
    f_block export_params offset m

/-- The value of `index_offset` after the meshes of a list were written: the sums
of the three counters, as `uint`. -/
def offset_after {F : Type} (meshes : List (OBJ_obmesh_to_export F)) : Offset3 :=
  { vertex := uint32 (meshes.map fun m => m.tot_vertices).sum
    uv := uint32 (meshes.map fun m => m.tot_uv_vertices).sum
    normal := uint32 (meshes.map fun m => m.tot_poly).sum }

/-- The file content after the first `k` meshes of a list of readable meshes were
written. -/
def file_after {F : Type} (export_params : OBJExportParams)
    (meshes : List (OBJ_obmesh_to_export F)) : Nat → List (Record F)
  | 0 => [Record.comment "Blender 2.90"]
  | k + 1 =>
    file_after export_params meshes k ++
      match meshes[k]? with
      | some m => mesh_block export_params (offset_after (meshes.take k)) m
      | none => []

/-! ## The single parameterized emitter of the design notes

The four face loops are compared with one routine that handles every flag pair. It is
written from the description of that routine, not from the four format strings, and
produces the characters of the vertex references. -/

/-- The characters the single emitter writes for one polygon vertex: the vertex
component; then `/` and the UV component if `export_uv`; then, if `export_normals`,
`/` and the normal component, after an extra `/` for the empty UV field when
`export_uv` is false; then the blank that separates the references. -/
def single_emitter_reference (export_params : OBJExportParams) (v vt vn : Nat) : List Char :=
  decimal v ++
    (if export_params.export_uv then '/' :: decimal vt else []) ++
    (if export_params.export_normals then
      (if export_params.export_uv then [] else ['/']) ++ '/' :: decimal vn
    else []) ++
    [' ']

/-- The single emitter run over the polygons of a mesh: one loop over the polygons
and one over the vertices of each, for every flag pair; `lines` holds the face lines
written so far, each a list of references. The UV index is read only with
`export_uv`. -/
def single_emitter_faces {F : Type} (export_params : OBJExportParams)
    (m : OBJ_obmesh_to_export F) (offset : Offset3) (lines : List (List (List Char))) :
    Option (List (List (List Char))) :=
  for_loop
    (fun i lines =>
      (m.polygon_list[i]?).bind fun polygon =>
      (for_loop
        (fun j line =>
          (polygon.vertex_index[j]?).bind fun vi =>
          (if export_params.export_uv then polygon.uv_vertex_index[j]? else some 0).bind
            fun ui =>
          some (line ++ [single_emitter_reference export_params (vi + offset.vertex)
            (ui + 1 + offset.uv) (i + 1 + offset.normal)]))
        polygon.total_vertices_per_poly 0 []).bind fun line =>
      some (lines ++ [line]))
    m.tot_poly 0 lines

/-- The characters of the vertex references of the `f` lines of an output, line by
line. -/
def face_text {F : Type} (out : List (Record F)) : List (List (List Char)) :=
  (f_lines out).map fun refs => refs.map FaceRef.text

/-! ## Example meshes -/

/-- Mesh A of the two-mesh scenario: three vertices and one triangle, whose vertex
indices are stored counted from 1. -/
def mesh_a : OBJ_obmesh_to_export Int :=
  { object := { id := { name := "OBMeshA" } }
    mvert := [{ co := ![0, 0, 0], no := ![0, 0, 32767] },
              { co := ![1, 0, 0], no := ![0, 0, 32767] },
              { co := ![0, 1, 0], no := ![0, 0, 32767] }]
    tot_vertices := 3
    uv_coords := [![0, 0], ![1, 0], ![0, 1]]
    tot_uv_vertices := 3
    polygon_list :=
      [{ total_vertices_per_poly := 3, vertex_index := [1, 2, 3], uv_vertex_index := [0, 1, 2] }]
    tot_poly := 1 }

/-- Mesh B of the two-mesh scenario: two vertices and one polygon over them. -/
def mesh_b : OBJ_obmesh_to_export Int :=
  { object := { id := { name := "OBMeshB" } }
    mvert := [{ co := ![2, 0, 0], no := ![0, 32767, 0] },
              { co := ![3, 0, 0], no := ![0, 32767, 0] }]
    tot_vertices := 2
    uv_coords := [![0, 0], ![1, 1]]
    tot_uv_vertices := 2
    polygon_list :=
      [{ total_vertices_per_poly := 2, vertex_index := [1, 2], uv_vertex_index := [1, 0] }]
    tot_poly := 1 }

/-- Mesh A with the triangle stored as the positions `[0, 1, 2]`, counted from 0. -/
def mesh_a_from_zero : OBJ_obmesh_to_export Int :=
  { mesh_a with
    polygon_list :=
      [{ total_vertices_per_poly := 3, vertex_index := [0, 1, 2], uv_vertex_index := [0, 1, 2] }] }

/-- Three vertices whose normals are not parallel, for the normal estimator. -/
def tilted_vertices : List (MVert Int) :=
  [{ co := ![0, 0, 0], no := ![5, -5, 32767] },
   { co := ![1, 0, 0], no := ![6, -6, 32767] },
   { co := ![0, 1, 0], no := ![0, 0, 32767] }]

/-- A polygon over `tilted_vertices` that lists its second vertex twice. -/
def tilted_polygon : Polygon :=
  { total_vertices_per_poly := 3, vertex_index := [1, 2, 2], uv_vertex_index := [] }

/-- A mesh whose counters promise more than its arrays hold: writing it reads
outside the vertex array. -/
def mesh_too_short : OBJ_obmesh_to_export Int :=
  { mesh_a with tot_vertices := 4 }

/-- Mesh A followed by a polygon without vertices. -/
def mesh_with_empty_polygon : OBJ_obmesh_to_export Int :=
  { mesh_a with
    polygon_list :=
      [{ total_vertices_per_poly := 3, vertex_index := [1, 2, 3], uv_vertex_index := [0, 1, 2] },
       { total_vertices_per_poly := 0, vertex_index := [], uv_vertex_index := [] }]
    tot_poly := 2 }


/-- A mesh whose three counters are `2^31`: that many vertices at the origin, UV
points at the origin and polygons over the first vertex. -/
def huge_mesh : OBJ_obmesh_to_export Int :=
  { object := { id := { name := "OBHuge" } }
    mvert := List.replicate 2147483648 { co := ![0, 0, 0], no := ![0, 0, 32767] }
    tot_vertices := 2147483648
    uv_coords := List.replicate 2147483648 ![0, 0]
    tot_uv_vertices := 2147483648
    polygon_list :=
      List.replicate 2147483648
        { total_vertices_per_poly := 1, vertex_index := [1], uv_vertex_index := [0] }
    tot_poly := 2147483648 }

/-- A square of four vertices cut into two triangles. -/
def mesh_two_faces : OBJ_obmesh_to_export Int :=
  { object := { id := { name := "OBSquare" } }
    mvert := [{ co := ![0, 0, 0], no := ![0, 0, 32767] },
              { co := ![1, 0, 0], no := ![0, 0, 32767] },
              { co := ![1, 1, 0], no := ![0, 0, 32767] },
              { co := ![0, 1, 0], no := ![0, 0, 32767] }]
    tot_vertices := 4
    uv_coords := [![0, 0], ![1, 0], ![1, 1], ![0, 1]]
    tot_uv_vertices := 4
    polygon_list :=
      [{ total_vertices_per_poly := 3, vertex_index := [1, 2, 3], uv_vertex_index := [0, 1, 2] },
       { total_vertices_per_poly := 3, vertex_index := [1, 3, 4], uv_vertex_index := [0, 2, 3] }]
    tot_poly := 2 }

/-- One vertex whose normal has the components 32765 and -32765 on the x and y
axes. -/
def steep_vertices : List (MVert Int) :=
  [{ co := ![0, 0, 0], no := ![32765, -32765, 0] }]

/-- A polygon that lists the first vertex 513 times. -/
def polygon_of_513 : Polygon :=
  { total_vertices_per_poly := 513
    vertex_index := List.replicate 513 1
    uv_vertex_index := [] }
/-! ## Loops -/

theorem for_loop_fold_iff {σ β : Type} (body : Nat → σ → Option σ) (h : Nat → Option β)
    (step : σ → β → σ) (hb : ∀ k s, body k s = (h k).bind fun y => some (step s y)) :
    ∀ (c i : Nat) (s res : σ),
      for_loop body c i s = some res ↔
        ∃ ys : List β, res = ys.foldl step s ∧ ys.length = c ∧
          ∀ k, k < c → h (i + k) = ys[k]? := by
  intro c
  induction c with
  | zero =>
    intro i s res
    constructor
    · intro hres
      simp only [for_loop, Option.some.injEq] at hres
      exact ⟨[], by simp [hres], rfl, by intro k hk; omega⟩
    · rintro ⟨ys, rfl, hlen, -⟩
      have : ys = [] := List.length_eq_zero.mp hlen
      simp [for_loop, this]
  | succ c ih =>
    intro i s res
    rw [for_loop, hb]
    cases hi : h i with
    | none =>
      constructor
      · intro hcontra
        cases hcontra
      · rintro ⟨ys, -, hlen, hk⟩
        have h0 := hk 0 (by omega)
        rw [Nat.add_zero, hi] at h0
        cases ys with
        | nil => simp at hlen
        | cons y ys => simp at h0
    | some y =>
      show for_loop body c (i + 1) (step s y) = some res ↔ _
      rw [ih]
      constructor
      · rintro ⟨ys, rfl, hlen, hk⟩
        refine ⟨y :: ys, by simp, by simp [hlen], ?_⟩
        intro k hkc
        cases k with
        | zero => simpa using hi
        | succ k =>
          have := hk k (by omega)
          simpa [Nat.add_assoc, Nat.add_comm 1 k] using this
      · rintro ⟨ys, rfl, hlen, hk⟩
        cases ys with
        | nil => simp at hlen
        | cons y' ys =>
          have h0 := hk 0 (by omega)
          rw [Nat.add_zero, hi] at h0
          simp only [List.getElem?_cons_zero, Option.some.injEq] at h0
          subst h0
          refine ⟨ys, by simp, by simpa using hlen, ?_⟩
          intro k hkc
          have := hk (k + 1) (by omega)
          simpa [Nat.add_assoc, Nat.add_comm 1 k] using this

theorem foldl_snoc_eq_append {β : Type} (ys s : List β) :
    ys.foldl (fun acc y => acc ++ [y]) s = s ++ ys := by
  induction ys generalizing s with
  | nil => simp
  | cons y ys ih => simp [ih]

/-- A loop whose iteration `k` appends the line `h k`: it succeeds exactly when
every iteration does, and then appends the lines in order. -/
theorem for_loop_emit_iff {β : Type} (body : Nat → List β → Option (List β))
    (h : Nat → Option β) (hb : ∀ k s, body k s = (h k).bind fun y => some (s ++ [y]))
    (c i : Nat) (s res : List β) :
    for_loop body c i s = some res ↔
      ∃ ys : List β, res = s ++ ys ∧ ys.length = c ∧ ∀ k, k < c → h (i + k) = ys[k]? := by
  rw [for_loop_fold_iff body h (fun acc y => acc ++ [y]) hb]
  simp only [foldl_snoc_eq_append]

theorem for_loop_succ {σ : Type} (body : Nat → σ → Option σ) (c i : Nat) (s : σ) :
    for_loop body (c + 1) i s = (for_loop body c i s).bind (body (i + c)) := by
  induction c generalizing i s with
  | zero => simp [for_loop]
  | succ c ih =>
    rw [for_loop]
    cases hb : body i s with
    | none => simp [for_loop, hb]
    | some s' =>
      simp only [Option.some_bind]
      rw [ih]
      conv_rhs => rw [for_loop, hb]
      simp [Nat.add_assoc, Nat.add_comm 1 c]

/-! ## Closed forms of the loops -/

theorem index_at_pred {α : Type} (l : List α) (s : Nat) (h1 : 1 ≤ s) :
    index_at l ((s : Int) - 1) = l[s - 1]? := by
  unfold index_at
  have h2 : ¬ ((s : Int) - 1 < 0) := by omega
  have h3 : ((s : Int) - 1).toNat = s - 1 := by omega
  rw [if_neg h2, h3]

theorem write_vertices_eq {F : Type} (m : OBJ_obmesh_to_export F) (out : List (Record F))
    (h : m.tot_vertices ≤ m.mvert.length) :
    write_vertices m out = some (out ++ v_block m) := by
  unfold write_vertices
  rw [for_loop_emit_iff _
    (fun i => (m.mvert[i]?).map fun vertex =>
      Record.v (vertex.co 0) (vertex.co 1) (vertex.co 2))
    (by intro k s; dsimp only; cases m.mvert[k]? <;> rfl)]
  refine ⟨v_block m, rfl, by simp [v_block, h], ?_⟩
  intro k hk
  simp [v_block, List.getElem?_map, List.getElem?_take, hk]

theorem write_uv_vertices_eq {F : Type} (m : OBJ_obmesh_to_export F) (out : List (Record F))
    (h : m.tot_uv_vertices ≤ m.uv_coords.length) :
    write_uv_vertices m out = some (out ++ vt_block m) := by
  unfold write_uv_vertices
  rw [for_loop_emit_iff _
    (fun i => (m.uv_coords[i]?).map fun uv_vertex => Record.vt (uv_vertex 0) (uv_vertex 1))
    (by intro k s; dsimp only; cases m.uv_coords[k]? <;> rfl)]
  refine ⟨vt_block m, rfl, by simp [vt_block, h], ?_⟩
  intro k hk
  simp [vt_block, List.getElem?_map, List.getElem?_take, hk]

theorem normal_loop_eq {F : Type} (polygon : Polygon) (axis : Fin 3)
    (vertex_list : List (MVert F))
    (hlen : polygon.total_vertices_per_poly ≤ polygon.vertex_index.length)
    (hidx : ∀ s ∈ polygon.vertex_index.take polygon.total_vertices_per_poly,
      1 ≤ s ∧ s ≤ vertex_list.length) :
    for_loop
      (fun i (sum : Int) =>
        (polygon.vertex_index[i]?).bind fun (s : Nat) =>
        (index_at vertex_list ((s : Int) - 1)).bind fun vertex =>
        some (f32_add sum (vertex.no axis)))
      polygon.total_vertices_per_poly 0 0
      = some (f32_sum (normal_components polygon axis vertex_list)) := by
  rw [for_loop_fold_iff _
    (fun i => (polygon.vertex_index[i]?).bind fun (s : Nat) =>
      (index_at vertex_list ((s : Int) - 1)).map fun vertex => vertex.no axis)
    f32_add
    (by
      intro k s
      dsimp only
      cases polygon.vertex_index[k]? with
      | none => rfl
      | some s' =>
        simp only [Option.some_bind]
        cases index_at vertex_list ((s' : Int) - 1) <;> rfl)]
  refine ⟨normal_components polygon axis vertex_list, ?_, ?_, ?_⟩
  · rfl
  · simp [normal_components, hlen]
  · intro k hk
    have hk' : k < polygon.vertex_index.length := by omega
    have hget : polygon.vertex_index[k]? = some polygon.vertex_index[k] :=
      List.getElem?_eq_getElem hk'
    have hmem : polygon.vertex_index[k] ∈
        polygon.vertex_index.take polygon.total_vertices_per_poly := by
      rw [List.mem_iff_getElem?]
      exact ⟨k, by simp [List.getElem?_take, hk, hget]⟩
    obtain ⟨h1, h2⟩ := hidx _ hmem
    have hv : vertex_list[polygon.vertex_index[k] - 1]? =
        some vertex_list[polygon.vertex_index[k] - 1] :=
      List.getElem?_eq_getElem (by omega)
    simp [normal_components, List.getElem?_map, List.getElem?_take, hk, hget,
      index_at_pred _ _ h1, hv]

theorem face_normal_axis_component_eq {F : Type} (polygon : Polygon) (axis : Fin 3)
    (vertex_list : List (MVert F)) (hn : 0 < polygon.total_vertices_per_poly)
    (hlen : polygon.total_vertices_per_poly ≤ polygon.vertex_index.length)
    (hidx : ∀ s ∈ polygon.vertex_index.take polygon.total_vertices_per_poly,
      1 ≤ s ∧ s ≤ vertex_list.length) :
    face_normal_axis_component polygon axis vertex_list =
      some (averaged_normal polygon axis vertex_list) := by
  unfold face_normal_axis_component
  rw [normal_loop_eq polygon axis vertex_list hlen hidx]
  have h0 : polygon.total_vertices_per_poly ≠ 0 := by omega
  simp [h0, averaged_normal]

theorem write_face_normals_eq {F : Type} (m : OBJ_obmesh_to_export F) (out : List (Record F))
    (h : m.tot_poly ≤ m.polygon_list.length)
    (hp : ∀ polygon ∈ m.polygon_list.take m.tot_poly,
      0 < polygon.total_vertices_per_poly ∧
      polygon.total_vertices_per_poly ≤ polygon.vertex_index.length ∧
      ∀ s ∈ polygon.vertex_index.take polygon.total_vertices_per_poly,
        1 ≤ s ∧ s ≤ m.mvert.length) :
    write_face_normals m out = some (out ++ vn_block m) := by
  unfold write_face_normals
  rw [for_loop_emit_iff _
    (fun i => (m.polygon_list[i]?).bind fun polygon =>
      (face_normal_axis_component polygon AXIS_X m.mvert).bind fun nx =>
      (face_normal_axis_component polygon AXIS_Y m.mvert).bind fun ny =>
      (face_normal_axis_component polygon AXIS_Z m.mvert).bind fun nz =>
      some (Record.vn nx ny nz))
    (by
      intro k s
      dsimp only
      cases m.polygon_list[k]? with
      | none => rfl
      | some polygon =>
        simp only [Option.some_bind]
        cases face_normal_axis_component polygon AXIS_X m.mvert <;>
        cases face_normal_axis_component polygon AXIS_Y m.mvert <;>
        cases face_normal_axis_component polygon AXIS_Z m.mvert <;> rfl)]
  refine ⟨vn_block m, rfl, by simp [vn_block, h], ?_⟩
  intro k hk
  have hk' : k < m.polygon_list.length := by omega
  have hget : m.polygon_list[k]? = some m.polygon_list[k] := List.getElem?_eq_getElem hk'
  have hmem : m.polygon_list[k] ∈ m.polygon_list.take m.tot_poly := by
    rw [List.mem_iff_getElem?]
    exact ⟨k, by simp [List.getElem?_take, hk, hget]⟩
  obtain ⟨h1, h2, h3⟩ := hp _ hmem
  simp [vn_block, List.getElem?_map, List.getElem?_take, hk, hget,
    face_normal_axis_component_eq _ _ _ h1 h2 h3]

theorem inner_loop_map (vis : List Nat) (mk : Nat → FaceRef) (n : Nat)
    (h1 : n ≤ vis.length) :
    for_loop
      (fun j line => (vis[j]?).bind fun vi => some (line ++ [mk vi])) n 0 []
      = some ((vis.take n).map mk) := by
  rw [for_loop_emit_iff _ (fun j => (vis[j]?).map mk)
    (by intro k s; dsimp only; cases vis[k]? <;> rfl)]
  refine ⟨(vis.take n).map mk, by simp, by simp [h1], ?_⟩
  intro k hk
  simp [List.getElem?_map, List.getElem?_take, hk]

theorem inner_loop_zip (vis uis : List Nat) (mk : Nat → Nat → FaceRef) (n : Nat)
    (h1 : n ≤ vis.length) (h2 : n ≤ uis.length) :
    for_loop
      (fun j line =>
        (vis[j]?).bind fun vi => (uis[j]?).bind fun ui => some (line ++ [mk vi ui])) n 0 []
      = some (List.zipWith mk (vis.take n) (uis.take n)) := by
  rw [for_loop_emit_iff _
    (fun j => (vis[j]?).bind fun vi => (uis[j]?).map fun ui => mk vi ui)
    (by
      intro k s
      dsimp only
      cases vis[k]? with
      | none => rfl
      | some vi =>
        simp only [Option.some_bind]
        cases uis[k]? <;> rfl)]
  refine ⟨List.zipWith mk (vis.take n) (uis.take n), by simp, by simp [h1, h2], ?_⟩
  intro k hk
  have hv : vis[k]? = some vis[k] := List.getElem?_eq_getElem (by omega)
  have hu : uis[k]? = some uis[k] := List.getElem?_eq_getElem (by omega)
  simp [List.getElem?_zipWith, List.getElem?_take, hk, hv, hu]

theorem mem_take_of_getElem? {α : Type} (l : List α) (n k : Nat) (a : α) (hk : k < n)
    (h : l[k]? = some a) : a ∈ l.take n := by
  rw [List.mem_iff_getElem?]
  exact ⟨k, by simp [List.getElem?_take, hk, h]⟩

theorem face_loop_eq {F : Type} (m : OBJ_obmesh_to_export F) (out : List (Record F))
    (inner : Nat → Polygon → Option (List FaceRef)) (line : Nat → Polygon → List FaceRef)
    (h : m.tot_poly ≤ m.polygon_list.length)
    (hin : ∀ i, ∀ polygon ∈ m.polygon_list.take m.tot_poly,
      inner i polygon = some (line i polygon)) :
    for_loop
      (fun i out =>
        (m.polygon_list[i]?).bind fun polygon =>
        (inner i polygon).bind fun l => some (out ++ [Record.f l]))
      m.tot_poly 0 out
      = some (out ++ (m.polygon_list.take m.tot_poly).mapIdx fun i polygon =>
          Record.f (line i polygon)) := by
  rw [for_loop_emit_iff _
    (fun i => (m.polygon_list[i]?).bind fun polygon =>
      (inner i polygon).map fun l => Record.f l)
    (by
      intro k s
      dsimp only
      cases m.polygon_list[k]? with
      | none => rfl
      | some polygon =>
        simp only [Option.some_bind]
        cases inner k polygon <;> rfl)]
  refine ⟨_, rfl, by simp [h], ?_⟩
  intro k hk
  have hget : m.polygon_list[k]? = some m.polygon_list[k] :=
    List.getElem?_eq_getElem (by omega)
  have hmem := mem_take_of_getElem? _ _ _ _ hk hget
  simp [List.getElem?_mapIdx, List.getElem?_take, hk, hget, hin k _ hmem]

theorem write_faces_eq {F : Type} (export_params : OBJExportParams)
    (m : OBJ_obmesh_to_export F) (offset : Offset3) (out : List (Record F))
    (h : m.tot_poly ≤ m.polygon_list.length)
    (hp : ∀ polygon ∈ m.polygon_list.take m.tot_poly,
      polygon.total_vertices_per_poly ≤ polygon.vertex_index.length ∧
      (export_params.export_uv = true →
        polygon.total_vertices_per_poly ≤ polygon.uv_vertex_index.length)) :
    (if export_params.export_normals then
      if export_params.export_uv then write_faces_v_vt_vn m offset out
      else write_faces_v_vn m offset out
    else
      if export_params.export_uv then write_faces_v_vt m offset out
      else write_faces_v m offset out)
      = some (out ++ f_block export_params offset m) := by
  obtain ⟨uv, normals⟩ := export_params
  cases uv <;> cases normals
  · simp only [Bool.false_eq_true, if_false]
    exact face_loop_eq m out _ (face_line ⟨false, false⟩ offset) h (by
      intro i polygon hmem
      simpa [face_line] using inner_loop_map _ _ _ (hp polygon hmem).1)
  · simp only [Bool.false_eq_true, if_false, if_true]
    exact face_loop_eq m out _ (face_line ⟨false, true⟩ offset) h (by
      intro i polygon hmem
      simpa [face_line] using inner_loop_map _ _ _ (hp polygon hmem).1)
  · simp only [Bool.false_eq_true, if_false, if_true]
    exact face_loop_eq m out _ (face_line ⟨true, false⟩ offset) h (by
      intro i polygon hmem
      simpa [face_line] using
        inner_loop_zip _ _ _ _ (hp polygon hmem).1 ((hp polygon hmem).2 rfl))
  · simp only [if_true]
    exact face_loop_eq m out _ (face_line ⟨true, true⟩ offset) h (by
      intro i polygon hmem
      simpa [face_line] using
        inner_loop_zip _ _ _ _ (hp polygon hmem).1 ((hp polygon hmem).2 rfl))

/-- The lines written for a readable mesh. -/
theorem write_geomtery_per_mesh_eq {F : Type} (export_params : OBJExportParams)
    (m : OBJ_obmesh_to_export F) (offset : Offset3) (out : List (Record F))
    (hr : readable export_params m) :
    write_geomtery_per_mesh out m offset export_params
      = some (out ++ mesh_block export_params offset m) := by
  obtain ⟨hv, huv, hpoly, hp⟩ := hr
  unfold write_geomtery_per_mesh
  rw [write_vertices_eq m _ hv]
  simp only [Option.some_bind]
  have h2 : (if export_params.export_uv = true then
        write_uv_vertices m (out ++ [Record.o (m.object.id.name.drop 2)] ++ v_block m)
      else some (out ++ [Record.o (m.object.id.name.drop 2)] ++ v_block m))
      = some (out ++ [Record.o (m.object.id.name.drop 2)] ++ v_block m ++
          (if export_params.export_uv then vt_block m else [])) := by
    by_cases hu : export_params.export_uv = true
    · simp only [hu, if_true]
      exact write_uv_vertices_eq m _ (huv hu)
    · simp [hu]
  rw [h2]
  simp only [Option.some_bind]
  have h3 : ∀ o : List (Record F), (if export_params.export_normals = true then
        write_face_normals m o else some o)
      = some (o ++ (if export_params.export_normals then vn_block m else [])) := by
    intro o
    by_cases hn : export_params.export_normals = true
    · simp only [hn, if_true]
      exact write_face_normals_eq m _ hpoly (by
        intro polygon hmem
        obtain ⟨a, -, c⟩ := hp polygon hmem
        exact ⟨(c hn).1, a, (c hn).2⟩)
    · simp [hn]
  rw [h3]
  simp only [Option.some_bind]
  rw [write_faces_eq export_params m offset _ hpoly (by
    intro polygon hmem
    exact ⟨(hp polygon hmem).1, (hp polygon hmem).2.1⟩)]
  simp [mesh_block, List.append_assoc]

/-! ## The loop over the meshes -/

theorem uint32_add_left (a b : Nat) : uint32 (uint32 a + b) = uint32 (a + b) := by
  unfold uint32
  omega

theorem uint32_of_lt (n : Nat) (h : n < 4294967296) : uint32 n = n := by
  unfold uint32
  omega

theorem offset_after_take_succ {F : Type} (meshes : List (OBJ_obmesh_to_export F)) (k : Nat)
    (m : OBJ_obmesh_to_export F) (hm : meshes[k]? = some m) :
    offset_after (meshes.take (k + 1)) =
      { vertex := uint32 ((offset_after (meshes.take k)).vertex + m.tot_vertices)
        uv := uint32 ((offset_after (meshes.take k)).uv + m.tot_uv_vertices)
        normal := uint32 ((offset_after (meshes.take k)).normal + m.tot_poly) } := by
  simp [offset_after, List.take_succ, hm, uint32_add_left]

theorem export_loop_succ {F : Type} (meshes : List (OBJ_obmesh_to_export F))
    (export_params : OBJExportParams) (k : Nat) :
    export_loop meshes export_params (k + 1) =
      (export_loop meshes export_params k).bind (export_mesh_step meshes export_params k) := by
  unfold export_loop
  rw [for_loop_succ, Nat.zero_add]

theorem export_loop_eq {F : Type} (meshes : List (OBJ_obmesh_to_export F))
    (export_params : OBJExportParams) (k : Nat) (hk : k ≤ meshes.length)
    (hr : ∀ m ∈ meshes.take k, readable export_params m) :
    export_loop meshes export_params k =
      some { outfile := file_after export_params meshes k
             index_offset := offset_after (meshes.take k) } := by
  induction k with
  | zero => simp [export_loop, for_loop, file_after, offset_after, uint32]
  | succ k ih =>
    have hget : meshes[k]? = some meshes[k] := List.getElem?_eq_getElem (by omega)
    have hmem : meshes[k] ∈ meshes.take (k + 1) :=
      mem_take_of_getElem? _ _ _ _ (by omega) hget
    have hprev : ∀ m ∈ meshes.take k, readable export_params m := by
      intro m hm
      apply hr
      rw [List.take_succ]
      exact List.mem_append_left _ hm
    rw [export_loop_succ, ih (by omega) hprev]
    simp only [Option.some_bind, export_mesh_step, hget]
    rw [write_geomtery_per_mesh_eq export_params _ _ _ (hr _ hmem)]
    simp only [Option.some_bind, file_after, hget,
      offset_after_take_succ meshes k _ hget]

theorem file_after_le {F : Type} (export_params : OBJExportParams)
    (meshes : List (OBJ_obmesh_to_export F)) (k n : Nat) (hkn : k ≤ n) :
    ∃ rest, file_after export_params meshes n = file_after export_params meshes k ++ rest := by
  induction n with
  | zero =>
    have : k = 0 := by omega
    subst this
    exact ⟨[], by simp⟩
  | succ n ih =>
    by_cases hk : k = n + 1
    · subst hk
      exact ⟨[], by simp⟩
    · obtain ⟨rest, hrest⟩ := ih (by omega)
      refine ⟨rest ++ (match meshes[n]? with
        | some m => mesh_block export_params (offset_after (meshes.take n)) m
        | none => []), ?_⟩
      rw [file_after, hrest, List.append_assoc]

/-! ## The lines of each kind in a block and in the file -/

theorem filterMap_mapIdx_some {α β γ : Type} (g : β → Option γ) (f : Nat → α → β)
    (f' : Nat → α → γ) (hg : ∀ i a, g (f i a) = some (f' i a)) (l : List α) :
    (l.mapIdx f).filterMap g = l.mapIdx f' := by
  induction l generalizing f f' with
  | nil => simp
  | cons a l ih =>
    rw [List.mapIdx_cons, List.mapIdx_cons, List.filterMap_cons_some (hg 0 a)]
    rw [ih (fun i => f (i + 1)) (fun i => f' (i + 1)) (fun i a => hg (i + 1) a)]

theorem filterMap_mapIdx_none {α β γ : Type} (g : β → Option γ) (f : Nat → α → β)
    (hg : ∀ i a, g (f i a) = none) (l : List α) :
    (l.mapIdx f).filterMap g = [] := by
  induction l generalizing f with
  | nil => simp
  | cons a l ih =>
    rw [List.mapIdx_cons, List.filterMap_cons_none (hg 0 a)]
    exact ih (fun i => f (i + 1)) (fun i a => hg (i + 1) a)

theorem filterMap_map_some {α β γ : Type} (g : β → Option γ) (f : α → β) (f' : α → γ)
    (hg : ∀ a, g (f a) = some (f' a)) (l : List α) :
    (l.map f).filterMap g = l.map f' := by
  induction l with
  | nil => simp
  | cons a l ih => rw [List.map_cons, List.filterMap_cons_some (hg a), ih, List.map_cons]

theorem filterMap_map_none {α β γ : Type} (g : β → Option γ) (f : α → β)
    (hg : ∀ a, g (f a) = none) (l : List α) :
    (l.map f).filterMap g = [] := by
  induction l with
  | nil => simp
  | cons a l ih => rw [List.map_cons, List.filterMap_cons_none (hg a), ih]

theorem v_lines_mesh_block {F : Type} (export_params : OBJExportParams) (offset : Offset3)
    (m : OBJ_obmesh_to_export F) :
    v_lines (mesh_block export_params offset m) =
      (m.mvert.take m.tot_vertices).map fun vertex =>
        (vertex.co 0, vertex.co 1, vertex.co 2) := by
  have h1 : v_lines (v_block m) = (m.mvert.take m.tot_vertices).map fun vertex =>
      (vertex.co 0, vertex.co 1, vertex.co 2) := by
    unfold v_lines v_block
    apply filterMap_map_some
    intro a
    rfl
  have h2 : v_lines (vt_block m) = [] := by
    unfold v_lines vt_block
    exact filterMap_map_none _ _ (fun _ => rfl) _
  have h3 : v_lines (vn_block m) = [] := by
    unfold v_lines vn_block
    exact filterMap_map_none _ _ (fun _ => rfl) _
  have h4 : v_lines (f_block export_params offset m) = [] :=
    filterMap_mapIdx_none _ _ (fun _ _ => rfl) _
  have happ : ∀ a b : List (Record F), v_lines (a ++ b) = v_lines a ++ v_lines b :=
    fun a b => List.filterMap_append a b _
  have hcons : ∀ b : List (Record F),
      v_lines (Record.o (m.object.id.name.drop 2) :: b) = v_lines b := fun b => rfl
  have hnil : v_lines ([] : List (Record F)) = [] := rfl
  rw [mesh_block, happ, happ, happ, hcons, h1, h4]
  cases export_params.export_uv <;> cases export_params.export_normals <;>
    simp [h2, h3, hnil]

theorem vt_lines_mesh_block {F : Type} (export_params : OBJExportParams) (offset : Offset3)
    (m : OBJ_obmesh_to_export F) :
    vt_lines (mesh_block export_params offset m) =
      if export_params.export_uv then
        (m.uv_coords.take m.tot_uv_vertices).map fun uv_vertex => (uv_vertex 0, uv_vertex 1)
      else [] := by
  have h1 : vt_lines (v_block m) = [] := by
    unfold vt_lines v_block
    exact filterMap_map_none _ _ (fun _ => rfl) _
  have h2 : vt_lines (vt_block m) =
      (m.uv_coords.take m.tot_uv_vertices).map fun uv_vertex => (uv_vertex 0, uv_vertex 1) := by
    unfold vt_lines vt_block
    apply filterMap_map_some
    intro a
    rfl
  have h3 : vt_lines (vn_block m) = [] := by
    unfold vt_lines vn_block
    exact filterMap_map_none _ _ (fun _ => rfl) _
  have h4 : vt_lines (f_block export_params offset m) = [] :=
    filterMap_mapIdx_none _ _ (fun _ _ => rfl) _
  have happ : ∀ a b : List (Record F), vt_lines (a ++ b) = vt_lines a ++ vt_lines b :=
    fun a b => List.filterMap_append a b _
  have hcons : ∀ b : List (Record F),
      vt_lines (Record.o (m.object.id.name.drop 2) :: b) = vt_lines b := fun b => rfl
  have hnil : vt_lines ([] : List (Record F)) = [] := rfl
  rw [mesh_block, happ, happ, happ, hcons, h1, h4]
  cases export_params.export_uv <;> cases export_params.export_normals <;>
    simp [h2, h3, hnil]

theorem vn_lines_mesh_block {F : Type} (export_params : OBJExportParams) (offset : Offset3)
    (m : OBJ_obmesh_to_export F) :
    vn_lines (mesh_block export_params offset m) =
      if export_params.export_normals then
        (m.polygon_list.take m.tot_poly).map fun polygon =>
          (averaged_normal polygon AXIS_X m.mvert, averaged_normal polygon AXIS_Y m.mvert,
            averaged_normal polygon AXIS_Z m.mvert)
      else [] := by
  have h1 : vn_lines (v_block m) = [] := by
    unfold vn_lines v_block
    exact filterMap_map_none _ _ (fun _ => rfl) _
  have h2 : vn_lines (vt_block m) = [] := by
    unfold vn_lines vt_block
    exact filterMap_map_none _ _ (fun _ => rfl) _
  have h3 : vn_lines (vn_block m) =
      (m.polygon_list.take m.tot_poly).map fun polygon =>
        (averaged_normal polygon AXIS_X m.mvert, averaged_normal polygon AXIS_Y m.mvert,
          averaged_normal polygon AXIS_Z m.mvert) := by
    unfold vn_lines vn_block
    apply filterMap_map_some
    intro a
    rfl
  have h4 : vn_lines (f_block export_params offset m) = [] :=
    filterMap_mapIdx_none _ _ (fun _ _ => rfl) _
  have happ : ∀ a b : List (Record F), vn_lines (a ++ b) = vn_lines a ++ vn_lines b :=
    fun a b => List.filterMap_append a b _
  have hcons : ∀ b : List (Record F),
      vn_lines (Record.o (m.object.id.name.drop 2) :: b) = vn_lines b := fun b => rfl
  have hnil : vn_lines ([] : List (Record F)) = [] := rfl
  rw [mesh_block, happ, happ, happ, hcons, h1, h4]
  cases export_params.export_uv <;> cases export_params.export_normals <;>
    simp [h2, h3, hnil]

theorem f_lines_mesh_block {F : Type} (export_params : OBJExportParams) (offset : Offset3)
    (m : OBJ_obmesh_to_export F) :
    f_lines (mesh_block export_params offset m) =
      (m.polygon_list.take m.tot_poly).mapIdx fun i polygon =>
        face_line export_params offset i polygon := by
  have h1 : f_lines (v_block m) = [] := by
    unfold f_lines v_block
    exact filterMap_map_none _ _ (fun _ => rfl) _
  have h2 : f_lines (vt_block m) = [] := by
    unfold f_lines vt_block
    exact filterMap_map_none _ _ (fun _ => rfl) _
  have h3 : f_lines (vn_block m) = [] := by
    unfold f_lines vn_block
    exact filterMap_map_none _ _ (fun _ => rfl) _
  have h4 : f_lines (f_block export_params offset m) =
      (m.polygon_list.take m.tot_poly).mapIdx fun i polygon =>
        face_line export_params offset i polygon := by
    unfold f_lines f_block
    apply filterMap_mapIdx_some
    intro i a
    rfl
  have happ : ∀ a b : List (Record F), f_lines (a ++ b) = f_lines a ++ f_lines b :=
    fun a b => List.filterMap_append a b _
  have hcons : ∀ b : List (Record F),
      f_lines (Record.o (m.object.id.name.drop 2) :: b) = f_lines b := fun b => rfl
  have hnil : f_lines ([] : List (Record F)) = [] := rfl
  rw [mesh_block, happ, happ, happ, hcons, h1, h4]
  cases export_params.export_uv <;> cases export_params.export_normals <;>
    simp [h2, h3, hnil]

theorem file_after_succ {F : Type} (export_params : OBJExportParams)
    (meshes : List (OBJ_obmesh_to_export F)) (k : Nat) (m : OBJ_obmesh_to_export F)
    (hm : meshes[k]? = some m) :
    file_after export_params meshes (k + 1) =
      file_after export_params meshes k ++
        mesh_block export_params (offset_after (meshes.take k)) m := by
  simp only [file_after, hm]

theorem sum_take_succ_map {F : Type} (meshes : List (OBJ_obmesh_to_export F)) (k : Nat)
    (m : OBJ_obmesh_to_export F) (hm : meshes[k]? = some m)
    (f : OBJ_obmesh_to_export F → Nat) :
    ((meshes.take (k + 1)).map f).sum = ((meshes.take k).map f).sum + f m := by
  simp [List.take_succ, hm]

/-- While the loop runs, the number of lines of each kind in the file is the sum of
the counters of that kind over the meshes written so far. -/
theorem file_after_counts {F : Type} (export_params : OBJExportParams)
    (meshes : List (OBJ_obmesh_to_export F)) (k : Nat) (hk : k ≤ meshes.length)
    (hr : ∀ m ∈ meshes.take k, readable export_params m) :
    (v_lines (file_after export_params meshes k)).length
        = ((meshes.take k).map fun m => m.tot_vertices).sum ∧
    (export_params.export_uv = true →
      (vt_lines (file_after export_params meshes k)).length
        = ((meshes.take k).map fun m => m.tot_uv_vertices).sum) ∧
    (export_params.export_normals = true →
      (vn_lines (file_after export_params meshes k)).length
        = ((meshes.take k).map fun m => m.tot_poly).sum) ∧
    (f_lines (file_after export_params meshes k)).length
        = ((meshes.take k).map fun m => m.tot_poly).sum := by
  induction k with
  | zero => simp [file_after, v_lines, vt_lines, vn_lines, f_lines]
  | succ k ih =>
    have hget : meshes[k]? = some meshes[k] := List.getElem?_eq_getElem (by omega)
    have hmem : meshes[k] ∈ meshes.take (k + 1) :=
      mem_take_of_getElem? _ _ _ _ (by omega) hget
    have hprev : ∀ m ∈ meshes.take k, readable export_params m := by
      intro m hm
      apply hr
      rw [List.take_succ]
      exact List.mem_append_left _ hm
    obtain ⟨ih1, ih2, ih3, ih4⟩ := ih (by omega) hprev
    obtain ⟨hv, huv, hpoly, -⟩ := hr _ hmem
    rw [file_after_succ _ _ _ _ hget, sum_take_succ_map _ _ _ hget,
      sum_take_succ_map _ _ _ hget, sum_take_succ_map _ _ _ hget]
    refine ⟨?_, ?_, ?_, ?_⟩
    · unfold v_lines at ih1 ⊢
      rw [List.filterMap_append, List.length_append, ih1]
      have := v_lines_mesh_block export_params (offset_after (meshes.take k)) meshes[k]
      unfold v_lines at this
      rw [this, List.length_map, List.length_take, Nat.min_eq_left hv]
    · intro hu
      unfold vt_lines at ih2 ⊢
      rw [List.filterMap_append, List.length_append, ih2 hu]
      have := vt_lines_mesh_block export_params (offset_after (meshes.take k)) meshes[k]
      unfold vt_lines at this
      rw [this, if_pos hu, List.length_map, List.length_take, Nat.min_eq_left (huv hu)]
    · intro hn
      unfold vn_lines at ih3 ⊢
      rw [List.filterMap_append, List.length_append, ih3 hn]
      have := vn_lines_mesh_block export_params (offset_after (meshes.take k)) meshes[k]
      unfold vn_lines at this
      rw [this, if_pos hn, List.length_map, List.length_take, Nat.min_eq_left hpoly]
    · unfold f_lines at ih4 ⊢
      rw [List.filterMap_append, List.length_append, ih4]
      have := f_lines_mesh_block export_params (offset_after (meshes.take k)) meshes[k]
      unfold f_lines at this
      rw [this, List.length_mapIdx, List.length_take, Nat.min_eq_left hpoly]

/-- The file written for readable meshes, split around the block of object `k`. -/
theorem export_split {F : Type} (meshes : List (OBJ_obmesh_to_export F))
    (export_params : OBJExportParams) (hr : ∀ m ∈ meshes, readable export_params m)
    (k : Nat) (mesh : OBJ_obmesh_to_export F) (hk : meshes[k]? = some mesh) :
    ∃ rest,
      write_object_fprintf true meshes export_params =
        some { file := some (file_after export_params meshes k ++
                  mesh_block export_params (offset_after (meshes.take k)) mesh ++ rest)
               stdout := [] } ∧
      export_loop meshes export_params k =
        some { outfile := file_after export_params meshes k
               index_offset := offset_after (meshes.take k) } ∧
      write_geomtery_per_mesh (file_after export_params meshes k) mesh
          (offset_after (meshes.take k)) export_params =
        some (file_after export_params meshes k ++
          mesh_block export_params (offset_after (meshes.take k)) mesh) := by
  have hlt : k < meshes.length := by
    by_contra hge
    rw [List.getElem?_eq_none (by omega)] at hk
    cases hk
  have hmesh : mesh ∈ meshes := List.getElem?_mem hk
  have htake : ∀ n, ∀ m ∈ meshes.take n, readable export_params m :=
    fun n m hm => hr m (List.mem_of_mem_take hm)
  obtain ⟨rest, hrest⟩ := file_after_le export_params meshes (k + 1) meshes.length (by omega)
  refine ⟨rest, ?_, export_loop_eq meshes export_params k (by omega) (htake k),
    write_geomtery_per_mesh_eq export_params mesh _ _ (hr mesh hmesh)⟩
  unfold write_object_fprintf
  rw [if_pos rfl, export_loop_eq meshes export_params meshes.length (Nat.le_refl _) (htake _)]
  simp only [Option.some_bind]
  rw [hrest, file_after_succ _ _ _ _ hk]

/-! ## C1: the offsets handed to the writer -/

theorem readable_huge_mesh (export_params : OBJExportParams) :
    readable export_params huge_mesh := by
  have hv : huge_mesh.mvert.length = 2147483648 := List.length_replicate _ _
  have hu : huge_mesh.uv_coords.length = 2147483648 := List.length_replicate _ _
  have hp : huge_mesh.polygon_list.length = 2147483648 := List.length_replicate _ _
  refine ⟨?_, ?_, ?_, ?_⟩
  · rw [hv]
    exact Nat.le_refl _
  · intro _
    rw [hu]
    exact Nat.le_refl _
  · rw [hp]
    exact Nat.le_refl _
  · intro polygon hmem
    have hrep : polygon ∈ List.replicate 2147483648
        ({ total_vertices_per_poly := 1, vertex_index := [1], uv_vertex_index := [0] } :
          Polygon) := List.mem_of_mem_take hmem
    rw [(List.mem_replicate.1 hrep).2, hv]
    obtain ⟨uv, normals⟩ := export_params
    cases uv <;> cases normals <;> decide

/-- C1 as stated fails: the counters are of type `uint`, so the sum is kept modulo
`2^32`. After two meshes of `2^31` vertices each, the third object is written with
the vertex offset `0`, while the sum of the earlier vertex counts is `2^32`. -/
theorem index_offset_wraps_counterexample :
    ¬ ∀ (meshes : List (OBJ_obmesh_to_export Int)) (export_params : OBJExportParams)
        (k : Nat) (mesh : OBJ_obmesh_to_export Int) (st : ExportState Int),
        meshes[k]? = some mesh →
        export_loop meshes export_params k = some st →
        st.index_offset.vertex = ((meshes.take k).map fun m => m.tot_vertices).sum ∧
        st.index_offset.uv = ((meshes.take k).map fun m => m.tot_uv_vertices).sum ∧
        st.index_offset.normal = ((meshes.take k).map fun m => m.tot_poly).sum := by
  intro h
  have hloop := export_loop_eq [huge_mesh, huge_mesh, mesh_a]
    { export_uv := false, export_normals := false } 2 (by decide)
    (by
      intro m hm
      have hm2 : m = huge_mesh := by
        simp only [List.take, List.mem_cons, List.mem_nil_iff, or_false, or_self] at hm
        exact hm
      rw [hm2]
      exact readable_huge_mesh _)
  have h0 := (h [huge_mesh, huge_mesh, mesh_a] { export_uv := false, export_normals := false }
    2 mesh_a _ rfl hloop).1
  exact absurd h0 (by decide)

/-- C1, amended: the offsets handed to `write_geomtery_per_mesh` for object `k` are
the sums of `tot_vertices`, `tot_uv_vertices` and `tot_poly` over the objects
`0 .. k-1` reduced modulo `2^32`, hence these sums themselves when they are below
`2^32`, and all zero for `k = 0`: after `k` iterations the loop state holds them,
and iteration `k` calls the writer with that state and then adds the counters of
object `k` in `uint` arithmetic. -/
theorem index_offset_is_sum_of_earlier_counts {F : Type}
    (meshes : List (OBJ_obmesh_to_export F)) (export_params : OBJExportParams)
    (k : Nat) (mesh : OBJ_obmesh_to_export F) (hk : meshes[k]? = some mesh)
    (hr : ∀ m ∈ meshes.take k, readable export_params m) :
    ∃ st : ExportState F,
      export_loop meshes export_params k = some st ∧
      st.index_offset.vertex = uint32 ((meshes.take k).map fun m => m.tot_vertices).sum ∧
      st.index_offset.uv = uint32 ((meshes.take k).map fun m => m.tot_uv_vertices).sum ∧
      st.index_offset.normal = uint32 ((meshes.take k).map fun m => m.tot_poly).sum ∧
      (((meshes.take k).map fun m => m.tot_vertices).sum < 4294967296 →
        st.index_offset.vertex = ((meshes.take k).map fun m => m.tot_vertices).sum) ∧
      (((meshes.take k).map fun m => m.tot_uv_vertices).sum < 4294967296 →
        st.index_offset.uv = ((meshes.take k).map fun m => m.tot_uv_vertices).sum) ∧
      (((meshes.take k).map fun m => m.tot_poly).sum < 4294967296 →
        st.index_offset.normal = ((meshes.take k).map fun m => m.tot_poly).sum) ∧
      (k = 0 → st.index_offset = { vertex := 0, uv := 0, normal := 0 }) ∧
      export_loop meshes export_params (k + 1) =
        (write_geomtery_per_mesh st.outfile mesh st.index_offset export_params).map
          fun out =>
            { outfile := out
              index_offset :=
                { vertex := uint32 (st.index_offset.vertex + mesh.tot_vertices)
                  uv := uint32 (st.index_offset.uv + mesh.tot_uv_vertices)
                  normal := uint32 (st.index_offset.normal + mesh.tot_poly) } } := by
  have hlt : k < meshes.length := by
    by_contra hge
    rw [List.getElem?_eq_none (by omega)] at hk
    cases hk
  have hloop := export_loop_eq meshes export_params k (by omega) hr
  refine ⟨_, hloop, rfl, rfl, rfl, fun h => uint32_of_lt _ h, fun h => uint32_of_lt _ h,
    fun h => uint32_of_lt _ h, ?_, ?_⟩
  · intro h0
    subst h0
    rfl
  · rw [export_loop_succ, hloop]
    simp only [Option.some_bind, export_mesh_step, hk]
    cases write_geomtery_per_mesh (file_after export_params meshes k) mesh
      (offset_after (meshes.take k)) export_params <;> rfl

/-- C1, two-mesh scenario: Mesh B is written with vertex offset 3, and its face
line carries the indices 4 and 5. -/
theorem index_offset_is_sum_of_earlier_counts_witness :
    (∃ st : ExportState Int,
      export_loop [mesh_a, mesh_b] { export_uv := false, export_normals := false } 1
        = some st ∧
      st.index_offset.vertex
        = uint32 (([mesh_a, mesh_b].take 1).map fun m => m.tot_vertices).sum ∧
      st.index_offset.uv
        = uint32 (([mesh_a, mesh_b].take 1).map fun m => m.tot_uv_vertices).sum ∧
      st.index_offset.normal
        = uint32 (([mesh_a, mesh_b].take 1).map fun m => m.tot_poly).sum ∧
      ((([mesh_a, mesh_b].take 1).map fun m => m.tot_vertices).sum < 4294967296 →
        st.index_offset.vertex = (([mesh_a, mesh_b].take 1).map fun m => m.tot_vertices).sum) ∧
      ((([mesh_a, mesh_b].take 1).map fun m => m.tot_uv_vertices).sum < 4294967296 →
        st.index_offset.uv = (([mesh_a, mesh_b].take 1).map fun m => m.tot_uv_vertices).sum) ∧
      ((([mesh_a, mesh_b].take 1).map fun m => m.tot_poly).sum < 4294967296 →
        st.index_offset.normal = (([mesh_a, mesh_b].take 1).map fun m => m.tot_poly).sum) ∧
      ((1 : Nat) = 0 → st.index_offset = { vertex := 0, uv := 0, normal := 0 }) ∧
      export_loop [mesh_a, mesh_b] { export_uv := false, export_normals := false } (1 + 1) =
        (write_geomtery_per_mesh st.outfile mesh_b st.index_offset
          { export_uv := false, export_normals := false }).map
          fun out =>
            { outfile := out
              index_offset :=
                { vertex := uint32 (st.index_offset.vertex + mesh_b.tot_vertices)
                  uv := uint32 (st.index_offset.uv + mesh_b.tot_uv_vertices)
                  normal := uint32 (st.index_offset.normal + mesh_b.tot_poly) } }) ∧
    (export_loop [mesh_a, mesh_b] { export_uv := false, export_normals := false } 1).map
        (fun st => st.index_offset) = some { vertex := 3, uv := 3, normal := 1 } ∧
    write_object_fprintf true [mesh_a, mesh_b] { export_uv := false, export_normals := false }
      = some
        { file := some
            [Record.comment "Blender 2.90",
             Record.o "MeshA", Record.v 0 0 0, Record.v 1 0 0, Record.v 0 1 0,
             Record.f [FaceRef.v 1, FaceRef.v 2, FaceRef.v 3],
             Record.o "MeshB", Record.v 2 0 0, Record.v 3 0 0,
             Record.f [FaceRef.v 4, FaceRef.v 5]]
          stdout := [] } :=
  ⟨index_offset_is_sum_of_earlier_counts [mesh_a, mesh_b]
      { export_uv := false, export_normals := false } 1 mesh_b rfl (by decide),
    by decide, by decide⟩
/-! ## Vertex references of a face line -/

theorem face_line_length (export_params : OBJExportParams) (offset : Offset3) (i : Nat)
    (polygon : Polygon)
    (h1 : polygon.total_vertices_per_poly ≤ polygon.vertex_index.length)
    (h2 : export_params.export_uv = true →
      polygon.total_vertices_per_poly ≤ polygon.uv_vertex_index.length) :
    (face_line export_params offset i polygon).length = polygon.total_vertices_per_poly := by
  obtain ⟨uv, normals⟩ := export_params
  cases uv <;> cases normals <;> simp [face_line, h1] <;> exact h2 rfl

theorem face_line_getElem? (export_params : OBJExportParams) (offset : Offset3) (i : Nat)
    (polygon : Polygon) (j vi : Nat) (hj : j < polygon.total_vertices_per_poly)
    (hvi : polygon.vertex_index[j]? = some vi)
    (h2 : export_params.export_uv = true →
      polygon.total_vertices_per_poly ≤ polygon.uv_vertex_index.length) :
    (face_line export_params offset i polygon)[j]? =
      some (face_ref export_params offset i vi (polygon.uv_vertex_index.getD j 0)) := by
  obtain ⟨uv, normals⟩ := export_params
  cases uv <;> cases normals
  · simp [face_line, face_ref, List.getElem?_map, List.getElem?_take, hj, hvi]
  · simp [face_line, face_ref, List.getElem?_map, List.getElem?_take, hj, hvi]
  · have hlt : j < polygon.uv_vertex_index.length := by
      have := h2 rfl
      omega
    have hu : polygon.uv_vertex_index[j]? = some polygon.uv_vertex_index[j] :=
      List.getElem?_eq_getElem hlt
    simp [face_line, face_ref, List.getElem?_zipWith, List.getElem?_take, hj, hvi, hu,
      List.getD_eq_getElem?_getD]
  · have hlt : j < polygon.uv_vertex_index.length := by
      have := h2 rfl
      omega
    have hu : polygon.uv_vertex_index[j]? = some polygon.uv_vertex_index[j] :=
      List.getElem?_eq_getElem hlt
    simp [face_line, face_ref, List.getElem?_zipWith, List.getElem?_take, hj, hvi, hu,
      List.getD_eq_getElem?_getD]

theorem face_ref_vertex (export_params : OBJExportParams) (offset : Offset3) (i vi ui : Nat) :
    (face_ref export_params offset i vi ui).vertex = uint32 (vi + offset.vertex) := by
  obtain ⟨uv, normals⟩ := export_params
  cases uv <;> cases normals <;> rfl

theorem face_ref_uv (export_params : OBJExportParams) (offset : Offset3) (i vi ui : Nat) :
    (face_ref export_params offset i vi ui).uv =
      if export_params.export_uv then some (uint32 (ui + 1 + offset.uv)) else none := by
  obtain ⟨uv, normals⟩ := export_params
  cases uv <;> cases normals <;> rfl

theorem face_ref_normal (export_params : OBJExportParams) (offset : Offset3) (i vi ui : Nat) :
    (face_ref export_params offset i vi ui).normal =
      if export_params.export_normals then some (uint32 (i + 1 + offset.normal)) else none := by
  obtain ⟨uv, normals⟩ := export_params
  cases uv <;> cases normals <;> rfl

theorem f_lines_mesh_block_getElem? {F : Type} (export_params : OBJExportParams)
    (offset : Offset3) (m : OBJ_obmesh_to_export F) (i : Nat) (polygon : Polygon)
    (hi : i < m.tot_poly) (hp : m.polygon_list[i]? = some polygon) :
    (f_lines (mesh_block export_params offset m))[i]? =
      some (face_line export_params offset i polygon) := by
  rw [f_lines_mesh_block]
  simp [List.getElem?_mapIdx, List.getElem?_take, hi, hp]

theorem getElem?_middle {α : Type} (a b c : List α) (i : Nat) (hi : i < b.length) :
    (a ++ b ++ c)[a.length + i]? = b[i]? := by
  rw [List.getElem?_append_left (by simp; omega),
    List.getElem?_append_right (by omega)]
  simp

theorem polygon_readable_of_mem {F : Type} (export_params : OBJExportParams)
    (m : OBJ_obmesh_to_export F) (hr : readable export_params m) (i : Nat)
    (polygon : Polygon) (hi : i < m.tot_poly) (hp : m.polygon_list[i]? = some polygon) :
    polygon_readable export_params m.mvert.length polygon :=
  hr.2.2.2 polygon (mem_take_of_getElem? _ _ _ _ hi hp)


theorem int_of_uint_of_lt (n : Nat) (h : n < 2147483648) : int_of_uint n = (n : Int) := by
  unfold int_of_uint
  have hmod : n % 4294967296 = n := Nat.mod_eq_of_lt (by omega)
  rw [hmod, if_pos h]

theorem uint32_add_right (a b : Nat) : uint32 (a + uint32 b) = uint32 (a + b) := by
  unfold uint32
  omega

theorem int_of_uint_uint32 (n : Nat) : int_of_uint (uint32 n) = int_of_uint n := by
  unfold int_of_uint uint32
  rw [Nat.mod_mod]

theorem decimal_uint32 (n : Nat) : decimal (uint32 n) = decimal n := by
  unfold decimal uint32
  rw [Nat.mod_mod]

theorem decimal_of_lt (n : Nat) (h : n < 2147483648) : decimal n = Nat.toDigits 10 n := by
  unfold decimal
  have hmod : n % 4294967296 = n := Nat.mod_eq_of_lt (by omega)
  rw [hmod, if_pos h]

/-- The characters of `decimal` are those of the number `int_of_uint`. -/
theorem decimal_eq_int_of_uint (n : Nat) :
    decimal n =
      if int_of_uint n < 0 then '-' :: Nat.toDigits 10 (int_of_uint n).natAbs
      else Nat.toDigits 10 (int_of_uint n).toNat := by
  unfold decimal int_of_uint
  have hlt : n % 4294967296 < 4294967296 := Nat.mod_lt _ (by decide)
  split
  · rw [if_neg (by omega)]
    congr 1
  · rw [if_pos (by omega)]
    congr 2
    omega

/-- The written number of a `uint` sum that stays below `2^31` is the sum. -/
theorem written_of_lt (n : Nat) (h : n < 2147483648) :
    uint32 n = n ∧ int_of_uint (uint32 n) = (n : Int) ∧
      decimal (uint32 n) = Nat.toDigits 10 n :=
  ⟨uint32_of_lt n (by omega), by rw [int_of_uint_uint32, int_of_uint_of_lt n h],
    by rw [decimal_uint32, decimal_of_lt n h]⟩

/-- The offsets handed to object `k` are the numbers of lines written before it,
kept in `uint` arithmetic. -/
theorem offset_after_eq_counts {F : Type} (export_params : OBJExportParams)
    (meshes : List (OBJ_obmesh_to_export F)) (k : Nat) (hk : k ≤ meshes.length)
    (hr : ∀ m ∈ meshes.take k, readable export_params m) :
    (offset_after (meshes.take k)).vertex
        = uint32 (v_lines (file_after export_params meshes k)).length ∧
    (export_params.export_uv = true →
      (offset_after (meshes.take k)).uv
        = uint32 (vt_lines (file_after export_params meshes k)).length) ∧
    (export_params.export_normals = true →
      (offset_after (meshes.take k)).normal
        = uint32 (vn_lines (file_after export_params meshes k)).length) ∧
    (offset_after (meshes.take k)).normal
        = uint32 (f_lines (file_after export_params meshes k)).length := by
  obtain ⟨h1, h2, h3, h4⟩ := file_after_counts export_params meshes k hk hr
  refine ⟨?_, ?_, ?_, ?_⟩
  · rw [h1]
    rfl
  · intro hu
    rw [h2 hu]
    rfl
  · intro hn
    rw [h3 hn]
    rfl
  · rw [h4]
    rfl

/-- The lines of object `k` in the whole file: each kind of line of the object
stands behind the lines of that kind of the earlier objects. -/
theorem export_object_lines {F : Type} (meshes : List (OBJ_obmesh_to_export F))
    (export_params : OBJExportParams) (hr : ∀ m ∈ meshes, readable export_params m)
    (k : Nat) (mesh : OBJ_obmesh_to_export F) (hk : meshes[k]? = some mesh) :
    ∃ file,
      write_object_fprintf true meshes export_params
        = some { file := some file, stdout := [] } ∧
      (∀ s vertex, s < mesh.tot_vertices → mesh.mvert[s]? = some vertex →
        (v_lines file)[((meshes.take k).map fun m => m.tot_vertices).sum + s]?
          = some (vertex.co 0, vertex.co 1, vertex.co 2)) ∧
      (export_params.export_uv = true →
        ∀ u uv_vertex, u < mesh.tot_uv_vertices → mesh.uv_coords[u]? = some uv_vertex →
          (vt_lines file)[((meshes.take k).map fun m => m.tot_uv_vertices).sum + u]?
            = some (uv_vertex 0, uv_vertex 1)) ∧
      (export_params.export_normals = true →
        ∀ i polygon, i < mesh.tot_poly → mesh.polygon_list[i]? = some polygon →
          (vn_lines file)[((meshes.take k).map fun m => m.tot_poly).sum + i]?
            = some (averaged_normal polygon AXIS_X mesh.mvert,
                averaged_normal polygon AXIS_Y mesh.mvert,
                averaged_normal polygon AXIS_Z mesh.mvert)) ∧
      (∀ i polygon, i < mesh.tot_poly → mesh.polygon_list[i]? = some polygon →
        (f_lines file)[((meshes.take k).map fun m => m.tot_poly).sum + i]?
          = some (face_line export_params (offset_after (meshes.take k)) i polygon)) := by
  obtain ⟨rest, hfile, -, -⟩ := export_split meshes export_params hr k mesh hk
  have hlt : k < meshes.length := by
    by_contra hge
    rw [List.getElem?_eq_none (by omega)] at hk
    cases hk
  have hmesh : readable export_params mesh := hr mesh (List.getElem?_mem hk)
  obtain ⟨hc1, hc2, hc3, hc4⟩ := file_after_counts export_params meshes k (by omega)
    (fun m hm => hr m (List.mem_of_mem_take hm))
  refine ⟨_, hfile, ?_, ?_, ?_, ?_⟩
  · intro s vertex hs hv
    have happ : ∀ a b : List (Record F), v_lines (a ++ b) = v_lines a ++ v_lines b :=
      fun a b => List.filterMap_append a b _
    have hvb := v_lines_mesh_block export_params (offset_after (meshes.take k)) mesh
    have hlen : (v_lines (mesh_block export_params (offset_after (meshes.take k)) mesh)).length
        = mesh.tot_vertices := by
      rw [hvb, List.length_map, List.length_take, Nat.min_eq_left hmesh.1]
    rw [← hc1, happ, happ, getElem?_middle _ _ _ _ (by rw [hlen]; exact hs), hvb]
    simp [List.getElem?_map, List.getElem?_take, hs, hv]
  · intro hu u uv_vertex hlt2 huv
    have happ : ∀ a b : List (Record F), vt_lines (a ++ b) = vt_lines a ++ vt_lines b :=
      fun a b => List.filterMap_append a b _
    have hvb := vt_lines_mesh_block export_params (offset_after (meshes.take k)) mesh
    rw [if_pos hu] at hvb
    have hlen : (vt_lines (mesh_block export_params (offset_after (meshes.take k)) mesh)).length
        = mesh.tot_uv_vertices := by
      rw [hvb, List.length_map, List.length_take, Nat.min_eq_left (hmesh.2.1 hu)]
    rw [← hc2 hu, happ, happ, getElem?_middle _ _ _ _ (by rw [hlen]; exact hlt2), hvb]
    simp [List.getElem?_map, List.getElem?_take, hlt2, huv]
  · intro hn i polygon hi hp
    have happ : ∀ a b : List (Record F), vn_lines (a ++ b) = vn_lines a ++ vn_lines b :=
      fun a b => List.filterMap_append a b _
    have hvb := vn_lines_mesh_block export_params (offset_after (meshes.take k)) mesh
    rw [if_pos hn] at hvb
    have hlen : (vn_lines (mesh_block export_params (offset_after (meshes.take k)) mesh)).length
        = mesh.tot_poly := by
      rw [hvb, List.length_map, List.length_take, Nat.min_eq_left hmesh.2.2.1]
    rw [← hc3 hn, happ, happ, getElem?_middle _ _ _ _ (by rw [hlen]; exact hi), hvb]
    simp [List.getElem?_map, List.getElem?_take, hi, hp]
  · intro i polygon hi hp
    have happ : ∀ a b : List (Record F), f_lines (a ++ b) = f_lines a ++ f_lines b :=
      fun a b => List.filterMap_append a b _
    have hlen : (f_lines (mesh_block export_params (offset_after (meshes.take k)) mesh)).length
        = mesh.tot_poly := by
      rw [f_lines_mesh_block, List.length_mapIdx, List.length_take,
        Nat.min_eq_left hmesh.2.2.1]
    rw [← hc4, happ, happ, getElem?_middle _ _ _ _ (by rw [hlen]; exact hi)]
    exact f_lines_mesh_block_getElem? export_params _ mesh i polygon hi hp

theorem readable_huge_then (export_params : OBJExportParams) (m : OBJ_obmesh_to_export Int)
    (hm : readable export_params m) :
    ∀ x ∈ [huge_mesh, m], readable export_params x := by
  intro x hx
  rcases List.mem_cons.1 hx with h | h
  · rw [h]
    exact readable_huge_mesh _
  · rw [List.mem_singleton.1 h]
    exact hm
/-! ## C2: vertex references -/

/-- C2 as stated fails, for two reasons. A stored vertex index that is a position
counted from 0 is written without the `+ 1` that would turn it into the ordinal of
its `v` line: for Mesh A stored as `[0, 1, 2]` and exported first, the first
reference of the face line is `0`, while the `v` line of `vertices[0]` is the first
of the file. And the reference is a `uint` printed with `%d`: behind a mesh of `2^31`
vertices, Mesh A stored as `[1, 2, 3]` gets the face line
`-2147483647 -2147483646 -2147483645`, while the `v` line of its second vertex is
line 2147483650 of the `v` lines of the file. -/
theorem vertex_reference_from_zero_counterexample :
    (¬ ∀ (meshes : List (OBJ_obmesh_to_export Int)) (export_params : OBJExportParams)
        (k i j s : Nat) (mesh : OBJ_obmesh_to_export Int) (polygon : Polygon)
        (st : ExportState Int) (file : List (Record Int)) (refs : List FaceRef)
        (ref : FaceRef),
        write_object_fprintf true meshes export_params
          = some { file := some file, stdout := [] } →
        export_loop meshes export_params k = some st →
        meshes[k]? = some mesh →
        i < mesh.tot_poly → mesh.polygon_list[i]? = some polygon →
        j < polygon.total_vertices_per_poly → polygon.vertex_index[j]? = some s →
        s < mesh.tot_vertices →
        (f_lines file)[(f_lines st.outfile).length + i]? = some refs →
        refs[j]? = some ref →
        ref.vertex = (v_lines st.outfile).length + s + 1) ∧
    (∃ file,
      write_object_fprintf true [huge_mesh, mesh_a]
          { export_uv := false, export_normals := false }
        = some { file := some file, stdout := [] } ∧
      (v_lines file)[2147483649]? = some (1, 0, 0) ∧
      ((f_lines file)[2147483648]?).map (List.map FaceRef.text)
        = some [['-', '2', '1', '4', '7', '4', '8', '3', '6', '4', '7', ' '],
                ['-', '2', '1', '4', '7', '4', '8', '3', '6', '4', '6', ' '],
                ['-', '2', '1', '4', '7', '4', '8', '3', '6', '4', '5', ' ']]) := by
  constructor
  · intro h
    have h0 := h [mesh_a_from_zero] { export_uv := false, export_normals := false } 0 0 0 0
      mesh_a_from_zero
      { total_vertices_per_poly := 3, vertex_index := [0, 1, 2], uv_vertex_index := [0, 1, 2] }
      { outfile := [Record.comment "Blender 2.90"]
        index_offset := { vertex := 0, uv := 0, normal := 0 } }
      [Record.comment "Blender 2.90", Record.o "MeshA", Record.v 0 0 0, Record.v 1 0 0,
        Record.v 0 1 0, Record.f [FaceRef.v 0, FaceRef.v 1, FaceRef.v 2]]
      [FaceRef.v 0, FaceRef.v 1, FaceRef.v 2] (FaceRef.v 0)
      (by decide) (by decide) rfl (by decide) (by decide) (by decide) (by decide)
      (by decide) (by decide) (by decide)
    revert h0
    decide
  · obtain ⟨file, hfile, hv, -, -, hf⟩ := export_object_lines [huge_mesh, mesh_a]
      { export_uv := false, export_normals := false }
      (readable_huge_then _ mesh_a (by decide)) 1 mesh_a rfl
    refine ⟨file, hfile, ?_, ?_⟩
    · exact hv 1 { co := ![1, 0, 0], no := ![0, 0, 32767] } (by decide) rfl
    · have h := hf 0 _ (by decide) rfl
      rw [show (2147483648 : Nat)
        = (([huge_mesh, mesh_a].take 1).map fun m => m.tot_poly).sum + 0 from by decide, h]
      decide

/-- C2, amended: a stored vertex index `s` with `1 ≤ s ≤ tot_vertices` is written as
the `uint` sum `s + offset[0]`, and as long as it stays below `2^31` the written
number is the ordinal, counted from 1 over the whole file, of the `v` line written
for `mvert[s - 1]` of the same object: the file is `pre ++ block ++ rest` with
`block` the lines of object `k`, `offset[0]` is the number of `v` lines of `pre`
modulo `2^32`, and line `s` of the `v` lines of `block` is that of `mvert[s - 1]`. -/
theorem vertex_reference_is_ordinal_of_v_line {F : Type}
    (meshes : List (OBJ_obmesh_to_export F)) (export_params : OBJExportParams)
    (hr : ∀ m ∈ meshes, readable export_params m)
    (k : Nat) (mesh : OBJ_obmesh_to_export F) (hk : meshes[k]? = some mesh) :
    ∃ (file pre block rest : List (Record F)) (offset : Offset3),
      write_object_fprintf true meshes export_params
        = some { file := some file, stdout := [] } ∧
      export_loop meshes export_params k
        = some { outfile := pre, index_offset := offset } ∧
      write_geomtery_per_mesh pre mesh offset export_params = some (pre ++ block) ∧
      file = pre ++ block ++ rest ∧
      offset.vertex = uint32 (v_lines pre).length ∧
      (v_lines block).length = mesh.tot_vertices ∧
      (∀ s, 1 ≤ s → s ≤ mesh.tot_vertices →
        ∃ vertex, mesh.mvert[s - 1]? = some vertex ∧
          (v_lines block)[s - 1]? = some (vertex.co 0, vertex.co 1, vertex.co 2) ∧
          (v_lines file)[(v_lines pre).length + s - 1]?
            = some (vertex.co 0, vertex.co 1, vertex.co 2)) ∧
      (∀ i j polygon s, i < mesh.tot_poly → mesh.polygon_list[i]? = some polygon →
        j < polygon.total_vertices_per_poly → polygon.vertex_index[j]? = some s →
        ∃ refs ref, (f_lines block)[i]? = some refs ∧ refs[j]? = some ref ∧
          ref.vertex = uint32 (s + offset.vertex) ∧
          ((v_lines pre).length + s < 2147483648 →
            ref.vertex = (v_lines pre).length + s ∧
            int_of_uint ref.vertex = (((v_lines pre).length + s : Nat) : Int) ∧
            decimal ref.vertex = Nat.toDigits 10 ((v_lines pre).length + s))) := by
  obtain ⟨rest, hfile, hloop, hwrite⟩ := export_split meshes export_params hr k mesh hk
  have hlt : k < meshes.length := by
    by_contra hge
    rw [List.getElem?_eq_none (by omega)] at hk
    cases hk
  have hmesh : readable export_params mesh := hr mesh (List.getElem?_mem hk)
  have hoff := (offset_after_eq_counts export_params meshes k (by omega)
    (fun m hm => hr m (List.mem_of_mem_take hm))).1
  have hvb := v_lines_mesh_block export_params (offset_after (meshes.take k)) mesh
  have hvlen : (v_lines (mesh_block export_params (offset_after (meshes.take k)) mesh)).length
      = mesh.tot_vertices := by
    rw [hvb, List.length_map, List.length_take, Nat.min_eq_left hmesh.1]
  refine ⟨_, _, _, rest, _, hfile, hloop, hwrite, rfl, hoff, hvlen, ?_, ?_⟩
  · intro s h1 h2
    have hs : s - 1 < mesh.mvert.length := by
      have := hmesh.1
      omega
    have hget : mesh.mvert[s - 1]? = some mesh.mvert[s - 1] := List.getElem?_eq_getElem hs
    have hb : (v_lines (mesh_block export_params (offset_after (meshes.take k)) mesh))[s - 1]?
        = some (mesh.mvert[s - 1].co 0, mesh.mvert[s - 1].co 1, mesh.mvert[s - 1].co 2) := by
      rw [hvb]
      simp [List.getElem?_map, List.getElem?_take, hget]
      omega
    refine ⟨_, hget, hb, ?_⟩
    have hidx : (v_lines (file_after export_params meshes k)).length + s - 1
        = (v_lines (file_after export_params meshes k)).length + (s - 1) := by
      omega
    have happ : ∀ a b : List (Record F), v_lines (a ++ b) = v_lines a ++ v_lines b :=
      fun a b => List.filterMap_append a b _
    rw [hidx, happ, happ, getElem?_middle _ _ _ _ (by rw [hvlen]; omega), hb]
  · intro i j polygon s hi hp hj hs
    have hpr := polygon_readable_of_mem export_params mesh hmesh i polygon hi hp
    refine ⟨_, _, f_lines_mesh_block_getElem? export_params _ mesh i polygon hi hp,
      face_line_getElem? export_params _ i polygon j s hj hs hpr.2.1,
      face_ref_vertex _ _ _ _ _, ?_⟩
    intro hsmall
    rw [face_ref_vertex, hoff, uint32_add_right,
      Nat.add_comm s (v_lines (file_after export_params meshes k)).length]
    exact written_of_lt _ hsmall

/-- C2, amended, on the two-mesh scenario with Mesh B as object 1; Mesh A, stored
as `[1, 2, 3]` and exported first, gets the face references 1, 2, 3. -/
theorem vertex_reference_is_ordinal_of_v_line_witness :
    (∀ m ∈ [mesh_a, mesh_b], readable { export_uv := false, export_normals := false } m) ∧
    [mesh_a, mesh_b][1]? = some mesh_b ∧
    (∃ (file pre block rest : List (Record Int)) (offset : Offset3),
      write_object_fprintf true [mesh_a, mesh_b] { export_uv := false, export_normals := false }
        = some { file := some file, stdout := [] } ∧
      export_loop [mesh_a, mesh_b] { export_uv := false, export_normals := false } 1
        = some { outfile := pre, index_offset := offset } ∧
      write_geomtery_per_mesh pre mesh_b offset { export_uv := false, export_normals := false }
        = some (pre ++ block) ∧
      file = pre ++ block ++ rest ∧
      offset.vertex = uint32 (v_lines pre).length ∧
      (v_lines block).length = mesh_b.tot_vertices ∧
      (∀ s, 1 ≤ s → s ≤ mesh_b.tot_vertices →
        ∃ vertex, mesh_b.mvert[s - 1]? = some vertex ∧
          (v_lines block)[s - 1]? = some (vertex.co 0, vertex.co 1, vertex.co 2) ∧
          (v_lines file)[(v_lines pre).length + s - 1]?
            = some (vertex.co 0, vertex.co 1, vertex.co 2)) ∧
      (∀ i j polygon s, i < mesh_b.tot_poly → mesh_b.polygon_list[i]? = some polygon →
        j < polygon.total_vertices_per_poly → polygon.vertex_index[j]? = some s →
        ∃ refs ref, (f_lines block)[i]? = some refs ∧ refs[j]? = some ref ∧
          ref.vertex = uint32 (s + offset.vertex) ∧
          ((v_lines pre).length + s < 2147483648 →
            ref.vertex = (v_lines pre).length + s ∧
            int_of_uint ref.vertex = (((v_lines pre).length + s : Nat) : Int) ∧
            decimal ref.vertex = Nat.toDigits 10 ((v_lines pre).length + s)))) ∧
    (write_object_fprintf true [mesh_a] { export_uv := false, export_normals := false }).map
        (fun r => r.file.map f_lines)
      = some (some [[FaceRef.v 1, FaceRef.v 2, FaceRef.v 3]]) :=
  ⟨by decide, rfl,
    vertex_reference_is_ordinal_of_v_line [mesh_a, mesh_b]
      { export_uv := false, export_normals := false } (by decide) 1 mesh_b rfl,
    by decide⟩
/-! ## C3: UV references -/

/-- C3 as stated fails: the UV reference is a `uint` printed with `%d`. Behind a mesh
of `2^31` UV points, the face line of Mesh A is written with the UV references
`-2147483647`, `-2147483646` and `-2147483645`, while the `vt` line of its second UV
point is line 2147483650 of the `vt` lines of the file. -/
theorem uv_reference_wraps_counterexample :
    ∃ file,
      write_object_fprintf true [huge_mesh, mesh_a]
          { export_uv := true, export_normals := false }
        = some { file := some file, stdout := [] } ∧
      (vt_lines file)[2147483649]? = some (1, 0) ∧
      ((f_lines file)[2147483648]?).map (List.map FaceRef.text)
        = some [['-', '2', '1', '4', '7', '4', '8', '3', '6', '4', '7', '/',
                 '-', '2', '1', '4', '7', '4', '8', '3', '6', '4', '7', ' '],
                ['-', '2', '1', '4', '7', '4', '8', '3', '6', '4', '6', '/',
                 '-', '2', '1', '4', '7', '4', '8', '3', '6', '4', '6', ' '],
                ['-', '2', '1', '4', '7', '4', '8', '3', '6', '4', '5', '/',
                 '-', '2', '1', '4', '7', '4', '8', '3', '6', '4', '5', ' ']] := by
  obtain ⟨file, hfile, -, hvt, -, hf⟩ := export_object_lines [huge_mesh, mesh_a]
    { export_uv := true, export_normals := false }
    (readable_huge_then _ mesh_a (by decide)) 1 mesh_a rfl
  refine ⟨file, hfile, ?_, ?_⟩
  · exact hvt rfl 1 ![1, 0] (by decide) rfl
  · have h := hf 0 _ (by decide) rfl
    rw [show (2147483648 : Nat)
      = (([huge_mesh, mesh_a].take 1).map fun m => m.tot_poly).sum + 0 from by decide, h]
    decide

/-- C3, amended: with `export_uv`, a stored UV index `u < tot_uv_vertices` of object
`k` is written as the `uint` sum `u + 1 + offset[1]`, and as long as it stays below
`2^31` the written number is the ordinal, counted from 1 over the whole file, of the
`vt` line written for `uv_coords[u]` of the same object: the file is
`pre ++ block ++ rest` with `block` the lines of object `k`, `offset[1]` is the
number of `vt` lines of `pre` modulo `2^32`, `block` holds `tot_uv_vertices` of them,
and line `u` (from 0) of the `vt` lines of `block` is that of `uv_coords[u]`. -/
theorem uv_reference_is_ordinal_of_vt_line {F : Type}
    (meshes : List (OBJ_obmesh_to_export F)) (export_params : OBJExportParams)
    (huv : export_params.export_uv = true)
    (hr : ∀ m ∈ meshes, readable export_params m)
    (k : Nat) (mesh : OBJ_obmesh_to_export F) (hk : meshes[k]? = some mesh) :
    ∃ (file pre block rest : List (Record F)) (offset : Offset3),
      write_object_fprintf true meshes export_params
        = some { file := some file, stdout := [] } ∧
      export_loop meshes export_params k
        = some { outfile := pre, index_offset := offset } ∧
      write_geomtery_per_mesh pre mesh offset export_params = some (pre ++ block) ∧
      file = pre ++ block ++ rest ∧
      offset.uv = uint32 (vt_lines pre).length ∧
      (vt_lines block).length = mesh.tot_uv_vertices ∧
      (∀ u, u < mesh.tot_uv_vertices →
        ∃ uv_vertex, mesh.uv_coords[u]? = some uv_vertex ∧
          (vt_lines block)[u]? = some (uv_vertex 0, uv_vertex 1) ∧
          (vt_lines file)[(vt_lines pre).length + u]? = some (uv_vertex 0, uv_vertex 1) ∧
          (vt_lines pre).length + u + 1 ≤ (vt_lines pre).length + (vt_lines block).length) ∧
      (∀ i j polygon u, i < mesh.tot_poly → mesh.polygon_list[i]? = some polygon →
        j < polygon.total_vertices_per_poly → polygon.uv_vertex_index[j]? = some u →
        ∃ refs ref, (f_lines block)[i]? = some refs ∧ refs[j]? = some ref ∧
          ref.uv = some (uint32 (u + 1 + offset.uv)) ∧
          ((vt_lines pre).length + u + 1 < 2147483648 →
            ref.uv = some ((vt_lines pre).length + u + 1) ∧
            int_of_uint (uint32 (u + 1 + offset.uv))
              = (((vt_lines pre).length + u + 1 : Nat) : Int) ∧
            decimal (uint32 (u + 1 + offset.uv))
              = Nat.toDigits 10 ((vt_lines pre).length + u + 1))) := by
  obtain ⟨rest, hfile, hloop, hwrite⟩ := export_split meshes export_params hr k mesh hk
  have hlt : k < meshes.length := by
    by_contra hge
    rw [List.getElem?_eq_none (by omega)] at hk
    cases hk
  have hmesh : readable export_params mesh := hr mesh (List.getElem?_mem hk)
  have hoff := (offset_after_eq_counts export_params meshes k (by omega)
    (fun m hm => hr m (List.mem_of_mem_take hm))).2.1 huv
  have hvb := vt_lines_mesh_block export_params (offset_after (meshes.take k)) mesh
  rw [if_pos huv] at hvb
  have hvlen : (vt_lines (mesh_block export_params (offset_after (meshes.take k)) mesh)).length
      = mesh.tot_uv_vertices := by
    rw [hvb, List.length_map, List.length_take, Nat.min_eq_left (hmesh.2.1 huv)]
  refine ⟨_, _, _, rest, _, hfile, hloop, hwrite, rfl, hoff, hvlen, ?_, ?_⟩
  · intro u hu
    have hs : u < mesh.uv_coords.length := by
      have := hmesh.2.1 huv
      omega
    have hget : mesh.uv_coords[u]? = some mesh.uv_coords[u] := List.getElem?_eq_getElem hs
    have hb : (vt_lines (mesh_block export_params (offset_after (meshes.take k)) mesh))[u]?
        = some (mesh.uv_coords[u] 0, mesh.uv_coords[u] 1) := by
      rw [hvb]
      simp [List.getElem?_map, List.getElem?_take, hget, hu]
    refine ⟨_, hget, hb, ?_, by omega⟩
    have happ : ∀ a b : List (Record F), vt_lines (a ++ b) = vt_lines a ++ vt_lines b :=
      fun a b => List.filterMap_append a b _
    rw [happ, happ, getElem?_middle _ _ _ _ (by rw [hvlen]; omega), hb]
  · intro i j polygon u hi hp hj hu
    have hpr := polygon_readable_of_mem export_params mesh hmesh i polygon hi hp
    have hjv : j < polygon.vertex_index.length := by
      have := hpr.1
      omega
    have href : (face_ref export_params (offset_after (meshes.take k)) i polygon.vertex_index[j]
        (polygon.uv_vertex_index.getD j 0)).uv
        = some (uint32 (u + 1 + (offset_after (meshes.take k)).uv)) := by
      rw [face_ref_uv, if_pos huv]
      simp [List.getD_eq_getElem?_getD, hu]
    have hw : (vt_lines (file_after export_params meshes k)).length + u + 1 < 2147483648 →
        uint32 (u + 1 + (offset_after (meshes.take k)).uv)
          = (vt_lines (file_after export_params meshes k)).length + u + 1 ∧
        int_of_uint (uint32 (u + 1 + (offset_after (meshes.take k)).uv))
          = (((vt_lines (file_after export_params meshes k)).length + u + 1 : Nat) : Int) ∧
        decimal (uint32 (u + 1 + (offset_after (meshes.take k)).uv))
          = Nat.toDigits 10 ((vt_lines (file_after export_params meshes k)).length + u + 1) := by
      intro hsmall
      rw [hoff, uint32_add_right,
        show u + 1 + (vt_lines (file_after export_params meshes k)).length
          = (vt_lines (file_after export_params meshes k)).length + u + 1 from by omega]
      exact written_of_lt _ hsmall
    refine ⟨_, _, f_lines_mesh_block_getElem? export_params _ mesh i polygon hi hp,
      face_line_getElem? export_params _ i polygon j _ hj
        (List.getElem?_eq_getElem hjv) hpr.2.1, href, ?_⟩
    intro hsmall
    refine ⟨?_, (hw hsmall).2.1, (hw hsmall).2.2⟩
    rw [href, (hw hsmall).1]

/-- C3, amended, on the two-mesh scenario with Mesh B as object 1. -/
theorem uv_reference_is_ordinal_of_vt_line_witness :
    ({ export_uv := true, export_normals := false } : OBJExportParams).export_uv = true ∧
    (∀ m ∈ [mesh_a, mesh_b], readable { export_uv := true, export_normals := false } m) ∧
    [mesh_a, mesh_b][1]? = some mesh_b ∧
    (∃ (file pre block rest : List (Record Int)) (offset : Offset3),
      write_object_fprintf true [mesh_a, mesh_b] { export_uv := true, export_normals := false }
        = some { file := some file, stdout := [] } ∧
      export_loop [mesh_a, mesh_b] { export_uv := true, export_normals := false } 1
        = some { outfile := pre, index_offset := offset } ∧
      write_geomtery_per_mesh pre mesh_b offset { export_uv := true, export_normals := false }
        = some (pre ++ block) ∧
      file = pre ++ block ++ rest ∧
      offset.uv = uint32 (vt_lines pre).length ∧
      (vt_lines block).length = mesh_b.tot_uv_vertices ∧
      (∀ u, u < mesh_b.tot_uv_vertices →
        ∃ uv_vertex, mesh_b.uv_coords[u]? = some uv_vertex ∧
          (vt_lines block)[u]? = some (uv_vertex 0, uv_vertex 1) ∧
          (vt_lines file)[(vt_lines pre).length + u]? = some (uv_vertex 0, uv_vertex 1) ∧
          (vt_lines pre).length + u + 1 ≤ (vt_lines pre).length + (vt_lines block).length) ∧
      (∀ i j polygon u, i < mesh_b.tot_poly → mesh_b.polygon_list[i]? = some polygon →
        j < polygon.total_vertices_per_poly → polygon.uv_vertex_index[j]? = some u →
        ∃ refs ref, (f_lines block)[i]? = some refs ∧ refs[j]? = some ref ∧
          ref.uv = some (uint32 (u + 1 + offset.uv)) ∧
          ((vt_lines pre).length + u + 1 < 2147483648 →
            ref.uv = some ((vt_lines pre).length + u + 1) ∧
            int_of_uint (uint32 (u + 1 + offset.uv))
              = (((vt_lines pre).length + u + 1 : Nat) : Int) ∧
            decimal (uint32 (u + 1 + offset.uv))
              = Nat.toDigits 10 ((vt_lines pre).length + u + 1)))) ∧
    (write_object_fprintf true [mesh_a, mesh_b] { export_uv := true, export_normals := false }).map
        (fun r => r.file.map f_lines)
      = some (some [[FaceRef.v_vt 1 1, FaceRef.v_vt 2 2, FaceRef.v_vt 3 3],
          [FaceRef.v_vt 4 5, FaceRef.v_vt 5 4]]) :=
  ⟨rfl, by decide, rfl,
    uv_reference_is_ordinal_of_vt_line [mesh_a, mesh_b]
      { export_uv := true, export_normals := false } rfl (by decide) 1 mesh_b rfl,
    by decide⟩
/-! ## C4: normal references -/

theorem mem_zipWith_exists {α β γ : Type} (f : α → β → γ) (c : γ) :
    ∀ (as : List α) (bs : List β), c ∈ List.zipWith f as bs → ∃ a b, c = f a b
  | [], _, h => by simp at h
  | _ :: _, [], h => by simp at h
  | a :: as, b :: bs, h => by
    rw [List.zipWith_cons_cons, List.mem_cons] at h
    cases h with
    | inl h => exact ⟨a, b, h⟩
    | inr h => exact mem_zipWith_exists f c as bs h

theorem mem_face_line (export_params : OBJExportParams) (offset : Offset3) (i : Nat)
    (polygon : Polygon) (ref : FaceRef)
    (h : ref ∈ face_line export_params offset i polygon) :
    ∃ vi ui, ref = face_ref export_params offset i vi ui := by
  obtain ⟨uv, normals⟩ := export_params
  cases uv <;> cases normals
  · simp only [face_line, Bool.false_eq_true, if_false, List.mem_map] at h
    obtain ⟨vi, -, rfl⟩ := h
    exact ⟨vi, 0, rfl⟩
  · simp only [face_line, Bool.false_eq_true, if_false, if_true, List.mem_map] at h
    obtain ⟨vi, -, rfl⟩ := h
    exact ⟨vi, 0, rfl⟩
  · simp only [face_line, Bool.false_eq_true, if_false, if_true] at h
    obtain ⟨vi, ui, rfl⟩ := mem_zipWith_exists _ _ _ _ h
    exact ⟨vi, ui, rfl⟩
  · simp only [face_line, if_true] at h
    obtain ⟨vi, ui, rfl⟩ := mem_zipWith_exists _ _ _ _ h
    exact ⟨vi, ui, rfl⟩

theorem f_lines_mesh_block_getElem?_some {F : Type} (export_params : OBJExportParams)
    (offset : Offset3) (m : OBJ_obmesh_to_export F) (i : Nat) (refs : List FaceRef)
    (h : (f_lines (mesh_block export_params offset m))[i]? = some refs) :
    ∃ polygon, refs = face_line export_params offset i polygon := by
  rw [f_lines_mesh_block, List.getElem?_mapIdx] at h
  cases hp : (m.polygon_list.take m.tot_poly)[i]? with
  | none => rw [hp] at h; cases h
  | some polygon =>
    rw [hp] at h
    exact ⟨polygon, (Option.some.inj h).symm⟩

/-- With `export_normals`, line `n` (from 0) of the `f` lines of the file carries
the normal index `n + 1`, as a `uint`, in all its references. -/
theorem file_after_face_normals {F : Type} (export_params : OBJExportParams)
    (hn : export_params.export_normals = true)
    (meshes : List (OBJ_obmesh_to_export F)) (k : Nat) (hk : k ≤ meshes.length)
    (hr : ∀ m ∈ meshes.take k, readable export_params m) :
    ∀ n refs, (f_lines (file_after export_params meshes k))[n]? = some refs →
      ∀ ref ∈ refs, ref.normal = some (uint32 (n + 1)) := by
  induction k with
  | zero =>
    intro n refs h
    simp [file_after, f_lines] at h
  | succ k ih =>
    have hget : meshes[k]? = some meshes[k] := List.getElem?_eq_getElem (by omega)
    have hprev : ∀ m ∈ meshes.take k, readable export_params m := by
      intro m hm
      apply hr
      rw [List.take_succ]
      exact List.mem_append_left _ hm
    have hcount := (file_after_counts export_params meshes k (by omega) hprev).2.2.2
    intro n refs h ref href
    have happ : ∀ a b : List (Record F), f_lines (a ++ b) = f_lines a ++ f_lines b :=
      fun a b => List.filterMap_append a b _
    rw [file_after_succ _ _ _ _ hget, happ] at h
    by_cases hlt : n < (f_lines (file_after export_params meshes k)).length
    · rw [List.getElem?_append_left hlt] at h
      exact ih (by omega) hprev n refs h ref href
    · rw [List.getElem?_append_right (by omega)] at h
      obtain ⟨polygon, rfl⟩ := f_lines_mesh_block_getElem?_some _ _ _ _ _ h
      obtain ⟨vi, ui, rfl⟩ := mem_face_line _ _ _ _ _ href
      have hoff : (offset_after (meshes.take k)).normal
          = uint32 (f_lines (file_after export_params meshes k)).length := by
        rw [hcount]
        rfl
      rw [face_ref_normal, if_pos hn, hoff, uint32_add_right]
      congr 2
      omega

theorem export_file_eq {F : Type} (meshes : List (OBJ_obmesh_to_export F))
    (export_params : OBJExportParams) (hr : ∀ m ∈ meshes, readable export_params m) :
    write_object_fprintf true meshes export_params =
      some { file := some (file_after export_params meshes meshes.length), stdout := [] } := by
  unfold write_object_fprintf
  rw [if_pos rfl, export_loop_eq meshes export_params meshes.length (Nat.le_refl _)
    (fun m hm => hr m (List.mem_of_mem_take hm))]
  rfl

/-- C4 as stated fails: the normal reference is a `uint` printed with `%d`. Behind a
mesh of `2^31` polygons, the face line of Mesh B is written with the normal
reference `-2147483647`, while the `vn` line of its polygon is line 2147483649 of
the `vn` lines of the file. -/
theorem normal_reference_wraps_counterexample :
    ∃ file,
      write_object_fprintf true [huge_mesh, mesh_b]
          { export_uv := false, export_normals := true }
        = some { file := some file, stdout := [] } ∧
      (vn_lines file)[2147483648]? = some (0, 32767, 0) ∧
      ((f_lines file)[2147483648]?).map (List.map FaceRef.text)
        = some [['-', '2', '1', '4', '7', '4', '8', '3', '6', '4', '7', '/', '/',
                 '-', '2', '1', '4', '7', '4', '8', '3', '6', '4', '7', ' '],
                ['-', '2', '1', '4', '7', '4', '8', '3', '6', '4', '6', '/', '/',
                 '-', '2', '1', '4', '7', '4', '8', '3', '6', '4', '7', ' ']] := by
  obtain ⟨file, hfile, -, -, hvn, hf⟩ := export_object_lines [huge_mesh, mesh_b]
    { export_uv := false, export_normals := true }
    (readable_huge_then _ mesh_b (by decide)) 1 mesh_b rfl
  refine ⟨file, hfile, ?_, ?_⟩
  · have h := hvn rfl 0 _ (by decide) rfl
    rw [show (2147483648 : Nat)
      = (([huge_mesh, mesh_b].take 1).map fun m => m.tot_poly).sum + 0 from by decide, h]
    decide
  · have h := hf 0 _ (by decide) rfl
    rw [show (2147483648 : Nat)
      = (([huge_mesh, mesh_b].take 1).map fun m => m.tot_poly).sum + 0 from by decide, h]
    decide

/-- C4, amended: with `export_normals`, every reference of the face line of polygon
`i` of object `k` carries the `uint` sum `i + 1 + offset[2]`, and as long as it stays
below `2^31` the written number is the ordinal, counted from 1 over the whole file,
of the `vn` line computed from the same polygon. Over the whole file there are as
many `vn` lines as `f` lines, namely the total number of polygons, and `f` line
number `n` (from 0) carries the normal index `n + 1` modulo `2^32` in all its
references, written as `n + 1` while `n + 1 < 2^31`. -/
theorem normal_reference_is_ordinal_of_vn_line {F : Type}
    (meshes : List (OBJ_obmesh_to_export F)) (export_params : OBJExportParams)
    (hn : export_params.export_normals = true)
    (hr : ∀ m ∈ meshes, readable export_params m)
    (k : Nat) (mesh : OBJ_obmesh_to_export F) (hk : meshes[k]? = some mesh) :
    ∃ (file pre block rest : List (Record F)) (offset : Offset3),
      write_object_fprintf true meshes export_params
        = some { file := some file, stdout := [] } ∧
      export_loop meshes export_params k
        = some { outfile := pre, index_offset := offset } ∧
      write_geomtery_per_mesh pre mesh offset export_params = some (pre ++ block) ∧
      file = pre ++ block ++ rest ∧
      offset.normal = uint32 (vn_lines pre).length ∧
      (vn_lines block).length = mesh.tot_poly ∧
      (∀ i polygon, i < mesh.tot_poly → mesh.polygon_list[i]? = some polygon →
        ∃ nx ny nz refs,
          face_normal_axis_component polygon AXIS_X mesh.mvert = some nx ∧
          face_normal_axis_component polygon AXIS_Y mesh.mvert = some ny ∧
          face_normal_axis_component polygon AXIS_Z mesh.mvert = some nz ∧
          (vn_lines block)[i]? = some (nx, ny, nz) ∧
          (vn_lines file)[(vn_lines pre).length + i]? = some (nx, ny, nz) ∧
          (f_lines block)[i]? = some refs ∧
          (∀ ref ∈ refs, ref.normal = some (uint32 (i + 1 + offset.normal))) ∧
          ((vn_lines pre).length + i + 1 < 2147483648 →
            (∀ ref ∈ refs, ref.normal = some ((vn_lines pre).length + i + 1)) ∧
            int_of_uint (uint32 (i + 1 + offset.normal))
              = (((vn_lines pre).length + i + 1 : Nat) : Int) ∧
            decimal (uint32 (i + 1 + offset.normal))
              = Nat.toDigits 10 ((vn_lines pre).length + i + 1))) ∧
      (vn_lines file).length = (meshes.map fun m => m.tot_poly).sum ∧
      (f_lines file).length = (meshes.map fun m => m.tot_poly).sum ∧
      (∀ n refs, (f_lines file)[n]? = some refs →
        (∀ ref ∈ refs, ref.normal = some (uint32 (n + 1))) ∧
        (n + 1 < 2147483648 →
          (∀ ref ∈ refs, ref.normal = some (n + 1)) ∧
          int_of_uint (uint32 (n + 1)) = ((n + 1 : Nat) : Int) ∧
          decimal (uint32 (n + 1)) = Nat.toDigits 10 (n + 1))) := by
  obtain ⟨rest, hfile, hloop, hwrite⟩ := export_split meshes export_params hr k mesh hk
  have hall : file_after export_params meshes meshes.length =
      file_after export_params meshes k ++
        mesh_block export_params (offset_after (meshes.take k)) mesh ++ rest := by
    have h := export_file_eq meshes export_params hr
    rw [hfile] at h
    injection h with h
    injection h with h
    injection h with h
    exact h.symm
  have hlt : k < meshes.length := by
    by_contra hge
    rw [List.getElem?_eq_none (by omega)] at hk
    cases hk
  have hmesh : readable export_params mesh := hr mesh (List.getElem?_mem hk)
  have htake : ∀ n, ∀ m ∈ meshes.take n, readable export_params m :=
    fun n m hm => hr m (List.mem_of_mem_take hm)
  have hoff := (offset_after_eq_counts export_params meshes k (by omega) (htake k)).2.2.1 hn
  have hfull := file_after_counts export_params meshes meshes.length (Nat.le_refl _) (htake _)
  rw [List.take_length] at hfull
  have hvb := vn_lines_mesh_block export_params (offset_after (meshes.take k)) mesh
  rw [if_pos hn] at hvb
  have hvlen : (vn_lines (mesh_block export_params (offset_after (meshes.take k)) mesh)).length
      = mesh.tot_poly := by
    rw [hvb, List.length_map, List.length_take, Nat.min_eq_left hmesh.2.2.1]
  refine ⟨_, _, _, rest, _, hfile, hloop, hwrite, rfl, hoff, hvlen, ?_, ?_, ?_, ?_⟩
  · intro i polygon hi hp
    have hpr := polygon_readable_of_mem export_params mesh hmesh i polygon hi hp
    obtain ⟨h1, -, h3⟩ := hpr
    obtain ⟨h3, h4⟩ := h3 hn
    have hb : (vn_lines (mesh_block export_params (offset_after (meshes.take k)) mesh))[i]?
        = some (averaged_normal polygon AXIS_X mesh.mvert,
            averaged_normal polygon AXIS_Y mesh.mvert,
            averaged_normal polygon AXIS_Z mesh.mvert) := by
      rw [hvb]
      simp [List.getElem?_map, List.getElem?_take, hp, hi]
    have href : ∀ ref ∈ face_line export_params (offset_after (meshes.take k)) i polygon,
        ref.normal = some (uint32 (i + 1 + (offset_after (meshes.take k)).normal)) := by
      intro ref href
      obtain ⟨vi, ui, rfl⟩ := mem_face_line _ _ _ _ _ href
      rw [face_ref_normal, if_pos hn]
    have hw : (vn_lines (file_after export_params meshes k)).length + i + 1 < 2147483648 →
        uint32 (i + 1 + (offset_after (meshes.take k)).normal)
          = (vn_lines (file_after export_params meshes k)).length + i + 1 ∧
        int_of_uint (uint32 (i + 1 + (offset_after (meshes.take k)).normal))
          = (((vn_lines (file_after export_params meshes k)).length + i + 1 : Nat) : Int) ∧
        decimal (uint32 (i + 1 + (offset_after (meshes.take k)).normal))
          = Nat.toDigits 10 ((vn_lines (file_after export_params meshes k)).length + i + 1) := by
      intro hsmall
      rw [hoff, uint32_add_right,
        show i + 1 + (vn_lines (file_after export_params meshes k)).length
          = (vn_lines (file_after export_params meshes k)).length + i + 1 from by omega]
      exact written_of_lt _ hsmall
    refine ⟨_, _, _, _, face_normal_axis_component_eq polygon AXIS_X mesh.mvert h3 h1 h4,
      face_normal_axis_component_eq polygon AXIS_Y mesh.mvert h3 h1 h4,
      face_normal_axis_component_eq polygon AXIS_Z mesh.mvert h3 h1 h4, hb, ?_,
      f_lines_mesh_block_getElem? export_params _ mesh i polygon hi hp, href, ?_⟩
    · have happ : ∀ a b : List (Record F), vn_lines (a ++ b) = vn_lines a ++ vn_lines b :=
        fun a b => List.filterMap_append a b _
      rw [happ, happ, getElem?_middle _ _ _ _ (by rw [hvlen]; omega), hb]
    · intro hsmall
      refine ⟨?_, (hw hsmall).2.1, (hw hsmall).2.2⟩
      intro ref hmem
      rw [href ref hmem, (hw hsmall).1]
  · rw [← hall]
    exact hfull.2.2.1 hn
  · rw [← hall]
    exact hfull.2.2.2
  · rw [← hall]
    intro n refs hrefs
    have hnormal := file_after_face_normals export_params hn meshes meshes.length
      (Nat.le_refl _) (htake _) n refs hrefs
    refine ⟨hnormal, ?_⟩
    intro hsmall
    have hw := written_of_lt (n + 1) hsmall
    refine ⟨?_, hw.2.1, hw.2.2⟩
    intro ref hmem
    rw [hnormal ref hmem, hw.1]

/-- C4, amended, on the two-mesh scenario with Mesh B as object 1. -/
theorem normal_reference_is_ordinal_of_vn_line_witness :
    ({ export_uv := false, export_normals := true } : OBJExportParams).export_normals = true ∧
    (∀ m ∈ [mesh_a, mesh_b], readable { export_uv := false, export_normals := true } m) ∧
    [mesh_a, mesh_b][1]? = some mesh_b ∧
    (∃ (file pre block rest : List (Record Int)) (offset : Offset3),
      write_object_fprintf true [mesh_a, mesh_b] { export_uv := false, export_normals := true }
        = some { file := some file, stdout := [] } ∧
      export_loop [mesh_a, mesh_b] { export_uv := false, export_normals := true } 1
        = some { outfile := pre, index_offset := offset } ∧
      write_geomtery_per_mesh pre mesh_b offset { export_uv := false, export_normals := true }
        = some (pre ++ block) ∧
      file = pre ++ block ++ rest ∧
      offset.normal = uint32 (vn_lines pre).length ∧
      (vn_lines block).length = mesh_b.tot_poly ∧
      (∀ i polygon, i < mesh_b.tot_poly → mesh_b.polygon_list[i]? = some polygon →
        ∃ nx ny nz refs,
          face_normal_axis_component polygon AXIS_X mesh_b.mvert = some nx ∧
          face_normal_axis_component polygon AXIS_Y mesh_b.mvert = some ny ∧
          face_normal_axis_component polygon AXIS_Z mesh_b.mvert = some nz ∧
          (vn_lines block)[i]? = some (nx, ny, nz) ∧
          (vn_lines file)[(vn_lines pre).length + i]? = some (nx, ny, nz) ∧
          (f_lines block)[i]? = some refs ∧
          (∀ ref ∈ refs, ref.normal = some (uint32 (i + 1 + offset.normal))) ∧
          ((vn_lines pre).length + i + 1 < 2147483648 →
            (∀ ref ∈ refs, ref.normal = some ((vn_lines pre).length + i + 1)) ∧
            int_of_uint (uint32 (i + 1 + offset.normal))
              = (((vn_lines pre).length + i + 1 : Nat) : Int) ∧
            decimal (uint32 (i + 1 + offset.normal))
              = Nat.toDigits 10 ((vn_lines pre).length + i + 1))) ∧
      (vn_lines file).length = ([mesh_a, mesh_b].map fun m => m.tot_poly).sum ∧
      (f_lines file).length = ([mesh_a, mesh_b].map fun m => m.tot_poly).sum ∧
      (∀ n refs, (f_lines file)[n]? = some refs →
        (∀ ref ∈ refs, ref.normal = some (uint32 (n + 1))) ∧
        (n + 1 < 2147483648 →
          (∀ ref ∈ refs, ref.normal = some (n + 1)) ∧
          int_of_uint (uint32 (n + 1)) = ((n + 1 : Nat) : Int) ∧
          decimal (uint32 (n + 1)) = Nat.toDigits 10 (n + 1)))) ∧
    (write_object_fprintf true [mesh_a, mesh_b] { export_uv := false, export_normals := true }).map
        (fun r => r.file.map fun file => (vn_lines file, f_lines file))
      = some (some ([(0, 0, 32767), (0, 32767, 0)],
          [[FaceRef.v_vn 1 1, FaceRef.v_vn 2 1, FaceRef.v_vn 3 1],
           [FaceRef.v_vn 4 2, FaceRef.v_vn 5 2]])) :=
  ⟨rfl, by decide, rfl,
    normal_reference_is_ordinal_of_vn_line [mesh_a, mesh_b]
      { export_uv := false, export_normals := true } rfl (by decide) 1 mesh_b rfl,
    by decide⟩
/-! ## C5, C6: the components of a vertex reference -/

/-- C5 as stated fails: the normal index is the `uint` sum `i + 1 + offset[2]` printed
with `%d`. With the normal offset `2^31 - 2` the two face lines of the square carry
`2147483647` and then `-2147483648`; with the normal offset `2^32 - 2` the `uint`
itself goes from `4294967295` to `0`. -/
theorem face_line_normal_index_wraps_counterexample :
    (write_geomtery_per_mesh [] mesh_two_faces { vertex := 0, uv := 0, normal := 2147483646 }
        { export_uv := false, export_normals := true }).map face_text
      = some [[['1', '/', '/', '2', '1', '4', '7', '4', '8', '3', '6', '4', '7', ' '],
               ['2', '/', '/', '2', '1', '4', '7', '4', '8', '3', '6', '4', '7', ' '],
               ['3', '/', '/', '2', '1', '4', '7', '4', '8', '3', '6', '4', '7', ' ']],
              [['1', '/', '/', '-', '2', '1', '4', '7', '4', '8', '3', '6', '4', '8', ' '],
               ['3', '/', '/', '-', '2', '1', '4', '7', '4', '8', '3', '6', '4', '8', ' '],
               ['4', '/', '/', '-', '2', '1', '4', '7', '4', '8', '3', '6', '4', '8', ' ']]] ∧
    (write_geomtery_per_mesh [] mesh_two_faces { vertex := 0, uv := 0, normal := 4294967294 }
        { export_uv := false, export_normals := true }).map f_lines
      = some [[FaceRef.v_vn 1 4294967295, FaceRef.v_vn 2 4294967295,
               FaceRef.v_vn 3 4294967295],
              [FaceRef.v_vn 1 0, FaceRef.v_vn 3 0, FaceRef.v_vn 4 0]] := by
  constructor <;> decide

/-- C5, amended: with `export_normals`, the face line of polygon `i` (from 0) of an
object carries the `uint` sum `i + 1 + offset[2]` as normal index in every one of its
references, written as that sum while it is below `2^31`; from one face line of the
object to the next the normal index grows by 1 in `uint` arithmetic, and the written
number grows by exactly 1 while the sum stays below `2^31`. -/
theorem face_line_normal_index {F : Type} (export_params : OBJExportParams)
    (hn : export_params.export_normals = true) (m : OBJ_obmesh_to_export F)
    (offset : Offset3) (out : List (Record F)) (hr : readable export_params m) :
    ∃ block : List (Record F),
      write_geomtery_per_mesh out m offset export_params = some (out ++ block) ∧
      (f_lines block).length = m.tot_poly ∧
      (∀ i, i < m.tot_poly → ∃ polygon refs,
        m.polygon_list[i]? = some polygon ∧ (f_lines block)[i]? = some refs ∧
        refs.length = polygon.total_vertices_per_poly ∧
        (∀ ref ∈ refs, ref.normal = some (uint32 (i + 1 + offset.normal))) ∧
        (i + 1 + offset.normal < 2147483648 →
          (∀ ref ∈ refs, ref.normal = some (i + 1 + offset.normal)) ∧
          int_of_uint (uint32 (i + 1 + offset.normal))
            = ((i + 1 + offset.normal : Nat) : Int) ∧
          decimal (uint32 (i + 1 + offset.normal)) = Nat.toDigits 10 (i + 1 + offset.normal))) ∧
      (∀ i refs refs' ref ref' a b,
        (f_lines block)[i]? = some refs → (f_lines block)[i + 1]? = some refs' →
        ref ∈ refs → ref' ∈ refs' → ref.normal = some a → ref'.normal = some b →
        b = uint32 (a + 1) ∧
        (i + 2 + offset.normal < 2147483648 →
          b = a + 1 ∧ int_of_uint b = int_of_uint a + 1)) := by
  have hflen : (f_lines (mesh_block export_params offset m)).length = m.tot_poly := by
    rw [f_lines_mesh_block, List.length_mapIdx, List.length_take, Nat.min_eq_left hr.2.2.1]
  have hnormal : ∀ i refs, (f_lines (mesh_block export_params offset m))[i]? = some refs →
      ∀ ref ∈ refs, ref.normal = some (uint32 (i + 1 + offset.normal)) := by
    intro i refs h ref href
    obtain ⟨polygon, rfl⟩ := f_lines_mesh_block_getElem?_some _ _ _ _ _ h
    obtain ⟨vi, ui, rfl⟩ := mem_face_line _ _ _ _ _ href
    rw [face_ref_normal, if_pos hn]
  refine ⟨_, write_geomtery_per_mesh_eq export_params m offset out hr, hflen, ?_, ?_⟩
  · intro i hi
    have hlt : i < m.polygon_list.length := by
      have := hr.2.2.1
      omega
    have hp : m.polygon_list[i]? = some m.polygon_list[i] := List.getElem?_eq_getElem hlt
    have hpr := polygon_readable_of_mem export_params m hr i _ hi hp
    have hline := f_lines_mesh_block_getElem? export_params offset m i _ hi hp
    refine ⟨_, _, hp, hline, face_line_length _ _ _ _ hpr.1 hpr.2.1, hnormal i _ hline, ?_⟩
    intro hsmall
    have hw := written_of_lt _ hsmall
    refine ⟨?_, hw.2.1, hw.2.2⟩
    intro ref href
    rw [hnormal i _ hline ref href, hw.1]
  · intro i refs refs' ref ref' a b h h' href href' ha hb
    rw [hnormal i refs h ref href] at ha
    rw [hnormal (i + 1) refs' h' ref' href'] at hb
    injection ha with ha
    injection hb with hb
    subst ha
    subst hb
    refine ⟨?_, ?_⟩
    · rw [uint32_add_left]
      congr 1
      omega
    · intro hsmall
      rw [uint32_of_lt (i + 1 + 1 + offset.normal) (by omega),
        uint32_of_lt (i + 1 + offset.normal) (by omega),
        int_of_uint_of_lt (i + 1 + 1 + offset.normal) (by omega),
        int_of_uint_of_lt (i + 1 + offset.normal) (by omega)]
      refine ⟨by omega, ?_⟩
      push_cast
      omega

/-- C5, amended, on the square of two triangles, written with the offsets
`{5, 7, 9}`: the two face lines carry the normal indices 10 and 11. -/
theorem face_line_normal_index_witness :
    ({ export_uv := true, export_normals := true } : OBJExportParams).export_normals = true ∧
    readable { export_uv := true, export_normals := true } mesh_two_faces ∧
    (∃ block : List (Record Int),
      write_geomtery_per_mesh [] mesh_two_faces { vertex := 5, uv := 7, normal := 9 }
        { export_uv := true, export_normals := true } = some ([] ++ block) ∧
      (f_lines block).length = mesh_two_faces.tot_poly ∧
      (∀ i, i < mesh_two_faces.tot_poly → ∃ polygon refs,
        mesh_two_faces.polygon_list[i]? = some polygon ∧ (f_lines block)[i]? = some refs ∧
        refs.length = polygon.total_vertices_per_poly ∧
        (∀ ref ∈ refs, ref.normal = some (uint32 (i + 1 + 9))) ∧
        (i + 1 + 9 < 2147483648 →
          (∀ ref ∈ refs, ref.normal = some (i + 1 + 9)) ∧
          int_of_uint (uint32 (i + 1 + 9)) = ((i + 1 + 9 : Nat) : Int) ∧
          decimal (uint32 (i + 1 + 9)) = Nat.toDigits 10 (i + 1 + 9))) ∧
      (∀ i refs refs' ref ref' a b,
        (f_lines block)[i]? = some refs → (f_lines block)[i + 1]? = some refs' →
        ref ∈ refs → ref' ∈ refs' → ref.normal = some a → ref'.normal = some b →
        b = uint32 (a + 1) ∧
        (i + 2 + 9 < 2147483648 →
          b = a + 1 ∧ int_of_uint b = int_of_uint a + 1))) ∧
    (write_geomtery_per_mesh [] mesh_two_faces { vertex := 5, uv := 7, normal := 9 }
        { export_uv := true, export_normals := true }).map f_lines
      = some [[FaceRef.v_vt_vn 6 8 10, FaceRef.v_vt_vn 7 9 10, FaceRef.v_vt_vn 8 10 10],
              [FaceRef.v_vt_vn 6 8 11, FaceRef.v_vt_vn 8 10 11, FaceRef.v_vt_vn 9 11 11]] :=
  ⟨rfl, by decide,
    face_line_normal_index { export_uv := true, export_normals := true } rfl mesh_two_faces
      { vertex := 5, uv := 7, normal := 9 } [] (by decide),
    by decide⟩

/-- C6 as stated fails: the components are `uint` sums printed with `%d`. Mesh B
written with the offsets `{2^31 - 1, 2^32 - 1, 2^32 - 1}` gets the face line
`-2147483648/1/0 -2147483647/0/0`, where the sums of the stored indices and the
offsets are `2147483648/4294967297/4294967296` and
`2147483649/4294967296/4294967296`. -/
theorem face_reference_components_wrap_counterexample :
    (write_geomtery_per_mesh [] mesh_b
        { vertex := 2147483647, uv := 4294967295, normal := 4294967295 }
        { export_uv := true, export_normals := true }).map f_lines
      = some [[FaceRef.v_vt_vn 2147483648 1 0, FaceRef.v_vt_vn 2147483649 0 0]] ∧
    (write_geomtery_per_mesh [] mesh_b
        { vertex := 2147483647, uv := 4294967295, normal := 4294967295 }
        { export_uv := true, export_normals := true }).map face_text
      = some [[['-', '2', '1', '4', '7', '4', '8', '3', '6', '4', '8', '/', '1', '/', '0', ' '],
               ['-', '2', '1', '4', '7', '4', '8', '3', '6', '4', '7', '/', '0', '/', '0',
                ' ']]] := by
  constructor <;> decide

/-- C6, amended: in the face line of polygon `i`, reference `j` has the vertex
component `vertex_index[j] + offset[0]`; with `export_uv` its UV component is
`uv_vertex_index[j] + 1 + offset[1]`, without it has none; with `export_normals`
its normal component is `i + 1 + offset[2]`, without it has none. Each sum is taken
in `uint` arithmetic (modulo `2^32`) and written as a signed number, so it is written
as the sum itself while the sum is below `2^31`. -/
theorem face_reference_components {F : Type} (export_params : OBJExportParams)
    (m : OBJ_obmesh_to_export F) (offset : Offset3) (out : List (Record F))
    (hr : readable export_params m) :
    ∃ block : List (Record F),
      write_geomtery_per_mesh out m offset export_params = some (out ++ block) ∧
      ∀ i, i < m.tot_poly → ∃ polygon refs,
        m.polygon_list[i]? = some polygon ∧ (f_lines block)[i]? = some refs ∧
        refs.length = polygon.total_vertices_per_poly ∧
        ∀ j, j < polygon.total_vertices_per_poly → ∃ vi ref,
          polygon.vertex_index[j]? = some vi ∧ refs[j]? = some ref ∧
          ref.vertex = uint32 (vi + offset.vertex) ∧
          (vi + offset.vertex < 2147483648 →
            ref.vertex = vi + offset.vertex ∧
            decimal ref.vertex = Nat.toDigits 10 (vi + offset.vertex)) ∧
          (export_params.export_uv = true → ∃ ui,
            polygon.uv_vertex_index[j]? = some ui ∧
            ref.uv = some (uint32 (ui + 1 + offset.uv)) ∧
            (ui + 1 + offset.uv < 2147483648 →
              ref.uv = some (ui + 1 + offset.uv) ∧
              decimal (uint32 (ui + 1 + offset.uv)) = Nat.toDigits 10 (ui + 1 + offset.uv))) ∧
          (export_params.export_uv = false → ref.uv = none) ∧
          (export_params.export_normals = true →
            ref.normal = some (uint32 (i + 1 + offset.normal)) ∧
            (i + 1 + offset.normal < 2147483648 →
              ref.normal = some (i + 1 + offset.normal) ∧
              decimal (uint32 (i + 1 + offset.normal))
                = Nat.toDigits 10 (i + 1 + offset.normal))) ∧
          (export_params.export_normals = false → ref.normal = none) := by
  refine ⟨_, write_geomtery_per_mesh_eq export_params m offset out hr, ?_⟩
  intro i hi
  have hlt : i < m.polygon_list.length := by
    have := hr.2.2.1
    omega
  have hp : m.polygon_list[i]? = some m.polygon_list[i] := List.getElem?_eq_getElem hlt
  have hpr := polygon_readable_of_mem export_params m hr i _ hi hp
  refine ⟨_, _, hp, f_lines_mesh_block_getElem? export_params offset m i _ hi hp,
    face_line_length _ _ _ _ hpr.1 hpr.2.1, ?_⟩
  intro j hj
  have hjv : j < m.polygon_list[i].vertex_index.length := by
    have := hpr.1
    omega
  refine ⟨_, _, List.getElem?_eq_getElem hjv,
    face_line_getElem? export_params offset i _ j _ hj (List.getElem?_eq_getElem hjv) hpr.2.1,
    face_ref_vertex _ _ _ _ _, ?_, ?_, ?_, ?_, ?_⟩
  · intro hsmall
    rw [face_ref_vertex]
    exact ⟨(written_of_lt _ hsmall).1, (written_of_lt _ hsmall).2.2⟩
  · intro hu
    have hju : j < m.polygon_list[i].uv_vertex_index.length := by
      have := hpr.2.1 hu
      omega
    have href : (face_ref export_params offset i m.polygon_list[i].vertex_index[j]
        (m.polygon_list[i].uv_vertex_index.getD j 0)).uv
        = some (uint32 (m.polygon_list[i].uv_vertex_index[j] + 1 + offset.uv)) := by
      rw [face_ref_uv, if_pos hu]
      simp [List.getD_eq_getElem?_getD, List.getElem?_eq_getElem hju]
    refine ⟨_, List.getElem?_eq_getElem hju, href, ?_⟩
    intro hsmall
    refine ⟨?_, (written_of_lt _ hsmall).2.2⟩
    rw [href, (written_of_lt _ hsmall).1]
  · intro hu
    rw [face_ref_uv, hu]
    rfl
  · intro hn
    have href : (face_ref export_params offset i m.polygon_list[i].vertex_index[j]
        (m.polygon_list[i].uv_vertex_index.getD j 0)).normal
        = some (uint32 (i + 1 + offset.normal)) := by
      rw [face_ref_normal, if_pos hn]
    refine ⟨href, ?_⟩
    intro hsmall
    refine ⟨?_, (written_of_lt _ hsmall).2.2⟩
    rw [href, (written_of_lt _ hsmall).1]
  · intro hn
    rw [face_ref_normal, hn]
    rfl

/-- C6, amended, on Mesh B, written with the offsets `{3, 3, 1}` and both flags
set. -/
theorem face_reference_components_witness :
    readable { export_uv := true, export_normals := true } mesh_b ∧
    (∃ block : List (Record Int),
      write_geomtery_per_mesh [] mesh_b { vertex := 3, uv := 3, normal := 1 }
        { export_uv := true, export_normals := true } = some ([] ++ block) ∧
      ∀ i, i < mesh_b.tot_poly → ∃ polygon refs,
        mesh_b.polygon_list[i]? = some polygon ∧ (f_lines block)[i]? = some refs ∧
        refs.length = polygon.total_vertices_per_poly ∧
        ∀ j, j < polygon.total_vertices_per_poly → ∃ vi ref,
          polygon.vertex_index[j]? = some vi ∧ refs[j]? = some ref ∧
          ref.vertex = uint32 (vi + 3) ∧
          (vi + 3 < 2147483648 →
            ref.vertex = vi + 3 ∧
            decimal ref.vertex = Nat.toDigits 10 (vi + 3)) ∧
          (true = true → ∃ ui,
            polygon.uv_vertex_index[j]? = some ui ∧
            ref.uv = some (uint32 (ui + 1 + 3)) ∧
            (ui + 1 + 3 < 2147483648 →
              ref.uv = some (ui + 1 + 3) ∧
              decimal (uint32 (ui + 1 + 3)) = Nat.toDigits 10 (ui + 1 + 3))) ∧
          (true = false → ref.uv = none) ∧
          (true = true →
            ref.normal = some (uint32 (i + 1 + 1)) ∧
            (i + 1 + 1 < 2147483648 →
              ref.normal = some (i + 1 + 1) ∧
              decimal (uint32 (i + 1 + 1)) = Nat.toDigits 10 (i + 1 + 1))) ∧
          (true = false → ref.normal = none)) ∧
    (write_geomtery_per_mesh [] mesh_b { vertex := 3, uv := 3, normal := 1 }
        { export_uv := true, export_normals := true }).map f_lines
      = some [[FaceRef.v_vt_vn 4 5 2, FaceRef.v_vt_vn 5 4 2]] :=
  ⟨by decide,
    face_reference_components { export_uv := true, export_normals := true } mesh_b
      { vertex := 3, uv := 3, normal := 1 } [] (by decide),
    by decide⟩
/-! ## C7, C8: the layout of a face line -/

theorem face_ref_format (export_params : OBJExportParams) (offset : Offset3) (i vi ui : Nat) :
    (face_ref export_params offset i vi ui).format =
      if export_params.export_uv then
        if export_params.export_normals then "%d/%d/%d " else "%d/%d "
      else
        if export_params.export_normals then "%d//%d " else "%d " := by
  obtain ⟨uv, normals⟩ := export_params
  cases uv <;> cases normals <;> rfl

theorem mem_f_lines_mesh_block {F : Type} (export_params : OBJExportParams)
    (offset : Offset3) (m : OBJ_obmesh_to_export F) (refs : List FaceRef)
    (h : refs ∈ f_lines (mesh_block export_params offset m)) (ref : FaceRef)
    (href : ref ∈ refs) : ∃ i vi ui, ref = face_ref export_params offset i vi ui := by
  obtain ⟨i, hi⟩ := List.mem_iff_getElem?.mp h
  obtain ⟨polygon, rfl⟩ := f_lines_mesh_block_getElem?_some _ _ _ _ _ hi
  obtain ⟨vi, ui, rfl⟩ := mem_face_line _ _ _ _ _ href
  exact ⟨i, vi, ui, rfl⟩

/-- C7: the layout of the vertex references of the face lines of a mesh is given by
the flag pair alone, `v/vt/vn`, `v//vn`, `v/vt` or `v`, and is the same for every
reference of every face line; references written for two meshes, offsets and flag
pairs have the same layout exactly when the flag pairs are equal. -/
theorem face_layout_is_function_of_flags {F : Type}
    (export_params export_params' : OBJExportParams) (m m' : OBJ_obmesh_to_export F)
    (offset offset' : Offset3) (out out' : List (Record F))
    (hr : readable export_params m) (hr' : readable export_params' m') :
    ∃ block block' : List (Record F),
      write_geomtery_per_mesh out m offset export_params = some (out ++ block) ∧
      write_geomtery_per_mesh out' m' offset' export_params' = some (out' ++ block') ∧
      (∀ refs ∈ f_lines block, ∀ ref ∈ refs,
        ref.format =
          (if export_params.export_uv then
            if export_params.export_normals then "%d/%d/%d " else "%d/%d "
          else
            if export_params.export_normals then "%d//%d " else "%d ") ∧
        (export_params.export_uv = true → export_params.export_normals = true →
          ∃ a b c, ref = FaceRef.v_vt_vn a b c) ∧
        (export_params.export_uv = false → export_params.export_normals = true →
          ∃ a c, ref = FaceRef.v_vn a c) ∧
        (export_params.export_uv = true → export_params.export_normals = false →
          ∃ a b, ref = FaceRef.v_vt a b) ∧
        (export_params.export_uv = false → export_params.export_normals = false →
          ∃ a, ref = FaceRef.v a)) ∧
      (∀ refs ∈ f_lines block, ∀ ref ∈ refs, ∀ refs' ∈ f_lines block', ∀ ref' ∈ refs',
        (ref.format = ref'.format ↔ export_params = export_params')) := by
  refine ⟨_, _, write_geomtery_per_mesh_eq export_params m offset out hr,
    write_geomtery_per_mesh_eq export_params' m' offset' out' hr', ?_, ?_⟩
  · intro refs hrefs ref href
    obtain ⟨i, vi, ui, rfl⟩ := mem_f_lines_mesh_block _ _ _ _ hrefs _ href
    refine ⟨face_ref_format _ _ _ _ _, ?_, ?_, ?_, ?_⟩
    · intro hu hn
      exact ⟨_, _, _, by simp only [face_ref, hu, hn, if_true, Bool.false_eq_true, if_false]; rfl⟩
    · intro hu hn
      exact ⟨_, _, by simp only [face_ref, hu, hn, if_true, Bool.false_eq_true, if_false]; rfl⟩
    · intro hu hn
      exact ⟨_, _, by simp only [face_ref, hu, hn, if_true, Bool.false_eq_true, if_false]; rfl⟩
    · intro hu hn
      exact ⟨_, by simp only [face_ref, hu, hn, if_true, Bool.false_eq_true, if_false]; rfl⟩
  · intro refs hrefs ref href refs' hrefs' ref' href'
    obtain ⟨i, vi, ui, rfl⟩ := mem_f_lines_mesh_block _ _ _ _ hrefs _ href
    obtain ⟨i', vi', ui', rfl⟩ := mem_f_lines_mesh_block _ _ _ _ hrefs' _ href'
    rw [face_ref_format, face_ref_format]
    obtain ⟨uv, normals⟩ := export_params
    obtain ⟨uv', normals'⟩ := export_params'
    cases uv <;> cases normals <;> cases uv' <;> cases normals' <;> decide

/-- C7 on the two example meshes, one written with UV only, the other with
normals only. -/
theorem face_layout_is_function_of_flags_witness :
    readable { export_uv := true, export_normals := false } mesh_a ∧
    readable { export_uv := false, export_normals := true } mesh_b ∧
    ∃ block block' : List (Record Int),
      write_geomtery_per_mesh [] mesh_a { vertex := 0, uv := 0, normal := 0 }
        { export_uv := true, export_normals := false } = some ([] ++ block) ∧
      write_geomtery_per_mesh [] mesh_b { vertex := 3, uv := 3, normal := 1 }
        { export_uv := false, export_normals := true } = some ([] ++ block') ∧
      (∀ refs ∈ f_lines block, ∀ ref ∈ refs,
        ref.format =
          (if ({ export_uv := true, export_normals := false } : OBJExportParams).export_uv then
            if ({ export_uv := true, export_normals := false } : OBJExportParams).export_normals
            then "%d/%d/%d " else "%d/%d "
          else
            if ({ export_uv := true, export_normals := false } : OBJExportParams).export_normals
            then "%d//%d " else "%d ") ∧
        (true = true → false = true → ∃ a b c, ref = FaceRef.v_vt_vn a b c) ∧
        (true = false → false = true → ∃ a c, ref = FaceRef.v_vn a c) ∧
        (true = true → false = false → ∃ a b, ref = FaceRef.v_vt a b) ∧
        (true = false → false = false → ∃ a, ref = FaceRef.v a)) ∧
      (∀ refs ∈ f_lines block, ∀ ref ∈ refs, ∀ refs' ∈ f_lines block', ∀ ref' ∈ refs',
        (ref.format = ref'.format ↔
          ({ export_uv := true, export_normals := false } : OBJExportParams)
            = { export_uv := false, export_normals := true })) :=
  ⟨by decide, by decide,
    face_layout_is_function_of_flags { export_uv := true, export_normals := false }
      { export_uv := false, export_normals := true } mesh_a mesh_b
      { vertex := 0, uv := 0, normal := 0 } { vertex := 3, uv := 3, normal := 1 } [] []
      (by decide) (by decide)⟩

theorem digitChar_isDigit (d : Nat) (hd : d < 10) : (Nat.digitChar d).isDigit = true := by
  interval_cases d <;> decide

theorem toDigitsCore_isDigit (fuel : Nat) :
    ∀ (n : Nat) (ds : List Char), (∀ c ∈ ds, c.isDigit = true) →
      ∀ c ∈ Nat.toDigitsCore 10 fuel n ds, c.isDigit = true := by
  induction fuel with
  | zero =>
    intro n ds hds c hc
    exact hds c hc
  | succ fuel ih =>
    intro n ds hds c hc
    have hcons : ∀ c ∈ Nat.digitChar (n % 10) :: ds, c.isDigit = true := by
      intro c hc
      rw [List.mem_cons] at hc
      cases hc with
      | inl h => rw [h]; exact digitChar_isDigit _ (Nat.mod_lt _ (by decide))
      | inr h => exact hds c h
    simp only [Nat.toDigitsCore] at hc
    split at hc
    · exact hcons c hc
    · exact ih _ _ hcons c hc

theorem toDigits_isDigit (n : Nat) : ∀ c ∈ Nat.toDigits 10 n, c.isDigit = true :=
  toDigitsCore_isDigit _ _ _ (by intro c hc; cases hc)

/-- The characters `%d` writes are decimal digits and possibly a minus sign. -/
theorem decimal_chars (n : Nat) : ∀ c ∈ decimal n, c.isDigit = true ∨ c = '-' := by
  intro c hc
  unfold decimal at hc
  split at hc
  · exact Or.inl (toDigits_isDigit _ c hc)
  · rw [List.mem_cons] at hc
    cases hc with
    | inl h => exact Or.inr h
    | inr h => exact Or.inl (toDigits_isDigit _ c h)

/-- The characters `%d` writes for a `uint` below `2^31` are decimal digits. -/
theorem decimal_isDigit (n : Nat) (h : n < 2147483648) :
    ∀ c ∈ decimal n, c.isDigit = true := by
  rw [decimal_of_lt n h]
  exact toDigits_isDigit n

theorem mem_mesh_block_plain {F : Type} (offset : Offset3) (m : OBJ_obmesh_to_export F)
    (r : Record F)
    (h : r ∈ mesh_block { export_uv := false, export_normals := false } offset m) :
    (∃ name, r = Record.o name) ∨ (∃ x y z, r = Record.v x y z) ∨
      (∃ refs, r = Record.f refs) := by
  simp only [mesh_block, Bool.false_eq_true, if_false, List.append_nil, List.mem_append,
    List.mem_cons] at h
  rcases h with (h | h) | h
  · exact Or.inl ⟨_, h⟩
  · simp only [v_block, List.mem_map] at h
    obtain ⟨vertex, -, rfl⟩ := h
    exact Or.inr (Or.inl ⟨_, _, _, rfl⟩)
  · obtain ⟨i, hi⟩ := List.mem_iff_getElem?.mp h
    simp only [f_block, List.getElem?_mapIdx] at hi
    cases hp : (m.polygon_list.take m.tot_poly)[i]? with
    | none => rw [hp] at hi; cases hi
    | some polygon =>
      rw [hp] at hi
      exact Or.inr (Or.inr ⟨_, (Option.some.inj hi).symm⟩)

/-- C8: without `export_uv` and `export_normals`, the lines written for a mesh are
`o`, `v` and `f` lines only, whatever UV coordinates and vertex normals it holds, and
every vertex reference of a face line is written by `"%d "`: a bare integer (decimal
digits, behind a minus sign when the `uint` is `2^31` or more) followed by a blank,
without any `/`. -/
theorem plain_export_has_only_o_v_f {F : Type} (m : OBJ_obmesh_to_export F)
    (offset : Offset3) (out : List (Record F))
    (hr : readable { export_uv := false, export_normals := false } m) :
    ∃ block : List (Record F),
      write_geomtery_per_mesh out m offset { export_uv := false, export_normals := false }
        = some (out ++ block) ∧
      (∀ r ∈ block, (∃ name, r = Record.o name) ∨ (∃ x y z, r = Record.v x y z) ∨
        (∃ refs, r = Record.f refs)) ∧
      vt_lines block = [] ∧ vn_lines block = [] ∧
      (∀ refs ∈ f_lines block, ∀ ref ∈ refs,
        (∃ n, ref = FaceRef.v n ∧ ref.text = decimal n ++ [' '] ∧
          (n < 2147483648 → ∀ c ∈ ref.text, c.isDigit = true ∨ c = ' ')) ∧
        (∀ c ∈ ref.text, c.isDigit = true ∨ c = '-' ∨ c = ' ') ∧
        '/' ∉ ref.text) := by
  refine ⟨_, write_geomtery_per_mesh_eq _ m offset out hr,
    mem_mesh_block_plain offset m, ?_, ?_, ?_⟩
  · rw [vt_lines_mesh_block]
    rfl
  · rw [vn_lines_mesh_block]
    rfl
  · intro refs hrefs ref href
    obtain ⟨i, vi, ui, rfl⟩ := mem_f_lines_mesh_block _ _ _ _ hrefs _ href
    have hchars : ∀ c ∈ (FaceRef.v (uint32 (vi + offset.vertex))).text,
        c.isDigit = true ∨ c = '-' ∨ c = ' ' := by
      intro c hc
      simp only [FaceRef.text, List.mem_append, List.mem_singleton] at hc
      cases hc with
      | inl h =>
        cases decimal_chars _ c h with
        | inl h => exact Or.inl h
        | inr h => exact Or.inr (Or.inl h)
      | inr h => exact Or.inr (Or.inr h)
    refine ⟨⟨_, rfl, rfl, ?_⟩, hchars, ?_⟩
    · intro hsmall c hc
      have hc' : c ∈ (FaceRef.v (uint32 (vi + offset.vertex))).text := hc
      simp only [FaceRef.text, List.mem_append, List.mem_singleton] at hc'
      cases hc' with
      | inl h => exact Or.inl (decimal_isDigit _ hsmall c h)
      | inr h => exact Or.inr h
    · intro hslash
      rcases hchars _ hslash with h | h | h
      · exact absurd h (by decide)
      · exact absurd h (by decide)
      · exact absurd h (by decide)

/-- C8 on Mesh A, which holds UV coordinates and vertex normals. -/
theorem plain_export_has_only_o_v_f_witness :
    readable { export_uv := false, export_normals := false } mesh_a ∧
    (∃ block : List (Record Int),
      write_geomtery_per_mesh [] mesh_a { vertex := 10, uv := 0, normal := 0 }
        { export_uv := false, export_normals := false } = some ([] ++ block) ∧
      (∀ r ∈ block, (∃ name, r = Record.o name) ∨ (∃ x y z, r = Record.v x y z) ∨
        (∃ refs, r = Record.f refs)) ∧
      vt_lines block = [] ∧ vn_lines block = [] ∧
      (∀ refs ∈ f_lines block, ∀ ref ∈ refs,
        (∃ n, ref = FaceRef.v n ∧ ref.text = decimal n ++ [' '] ∧
          (n < 2147483648 → ∀ c ∈ ref.text, c.isDigit = true ∨ c = ' ')) ∧
        (∀ c ∈ ref.text, c.isDigit = true ∨ c = '-' ∨ c = ' ') ∧
        '/' ∉ ref.text)) ∧
    (write_geomtery_per_mesh [] mesh_a { vertex := 10, uv := 0, normal := 0 }
        { export_uv := false, export_normals := false }).map
        (fun block => (f_lines block).map fun refs => refs.map FaceRef.text)
      = some [[['1', '1', ' '], ['1', '2', ' '], ['1', '3', ' ']]] :=
  ⟨by decide,
    plain_export_has_only_o_v_f mesh_a { vertex := 10, uv := 0, normal := 0 } [] (by decide),
    by decide⟩

/-! ## C9: the lines of one mesh -/

theorem face_line_vertices (export_params : OBJExportParams) (offset : Offset3) (i : Nat)
    (polygon : Polygon)
    (h1 : polygon.total_vertices_per_poly ≤ polygon.vertex_index.length)
    (h2 : export_params.export_uv = true →
      polygon.total_vertices_per_poly ≤ polygon.uv_vertex_index.length) :
    (face_line export_params offset i polygon).map FaceRef.vertex =
      (polygon.vertex_index.take polygon.total_vertices_per_poly).map
        fun vi => uint32 (vi + offset.vertex) := by
  apply List.ext_getElem?
  intro j
  by_cases hj : j < polygon.total_vertices_per_poly
  · have hjv : j < polygon.vertex_index.length := by omega
    have hvi : polygon.vertex_index[j]? = some polygon.vertex_index[j] :=
      List.getElem?_eq_getElem hjv
    rw [List.getElem?_map, face_line_getElem? export_params offset i polygon j _ hj hvi h2,
      List.getElem?_map, List.getElem?_take, if_pos hj, hvi]
    simp [face_ref_vertex]
  · rw [List.getElem?_eq_none (by
        rw [List.length_map, face_line_length _ _ _ _ h1 h2]
        omega),
      List.getElem?_eq_none (by
        rw [List.length_map, List.length_take]
        omega)]

/-- C9: the lines written for a mesh are, in this order and with nothing else, one
`o` line with the object name (`id.name` without its ID code), `tot_vertices` lines
`v` with the coordinates of `mvert[i]`, `tot_uv_vertices` lines `vt` in the order of
`uv_coords` if `export_uv` and none otherwise, `tot_poly` lines `vn` holding the
values of `face_normal_axis_component` for polygon `i` if `export_normals` and none
otherwise, and `tot_poly` lines `f`, line `i` built from polygon `i` (its vertex components
are the `uint` sums of the stored indices and `offset[0]`). -/
theorem records_of_one_mesh {F : Type} (export_params : OBJExportParams)
    (m : OBJ_obmesh_to_export F) (offset : Offset3) (out : List (Record F))
    (hr : readable export_params m) :
    ∃ vs vts vns fs : List (Record F),
      write_geomtery_per_mesh out m offset export_params =
        some (out ++ Record.o (m.object.id.name.drop 2) :: (vs ++ vts ++ vns ++ fs)) ∧
      vs.length = m.tot_vertices ∧
      (∀ i, i < m.tot_vertices → ∃ vertex,
        m.mvert[i]? = some vertex ∧
        vs[i]? = some (Record.v (vertex.co 0) (vertex.co 1) (vertex.co 2))) ∧
      (export_params.export_uv = true →
        vts.length = m.tot_uv_vertices ∧
        ∀ i, i < m.tot_uv_vertices → ∃ uv_vertex,
          m.uv_coords[i]? = some uv_vertex ∧
          vts[i]? = some (Record.vt (uv_vertex 0) (uv_vertex 1))) ∧
      (export_params.export_uv = false → vts = []) ∧
      (export_params.export_normals = true →
        vns.length = m.tot_poly ∧
        ∀ i, i < m.tot_poly → ∃ polygon nx ny nz,
          m.polygon_list[i]? = some polygon ∧
          face_normal_axis_component polygon AXIS_X m.mvert = some nx ∧
          face_normal_axis_component polygon AXIS_Y m.mvert = some ny ∧
          face_normal_axis_component polygon AXIS_Z m.mvert = some nz ∧
          vns[i]? = some (Record.vn nx ny nz)) ∧
      (export_params.export_normals = false → vns = []) ∧
      fs.length = m.tot_poly ∧
      (∀ i, i < m.tot_poly → ∃ polygon refs,
        m.polygon_list[i]? = some polygon ∧ fs[i]? = some (Record.f refs) ∧
        refs.map FaceRef.vertex =
          (polygon.vertex_index.take polygon.total_vertices_per_poly).map
            fun vi => uint32 (vi + offset.vertex)) := by
  obtain ⟨hv, huv, hpoly, hp⟩ := hr
  have hr : readable export_params m := ⟨hv, huv, hpoly, hp⟩
  refine ⟨v_block m, if export_params.export_uv then vt_block m else [],
    if export_params.export_normals then vn_block m else [],
    f_block export_params offset m, ?_, ?_, ?_, ?_, ?_, ?_, ?_, ?_, ?_⟩
  · rw [write_geomtery_per_mesh_eq export_params m offset out hr, mesh_block]
    simp only [List.cons_append, List.append_assoc]
  · rw [v_block, List.length_map, List.length_take, Nat.min_eq_left hv]
  · intro i hi
    have hget : m.mvert[i]? = some m.mvert[i] := List.getElem?_eq_getElem (by omega)
    refine ⟨_, hget, ?_⟩
    rw [v_block, List.getElem?_map, List.getElem?_take, if_pos hi, hget]
    rfl
  · intro hu
    rw [if_pos hu]
    refine ⟨by rw [vt_block, List.length_map, List.length_take, Nat.min_eq_left (huv hu)], ?_⟩
    intro i hi
    have hlt : i < m.uv_coords.length := by
      have := huv hu
      omega
    have hget : m.uv_coords[i]? = some m.uv_coords[i] := List.getElem?_eq_getElem hlt
    refine ⟨_, hget, ?_⟩
    rw [vt_block, List.getElem?_map, List.getElem?_take, if_pos hi, hget]
    rfl
  · intro hu
    rw [hu]
    rfl
  · intro hn
    rw [if_pos hn]
    refine ⟨by rw [vn_block, List.length_map, List.length_take, Nat.min_eq_left hpoly], ?_⟩
    intro i hi
    have hget : m.polygon_list[i]? = some m.polygon_list[i] :=
      List.getElem?_eq_getElem (by omega)
    obtain ⟨h1, -, h3⟩ := polygon_readable_of_mem export_params m hr i _ hi hget
    obtain ⟨h3, h4⟩ := h3 hn
    refine ⟨_, _, _, _, hget, face_normal_axis_component_eq _ AXIS_X m.mvert h3 h1 h4,
      face_normal_axis_component_eq _ AXIS_Y m.mvert h3 h1 h4,
      face_normal_axis_component_eq _ AXIS_Z m.mvert h3 h1 h4, ?_⟩
    rw [vn_block, List.getElem?_map, List.getElem?_take, if_pos hi, hget]
    rfl
  · intro hn
    rw [hn]
    rfl
  · rw [f_block, List.length_mapIdx, List.length_take, Nat.min_eq_left hpoly]
  · intro i hi
    have hget : m.polygon_list[i]? = some m.polygon_list[i] :=
      List.getElem?_eq_getElem (by omega)
    have hpr := polygon_readable_of_mem export_params m hr i _ hi hget
    refine ⟨_, _, hget, ?_, face_line_vertices export_params offset i _ hpr.1 hpr.2.1⟩
    rw [f_block, List.getElem?_mapIdx, List.getElem?_take, if_pos hi, hget]
    rfl

/-- C9 on Mesh A with both flags set. -/
theorem records_of_one_mesh_witness :
    readable { export_uv := true, export_normals := true } mesh_a ∧
    (∃ vs vts vns fs : List (Record Int),
      write_geomtery_per_mesh [] mesh_a { vertex := 0, uv := 0, normal := 0 }
          { export_uv := true, export_normals := true } =
        some ([] ++ Record.o (mesh_a.object.id.name.drop 2) :: (vs ++ vts ++ vns ++ fs)) ∧
      vs.length = mesh_a.tot_vertices ∧
      (∀ i, i < mesh_a.tot_vertices → ∃ vertex,
        mesh_a.mvert[i]? = some vertex ∧
        vs[i]? = some (Record.v (vertex.co 0) (vertex.co 1) (vertex.co 2))) ∧
      (true = true →
        vts.length = mesh_a.tot_uv_vertices ∧
        ∀ i, i < mesh_a.tot_uv_vertices → ∃ uv_vertex,
          mesh_a.uv_coords[i]? = some uv_vertex ∧
          vts[i]? = some (Record.vt (uv_vertex 0) (uv_vertex 1))) ∧
      (true = false → vts = []) ∧
      (true = true →
        vns.length = mesh_a.tot_poly ∧
        ∀ i, i < mesh_a.tot_poly → ∃ polygon nx ny nz,
          mesh_a.polygon_list[i]? = some polygon ∧
          face_normal_axis_component polygon AXIS_X mesh_a.mvert = some nx ∧
          face_normal_axis_component polygon AXIS_Y mesh_a.mvert = some ny ∧
          face_normal_axis_component polygon AXIS_Z mesh_a.mvert = some nz ∧
          vns[i]? = some (Record.vn nx ny nz)) ∧
      (true = false → vns = []) ∧
      fs.length = mesh_a.tot_poly ∧
      (∀ i, i < mesh_a.tot_poly → ∃ polygon refs,
        mesh_a.polygon_list[i]? = some polygon ∧ fs[i]? = some (Record.f refs) ∧
        refs.map FaceRef.vertex =
          (polygon.vertex_index.take polygon.total_vertices_per_poly).map
            fun vi => uint32 (vi + 0))) ∧
    write_geomtery_per_mesh [] mesh_a { vertex := 0, uv := 0, normal := 0 }
        { export_uv := true, export_normals := true }
      = some [Record.o "MeshA", Record.v 0 0 0, Record.v 1 0 0, Record.v 0 1 0,
          Record.vt 0 0, Record.vt 1 0, Record.vt 0 1, Record.vn 0 0 32767,
          Record.f [FaceRef.v_vt_vn 1 1 1, FaceRef.v_vt_vn 2 2 1, FaceRef.v_vt_vn 3 3 1]] :=
  ⟨by decide,
    records_of_one_mesh { export_uv := true, export_normals := true } mesh_a
      { vertex := 0, uv := 0, normal := 0 } [] (by decide),
    by decide⟩

/-! ## The `float` arithmetic of the estimator -/

theorem f32_of_int_exact (x : Int) (h : x.natAbs ≤ 16777216) : f32_of_int x = x := by
  unfold f32_of_int
  rw [if_pos h]

theorem f32_sum_from (l : List Int) :
    ∀ acc : Int, acc.natAbs + 32768 * l.length ≤ 16777216 →
      (∀ c ∈ l, -32768 ≤ c ∧ c ≤ 32767) →
      l.foldl f32_add acc = acc + l.sum := by
  induction l with
  | nil =>
    intro acc _ _
    simp
  | cons c l ih =>
    intro acc hacc hc
    have hc1 := hc c (List.mem_cons_self _ _)
    rw [List.length_cons] at hacc
    have hstep : f32_add acc c = acc + c := by
      unfold f32_add
      apply f32_of_int_exact
      omega
    rw [List.foldl_cons, hstep, ih (acc + c) (by omega)
      (fun x hx => hc x (List.mem_cons_of_mem _ hx)), List.sum_cons]
    omega

/-- Up to 512 components of the `short` range are added without rounding: every
partial sum is at most `2^24` in magnitude. -/
theorem f32_sum_exact (l : List Int) (hlen : l.length ≤ 512)
    (hc : ∀ c ∈ l, -32768 ≤ c ∧ c ≤ 32767) : f32_sum l = l.sum := by
  unfold f32_sum
  rw [f32_sum_from l 0 (by simp; omega) hc]
  omega

theorem le_round_half_even (num den : Nat) : num / den ≤ round_half_even num den := by
  unfold round_half_even
  split
  · exact Nat.le_refl _
  · split
    · omega
    · split <;> omega

theorem round_half_even_le (num den m : Nat) (hden : 0 < den) (h : num ≤ den * m) :
    round_half_even num den ≤ m := by
  have hdiv : num / den ≤ m := by
    apply Nat.div_le_of_le_mul
    exact h
  rcases Nat.lt_or_ge (num / den) m with hlt | hge
  · have hle : round_half_even num den ≤ num / den + 1 := by
      unfold round_half_even
      split
      · omega
      · split
        · omega
        · split <;> omega
    omega
  · have heq : num / den = m := by omega
    have hmod : num % den = 0 := by
      have h1 := Nat.div_add_mod num den
      rw [heq] at h1
      omega
    unfold round_half_even
    rw [hmod, if_pos (by omega)]
    omega

/-- Rounding the quotient to a multiple of `1 / N` and cutting the fraction off
gives the integer quotient, when the quotient is an integer or `N` is at least the
divisor. -/
theorem round_scaled (a n N : Nat) (hn : 0 < n) (hN : 0 < N) (h : n ∣ a ∨ n ≤ N) :
    round_half_even (a * N) n / N = a / n := by
  have hlow : a / n * N ≤ round_half_even (a * N) n := by
    apply Nat.le_trans _ (le_round_half_even _ _)
    rw [Nat.le_div_iff_mul_le hn]
    calc a / n * N * n = a / n * n * N := by ring
      _ ≤ a * N := Nat.mul_le_mul_right _ (Nat.div_mul_le_self a n)
  have hup : round_half_even (a * N) n ≤ a / n * N + (N - 1) := by
    apply round_half_even_le _ _ _ hn
    have hdm := Nat.div_add_mod a n
    have hr : a % n < n := Nat.mod_lt _ hn
    rcases h with hdvd | hle
    · have h0 : a % n = 0 := Nat.mod_eq_zero_of_dvd hdvd
      calc a * N = (n * (a / n) + a % n) * N := by rw [hdm]
        _ = n * (a / n * N) := by rw [h0]; ring
        _ ≤ n * (a / n * N + (N - 1)) := Nat.mul_le_mul_left _ (Nat.le_add_right _ _)
    · have h1 : a % n * N ≤ n * (N - 1) := by
        have h2 : a % n ≤ n - 1 := by omega
        calc a % n * N ≤ (n - 1) * N := Nat.mul_le_mul_right _ h2
          _ = n * N - N := Nat.sub_one_mul n N
          _ ≤ n * N - n := Nat.sub_le_sub_left hle _
          _ = n * (N - 1) := (Nat.mul_sub_one n N).symm
      calc a * N = (n * (a / n) + a % n) * N := by rw [hdm]
        _ = n * (a / n * N) + a % n * N := by ring
        _ ≤ n * (a / n * N) + n * (N - 1) := Nat.add_le_add_left h1 _
        _ = n * (a / n * N + (N - 1)) := by ring
  apply Nat.div_eq_of_lt_le
  · rw [Nat.mul_comm] at hlow
    rw [Nat.mul_comm]
    exact hlow
  · calc round_half_even (a * N) n ≤ a / n * N + (N - 1) := hup
      _ < (a / n + 1) * N := by
        rw [Nat.add_mul, Nat.one_mul]
        omega

/-- The search for the number of fraction bits ends at a `t` with
`b * 2^23 ≤ a * 2^t`, when such a `t` is within reach. -/
theorem f32_scale_spec (a b : Nat) (ha : 0 < a) :
    ∀ fuel t, (∃ t0, t ≤ t0 ∧ t0 < t + fuel ∧ b * 8388608 ≤ a * 2 ^ t0) →
      b * 8388608 ≤ a * 2 ^ f32_scale a b fuel t := by
  intro fuel
  induction fuel with
  | zero =>
    intro t ⟨t0, h1, h2, _⟩
    omega
  | succ fuel ih =>
    intro t ⟨t0, h1, h2, h3⟩
    unfold f32_scale
    split
    · rename_i hc
      rcases hc with hc | hc
      · omega
      · exact hc
    · rename_i hc
      apply ih
      refine ⟨t0, ?_, by omega, h3⟩
      rcases Nat.eq_or_lt_of_le h1 with heq | hlt
      · subst heq
        exact absurd (Or.inr h3) hc
      · omega

theorem tdiv_eq_sign_mul (S : Int) (n : Nat) :
    Int.tdiv S n = Int.sign S * ((S.natAbs / n : Nat) : Int) := by
  rcases Int.natAbs_eq S with h | h
  · rcases Nat.eq_zero_or_pos S.natAbs with h0 | hpos
    · have hS : S = 0 := Int.natAbs_eq_zero.1 h0
      subst hS
      simp
    · have hsign : Int.sign S = 1 := by
        apply Int.sign_eq_one_of_pos
        omega
      rw [hsign, Int.one_mul]
      conv_lhs => rw [h]
      exact (Int.ofNat_tdiv _ _).symm
  · rcases Nat.eq_zero_or_pos S.natAbs with h0 | hpos
    · have hS : S = 0 := Int.natAbs_eq_zero.1 h0
      subst hS
      simp
    · have hsign : Int.sign S = -1 := by
        apply Int.sign_eq_neg_one_of_neg
        omega
      rw [hsign]
      conv_lhs => rw [h]
      rw [Int.neg_tdiv, ← Int.ofNat_tdiv]
      omega

/-- For a divisor of at most 512 and a sum of at most `32768` times the divisor in
magnitude, the integer part of the `float` quotient is the quotient truncated toward
zero. -/
theorem f32_div_to_int_exact (S : Int) (n : Nat) (hn : 0 < n) (hmany : n ≤ 512)
    (hS : S.natAbs ≤ n * 32768) : f32_div_to_int S n = Int.tdiv S n := by
  have hconv : (f32_of_int (n : Int)).natAbs = n := by
    rw [f32_of_int_exact _ (by rw [Int.natAbs_ofNat]; omega), Int.natAbs_ofNat]
  rw [tdiv_eq_sign_mul]
  unfold f32_div_to_int
  rw [hconv, if_neg (by omega)]
  rcases Nat.eq_zero_or_pos S.natAbs with h0 | hpos
  · have hS0 : S = 0 := Int.natAbs_eq_zero.1 h0
    subst hS0
    simp
  · congr 2
    have hreach : n * 8388608 ≤ S.natAbs * 2 ^ f32_scale S.natAbs n (n + 24) 0 := by
      apply f32_scale_spec _ _ hpos
      refine ⟨n + 23, by omega, by omega, ?_⟩
      have h1 : n ≤ 2 ^ n := Nat.le_of_lt (Nat.lt_two_pow n)
      calc n * 8388608 ≤ 2 ^ n * 2 ^ 23 := Nat.mul_le_mul_right _ h1
        _ = 2 ^ (n + 23) := (Nat.pow_add 2 n 23).symm
        _ ≤ S.natAbs * 2 ^ (n + 23) := Nat.le_mul_of_pos_left _ hpos
    apply round_scaled _ _ _ hn (Nat.pow_pos (by decide))
    rcases Nat.eq_or_lt_of_le hS with heq | hlt
    · left
      rw [heq]
      exact Dvd.intro _ rfl
    · right
      generalize f32_scale S.natAbs n (n + 24) 0 = t at hreach
      have h2 : n * 8388608 < n * 32768 * 2 ^ t :=
        Nat.lt_of_le_of_lt hreach (Nat.mul_lt_mul_of_pos_right hlt (Nat.pow_pos (by decide)))
      have h3 : 256 < 2 ^ t := by
        have h4 : n * (32768 * 256) < n * (32768 * 2 ^ t) := by
          rw [← Nat.mul_assoc n 32768 (2 ^ t)]
          exact h2
        have h5 := Nat.lt_of_mul_lt_mul_left h4
        omega
      have h6 : 8 < t := by
        by_contra hle
        have h7 : 2 ^ t ≤ 2 ^ 8 := Nat.pow_le_pow_right (by decide) (by omega)
        omega
      have h8 : 2 ^ 9 ≤ 2 ^ t := Nat.pow_le_pow_right (by decide) (by omega)
      omega

theorem index_at_map {α β : Type} (f : α → β) (l : List α) (i : Int) :
    index_at (l.map f) i = (index_at l i).map f := by
  unfold index_at
  split
  · rfl
  · rw [List.getElem?_map]

theorem normal_components_congr {F : Type} (polygon : Polygon) (axis : Fin 3)
    (vertex_list vertex_list' : List (MVert F))
    (h : vertex_list'.map (fun vertex => vertex.no axis)
      = vertex_list.map (fun vertex => vertex.no axis)) :
    normal_components polygon axis vertex_list'
      = normal_components polygon axis vertex_list := by
  unfold normal_components
  apply List.map_congr_left
  intro s _
  rw [← index_at_map, ← index_at_map, h]

theorem to_short_of_fits (x : Int) (h1 : -32768 ≤ x) (h2 : x ≤ 32767) : to_short x = x := by
  unfold to_short
  omega

theorem sum_between (l : List Int) (lo hi : Int) (h : ∀ c ∈ l, lo ≤ c ∧ c ≤ hi) :
    (l.length : Int) * lo ≤ l.sum ∧ l.sum ≤ (l.length : Int) * hi := by
  induction l with
  | nil => simp
  | cons a l ih =>
    obtain ⟨h1, h2⟩ := ih (fun c hc => h c (List.mem_cons_of_mem _ hc))
    obtain ⟨ha1, ha2⟩ := h a (List.mem_cons_self _ _)
    simp only [List.length_cons, List.sum_cons, Nat.cast_add, Nat.cast_one]
    constructor <;> nlinarith

theorem tdiv_between (S : Int) (n : Nat) (hn : 0 < n) (lo hi : Int)
    (h1 : (n : Int) * lo ≤ S) (h2 : S ≤ (n : Int) * hi) :
    lo ≤ Int.tdiv S n ∧ Int.tdiv S n ≤ hi := by
  have hnpos : (0 : Int) < (n : Int) := by exact_mod_cast hn
  by_cases hS : 0 ≤ S
  · rw [Int.tdiv_eq_ediv hS (Int.le_of_lt hnpos)]
    constructor
    · rw [Int.le_ediv_iff_mul_le hnpos]
      linarith
    · have : S / (n : Int) < hi + 1 := by
        rw [Int.ediv_lt_iff_lt_mul hnpos]
        linarith
      omega
  · have hT : 0 ≤ -S := by omega
    have hq : Int.tdiv S n = -((-S) / (n : Int)) := by
      rw [← Int.tdiv_eq_ediv hT (Int.le_of_lt hnpos), Int.neg_tdiv, Int.neg_neg]
    rw [hq]
    constructor
    · have : (-S) / (n : Int) < -lo + 1 := by
        rw [Int.ediv_lt_iff_lt_mul hnpos]
        linarith
      omega
    · have : -hi ≤ (-S) / (n : Int) := by
        rw [Int.le_ediv_iff_mul_le hnpos]
        linarith
      omega

theorem mem_normal_components {F : Type} (polygon : Polygon) (axis : Fin 3)
    (vertex_list : List (MVert F))
    (hidx : ∀ s ∈ polygon.vertex_index.take polygon.total_vertices_per_poly,
      1 ≤ s ∧ s ≤ vertex_list.length)
    (c : Int) (hc : c ∈ normal_components polygon axis vertex_list) :
    ∃ s vertex, s ∈ polygon.vertex_index.take polygon.total_vertices_per_poly ∧
      vertex_list[s - 1]? = some vertex ∧ c = vertex.no axis := by
  simp only [normal_components, List.mem_map] at hc
  obtain ⟨s, hs, rfl⟩ := hc
  obtain ⟨h1, h2⟩ := hidx s hs
  have hlt : s - 1 < vertex_list.length := by omega
  refine ⟨s, vertex_list[s - 1], hs, List.getElem?_eq_getElem hlt, ?_⟩
  rw [index_at_pred _ _ h1, List.getElem?_eq_getElem hlt]
  rfl

/-- For a polygon of at most 512 vertices whose referenced components are in the
`short` range, the `float` computation of the estimator is exact: the value is the
sum divided by the vertex count, truncated toward zero, and it is a `short`. -/
theorem averaged_normal_exact {F : Type} (polygon : Polygon) (axis : Fin 3)
    (vertex_list : List (MVert F)) (hn : 0 < polygon.total_vertices_per_poly)
    (hlen : polygon.total_vertices_per_poly ≤ polygon.vertex_index.length)
    (hidx : ∀ s ∈ polygon.vertex_index.take polygon.total_vertices_per_poly,
      1 ≤ s ∧ s ≤ vertex_list.length)
    (hmany : polygon.total_vertices_per_poly ≤ 512)
    (h16 : ∀ s ∈ polygon.vertex_index.take polygon.total_vertices_per_poly,
      ∀ vertex, vertex_list[s - 1]? = some vertex →
        -32768 ≤ vertex.no axis ∧ vertex.no axis ≤ 32767) :
    averaged_normal polygon axis vertex_list
        = Int.tdiv (normal_components polygon axis vertex_list).sum
            polygon.total_vertices_per_poly ∧
      -32768 ≤ Int.tdiv (normal_components polygon axis vertex_list).sum
            polygon.total_vertices_per_poly ∧
      Int.tdiv (normal_components polygon axis vertex_list).sum
            polygon.total_vertices_per_poly ≤ 32767 := by
  have hclen : (normal_components polygon axis vertex_list).length
      = polygon.total_vertices_per_poly := by
    simp [normal_components, hlen]
  have h16c : ∀ c ∈ normal_components polygon axis vertex_list,
      (-32768 : Int) ≤ c ∧ c ≤ 32767 := by
    intro c hc
    obtain ⟨s, vertex, hs, hv, rfl⟩ := mem_normal_components polygon axis vertex_list hidx c hc
    exact h16 s hs vertex hv
  obtain ⟨h1, h2⟩ := sum_between _ _ _ h16c
  rw [hclen] at h1 h2
  obtain ⟨hq1, hq2⟩ := tdiv_between _ _ hn _ _ h1 h2
  refine ⟨?_, hq1, hq2⟩
  unfold averaged_normal
  rw [f32_sum_exact _ (by rw [hclen]; exact hmany) h16c,
    f32_div_to_int_exact _ _ hn hmany (by omega), to_short_of_fits _ hq1 hq2]

/-- The components a polygon of 513 references to the first vertex contributes. -/
theorem normal_components_of_513 (axis : Fin 3) (vertex : MVert Int) :
    normal_components polygon_of_513 axis [vertex] = List.replicate 513 (vertex.no axis) := by
  unfold normal_components polygon_of_513
  rw [List.take_replicate, List.map_replicate]
  rfl

/-- The `float` sum of 513 equal components: the first 512 are added exactly. -/
theorem f32_sum_of_513 (c : Int) (h1 : -32768 ≤ c) (h2 : c ≤ 32767) :
    f32_sum (List.replicate 513 c) = f32_add (512 * c) c := by
  have hexact : f32_sum (List.replicate 512 c) = 512 * c := by
    rw [f32_sum_exact _ (by rw [List.length_replicate])
      (fun x hx => by rw [(List.mem_replicate.1 hx).2]; exact ⟨h1, h2⟩),
      List.sum_replicate]
    simp
  unfold f32_sum at hexact ⊢
  rw [show (513 : Nat) = 512 + 1 from rfl, List.replicate_succ', List.foldl_append, hexact]
  rfl

theorem tilted_components_are_short (axis : Fin 3) :
    ∀ s ∈ tilted_polygon.vertex_index.take tilted_polygon.total_vertices_per_poly,
      ∀ vertex, tilted_vertices[s - 1]? = some vertex →
        -32768 ≤ vertex.no axis ∧ vertex.no axis ≤ 32767 := by
  intro s hs vertex hv
  have hs' : s = 1 ∨ s = 2 := by
    simp only [tilted_polygon, List.take_succ_cons, List.take_zero, List.mem_cons,
      List.mem_singleton, List.not_mem_nil, or_false] at hs
    omega
  rcases hs' with rfl | rfl
  · simp only [tilted_vertices] at hv
    injection hv with hv
    subst hv
    fin_cases axis <;> decide
  · simp only [tilted_vertices] at hv
    injection hv with hv
    subst hv
    fin_cases axis <;> decide
/-! ## C10: the normal estimator -/

/-- C10 as stated fails: the sum is accumulated in a `float`, which holds integers
exactly only up to `2^24`. For a polygon that lists 513 times a vertex whose normal
has the x component 32765, the accumulator ends at 16808444 instead of 16808445, and
the function returns 32764, while the sum divided by the vertex count and truncated
toward zero is 32765. -/
theorem face_normal_of_513_counterexample :
    face_normal_axis_component polygon_of_513 AXIS_X steep_vertices = some 32764 ∧
    normal_components polygon_of_513 AXIS_X steep_vertices = List.replicate 513 32765 ∧
    f32_sum (normal_components polygon_of_513 AXIS_X steep_vertices) = 16808444 ∧
    (normal_components polygon_of_513 AXIS_X steep_vertices).sum = 16808445 ∧
    to_short (Int.tdiv (normal_components polygon_of_513 AXIS_X steep_vertices).sum
      polygon_of_513.total_vertices_per_poly) = 32765 := by
  have hcomp : normal_components polygon_of_513 AXIS_X steep_vertices
      = List.replicate 513 32765 := normal_components_of_513 AXIS_X _
  have hsum : (List.replicate 513 (32765 : Int)).sum = 16808445 := by
    rw [List.sum_replicate]
    rfl
  have hf : f32_sum (List.replicate 513 (32765 : Int)) = 16808444 := by
    rw [f32_sum_of_513 _ (by decide) (by decide)]
    decide
  refine ⟨?_, hcomp, ?_, ?_, ?_⟩
  · rw [face_normal_axis_component_eq polygon_of_513 AXIS_X steep_vertices (by decide)
      (by rw [polygon_of_513, List.length_replicate])
      (by
        intro s hs
        have hs' := List.mem_of_mem_take hs
        rw [polygon_of_513, List.mem_replicate] at hs'
        rw [hs'.2]
        decide)]
    unfold averaged_normal
    rw [hcomp, hf]
    decide
  · rw [hcomp, hf]
  · rw [hcomp, hsum]
  · rw [hcomp, hsum]
    decide

/-- C10, amended: for a polygon with at least one and at most 512 vertices whose
referenced normal components on the axis are in the `short` range,
`face_normal_axis_component` returns the sum of the axis components of the normals of
the vertices `vertex_list[vertex_index[i] - 1]`, one term per listed vertex, divided
by the vertex count with truncation toward zero (the magnitude is the floor of the
quotient of the magnitudes, the sign is kept); the quotient is a `short`, so the
conversion to `short`, which always yields the value in `-32768 .. 32767` congruent
modulo `2^16`, changes nothing. In general the value is the `short` of the `float`
quotient of the `float` sum by the vertex count. Only the components on that axis
matter. -/
theorem face_normal_is_truncated_mean {F : Type} (polygon : Polygon) (axis : Fin 3)
    (vertex_list : List (MVert F)) (hn : 0 < polygon.total_vertices_per_poly)
    (hlen : polygon.total_vertices_per_poly ≤ polygon.vertex_index.length)
    (hidx : ∀ s ∈ polygon.vertex_index.take polygon.total_vertices_per_poly,
      1 ≤ s ∧ s ≤ vertex_list.length)
    (hmany : polygon.total_vertices_per_poly ≤ 512)
    (h16 : ∀ s ∈ polygon.vertex_index.take polygon.total_vertices_per_poly,
      ∀ vertex, vertex_list[s - 1]? = some vertex →
        -32768 ≤ vertex.no axis ∧ vertex.no axis ≤ 32767) :
    ∃ (components : List Int) (q : Int),
      List.Forall₂
        (fun (s : Nat) (c : Int) =>
          ∃ vertex, vertex_list[s - 1]? = some vertex ∧ c = vertex.no axis)
        (polygon.vertex_index.take polygon.total_vertices_per_poly) components ∧
      q = Int.tdiv components.sum polygon.total_vertices_per_poly ∧
      face_normal_axis_component polygon axis vertex_list = some q ∧
      face_normal_axis_component polygon axis vertex_list
        = some (to_short (f32_div_to_int (f32_sum components)
            polygon.total_vertices_per_poly)) ∧
      q.natAbs = components.sum.natAbs / polygon.total_vertices_per_poly ∧
      (0 ≤ components.sum → 0 ≤ q) ∧ (components.sum ≤ 0 → q ≤ 0) ∧
      -32768 ≤ q ∧ q ≤ 32767 ∧ to_short q = q ∧
      (∀ x : Int, -32768 ≤ to_short x ∧ to_short x ≤ 32767 ∧
        (to_short x - x) % 65536 = 0) ∧
      (∀ vertex_list' : List (MVert F),
        vertex_list'.map (fun vertex => vertex.no axis)
          = vertex_list.map (fun vertex => vertex.no axis) →
        face_normal_axis_component polygon axis vertex_list'
          = face_normal_axis_component polygon axis vertex_list) := by
  have hnpos : (0 : Int) ≤ (polygon.total_vertices_per_poly : Int) := Int.ofNat_nonneg _
  obtain ⟨hexact, hq1, hq2⟩ :=
    averaged_normal_exact polygon axis vertex_list hn hlen hidx hmany h16
  have hvalue := face_normal_axis_component_eq polygon axis vertex_list hn hlen hidx
  refine ⟨normal_components polygon axis vertex_list, _, ?_, rfl, ?_, hvalue, ?_, ?_, ?_,
    hq1, hq2, to_short_of_fits _ hq1 hq2, ?_, ?_⟩
  · unfold normal_components
    rw [List.forall₂_map_right_iff, List.forall₂_same]
    intro s hs
    obtain ⟨h1, h2⟩ := hidx s hs
    have hlt : s - 1 < vertex_list.length := by omega
    refine ⟨vertex_list[s - 1], List.getElem?_eq_getElem hlt, ?_⟩
    rw [index_at_pred _ _ h1, List.getElem?_eq_getElem hlt]
    rfl
  · rw [hvalue, hexact]
  · rw [Int.natAbs_tdiv, Int.natAbs_ofNat]
    rfl
  · intro h
    exact Int.tdiv_nonneg h hnpos
  · intro h
    have h' : 0 ≤ (-(normal_components polygon axis vertex_list).sum).tdiv
        (polygon.total_vertices_per_poly : Int) :=
      Int.tdiv_nonneg (by omega) hnpos
    rw [Int.neg_tdiv] at h'
    omega
  · intro x
    unfold to_short
    omega
  · intro vertex_list' h
    have hlen' : vertex_list'.length = vertex_list.length := by
      have := congrArg List.length h
      simpa using this
    rw [face_normal_axis_component_eq polygon axis vertex_list hn hlen hidx,
      face_normal_axis_component_eq polygon axis vertex_list' hn hlen
        (by rw [hlen']; exact hidx)]
    unfold averaged_normal
    rw [normal_components_congr polygon axis vertex_list vertex_list' h]

/-- C10, amended, on `tilted_polygon`: the sums 17, -17 and 98301 over three listed
vertices give 5, -5 and 32767, where rounding to nearest would give 6 and -6. -/
theorem face_normal_is_truncated_mean_witness :
    (0 < tilted_polygon.total_vertices_per_poly ∧
      tilted_polygon.total_vertices_per_poly ≤ tilted_polygon.vertex_index.length ∧
      (∀ s ∈ tilted_polygon.vertex_index.take tilted_polygon.total_vertices_per_poly,
        1 ≤ s ∧ s ≤ tilted_vertices.length) ∧
      tilted_polygon.total_vertices_per_poly ≤ 512 ∧
      ∀ s ∈ tilted_polygon.vertex_index.take tilted_polygon.total_vertices_per_poly,
        ∀ vertex, tilted_vertices[s - 1]? = some vertex →
          -32768 ≤ vertex.no AXIS_Y ∧ vertex.no AXIS_Y ≤ 32767) ∧
    (∃ (components : List Int) (q : Int),
      List.Forall₂
        (fun (s : Nat) (c : Int) =>
          ∃ vertex, tilted_vertices[s - 1]? = some vertex ∧ c = vertex.no AXIS_Y)
        (tilted_polygon.vertex_index.take tilted_polygon.total_vertices_per_poly) components ∧
      q = Int.tdiv components.sum tilted_polygon.total_vertices_per_poly ∧
      face_normal_axis_component tilted_polygon AXIS_Y tilted_vertices = some q ∧
      face_normal_axis_component tilted_polygon AXIS_Y tilted_vertices
        = some (to_short (f32_div_to_int (f32_sum components)
            tilted_polygon.total_vertices_per_poly)) ∧
      q.natAbs = components.sum.natAbs / tilted_polygon.total_vertices_per_poly ∧
      (0 ≤ components.sum → 0 ≤ q) ∧ (components.sum ≤ 0 → q ≤ 0) ∧
      -32768 ≤ q ∧ q ≤ 32767 ∧ to_short q = q ∧
      (∀ x : Int, -32768 ≤ to_short x ∧ to_short x ≤ 32767 ∧
        (to_short x - x) % 65536 = 0) ∧
      (∀ vertex_list' : List (MVert Int),
        vertex_list'.map (fun vertex => vertex.no AXIS_Y)
          = tilted_vertices.map (fun vertex => vertex.no AXIS_Y) →
        face_normal_axis_component tilted_polygon AXIS_Y vertex_list'
          = face_normal_axis_component tilted_polygon AXIS_Y tilted_vertices)) ∧
    face_normal_axis_component tilted_polygon AXIS_X tilted_vertices = some 5 ∧
    face_normal_axis_component tilted_polygon AXIS_Y tilted_vertices = some (-5) ∧
    face_normal_axis_component tilted_polygon AXIS_Z tilted_vertices = some 32767 :=
  ⟨⟨by decide, by decide, by decide, by decide, tilted_components_are_short AXIS_Y⟩,
    face_normal_is_truncated_mean tilted_polygon AXIS_Y tilted_vertices (by decide)
      (by decide) (by decide) (by decide) (tilted_components_are_short AXIS_Y),
    by decide, by decide, by decide⟩
/-! ## C11: the file is the header followed by the blocks -/

theorem mesh_block_no_comment {F : Type} (export_params : OBJExportParams)
    (offset : Offset3) (m : OBJ_obmesh_to_export F) (r : Record F)
    (h : r ∈ mesh_block export_params offset m) (text : String) :
    r ≠ Record.comment text := by
  have hv : ∀ r ∈ v_block m, r ≠ Record.comment text := by
    intro r hr
    simp only [v_block, List.mem_map] at hr
    obtain ⟨vertex, -, rfl⟩ := hr
    intro hc
    cases hc
  have hvt : ∀ r ∈ vt_block m, r ≠ Record.comment text := by
    intro r hr
    simp only [vt_block, List.mem_map] at hr
    obtain ⟨uv_vertex, -, rfl⟩ := hr
    intro hc
    cases hc
  have hvn : ∀ r ∈ vn_block m, r ≠ Record.comment text := by
    intro r hr
    simp only [vn_block, List.mem_map] at hr
    obtain ⟨polygon, -, rfl⟩ := hr
    intro hc
    cases hc
  have hf : ∀ r ∈ f_block export_params offset m, r ≠ Record.comment text := by
    intro r hr
    obtain ⟨i, hi⟩ := List.mem_iff_getElem?.mp hr
    simp only [f_block, List.getElem?_mapIdx] at hi
    cases hp : (m.polygon_list.take m.tot_poly)[i]? with
    | none => rw [hp] at hi; cases hi
    | some polygon =>
      rw [hp] at hi
      rw [← Option.some.inj hi]
      intro hc
      cases hc
  simp only [mesh_block, List.mem_append, List.mem_cons] at h
  rcases h with ((h | h) | h) | h
  · rcases h with h | h
    · rw [h]
      intro hc
      cases hc
    · exact hv r h
  · by_cases hu : export_params.export_uv = true
    · rw [if_pos hu] at h
      exact hvt r h
    · rw [if_neg hu] at h
      cases h
  · by_cases hn : export_params.export_normals = true
    · rw [if_pos hn] at h
      exact hvn r h
    · rw [if_neg hn] at h
      cases h
  · exact hf r h

theorem file_after_eq_flatten {F : Type} (export_params : OBJExportParams)
    (meshes : List (OBJ_obmesh_to_export F)) (n : Nat) :
    file_after export_params meshes n =
      Record.comment "Blender 2.90" ::
        ((List.range n).map fun k =>
          match meshes[k]? with
          | some m => mesh_block export_params (offset_after (meshes.take k)) m
          | none => []).flatten := by
  induction n with
  | zero => rfl
  | succ n ih =>
    rw [file_after, ih, List.range_succ, List.map_append, List.flatten_append]
    simp

/-- C11: when the destination opens, the file is the header line `# Blender 2.90`
followed by one block per mesh, in input order, block `k` being what
`write_geomtery_per_mesh` writes for mesh `k` with the current offsets, the counters
of the meshes before it summed in `uint` arithmetic; no block holds a comment line,
so the header appears once and first, and for the empty sequence the file is the
header alone. -/
theorem export_is_header_then_blocks {F : Type}
    (meshes : List (OBJ_obmesh_to_export F)) (export_params : OBJExportParams)
    (hr : ∀ m ∈ meshes, readable export_params m) :
    ∃ blocks : List (List (Record F)),
      write_object_fprintf true meshes export_params =
        some { file := some (Record.comment "Blender 2.90" :: blocks.flatten)
               stdout := [] } ∧
      blocks.length = meshes.length ∧
      (∀ k mesh, meshes[k]? = some mesh →
        ∃ block, blocks[k]? = some block ∧
          write_geomtery_per_mesh [] mesh
            { vertex := uint32 ((meshes.take k).map fun m => m.tot_vertices).sum
              uv := uint32 ((meshes.take k).map fun m => m.tot_uv_vertices).sum
              normal := uint32 ((meshes.take k).map fun m => m.tot_poly).sum }
            export_params = some block) ∧
      (∀ block ∈ blocks, ∀ r ∈ block, ∀ text, r ≠ Record.comment text) ∧
      (meshes = [] → blocks = []) := by
  refine ⟨(List.range meshes.length).map fun k =>
      match meshes[k]? with
      | some m => mesh_block export_params (offset_after (meshes.take k)) m
      | none => [], ?_, by simp, ?_, ?_, ?_⟩
  · rw [export_file_eq meshes export_params hr, file_after_eq_flatten]
  · intro k mesh hk
    have hlt : k < meshes.length := by
      by_contra hge
      rw [List.getElem?_eq_none (by omega)] at hk
      cases hk
    refine ⟨mesh_block export_params (offset_after (meshes.take k)) mesh, ?_, ?_⟩
    · rw [List.getElem?_map, List.getElem?_range hlt]
      simp only [Option.map_some', hk]
    · have h := write_geomtery_per_mesh_eq export_params mesh (offset_after (meshes.take k)) []
        (hr mesh (List.getElem?_mem hk))
      rw [List.nil_append] at h
      exact h
  · intro block hblock r hmem text
    simp only [List.mem_map, List.mem_range] at hblock
    obtain ⟨k, -, rfl⟩ := hblock
    cases hm : meshes[k]? with
    | none => rw [hm] at hmem; cases hmem
    | some m =>
      rw [hm] at hmem
      exact mesh_block_no_comment export_params _ m r hmem text
  · intro hnil
    subst hnil
    rfl

/-- C11 on the two-mesh scenario and on the empty sequence. -/
theorem export_is_header_then_blocks_witness :
    (∀ m ∈ [mesh_a, mesh_b], readable { export_uv := false, export_normals := false } m) ∧
    (∃ blocks : List (List (Record Int)),
      write_object_fprintf true [mesh_a, mesh_b]
          { export_uv := false, export_normals := false } =
        some { file := some (Record.comment "Blender 2.90" :: blocks.flatten)
               stdout := [] } ∧
      blocks.length = [mesh_a, mesh_b].length ∧
      (∀ k mesh, [mesh_a, mesh_b][k]? = some mesh →
        ∃ block, blocks[k]? = some block ∧
          write_geomtery_per_mesh [] mesh
            { vertex := uint32 (([mesh_a, mesh_b].take k).map fun m => m.tot_vertices).sum
              uv := uint32 (([mesh_a, mesh_b].take k).map fun m => m.tot_uv_vertices).sum
              normal := uint32 (([mesh_a, mesh_b].take k).map fun m => m.tot_poly).sum }
            { export_uv := false, export_normals := false } = some block) ∧
      (∀ block ∈ blocks, ∀ r ∈ block, ∀ text, r ≠ Record.comment text) ∧
      ([mesh_a, mesh_b] = [] → blocks = [])) ∧
    write_object_fprintf true ([] : List (OBJ_obmesh_to_export Int))
        { export_uv := true, export_normals := true } =
      some { file := some [Record.comment "Blender 2.90"], stdout := [] } :=
  ⟨by decide,
    export_is_header_then_blocks [mesh_a, mesh_b]
      { export_uv := false, export_normals := false } (by decide),
    by decide⟩

/-! ## C12: the destination cannot be opened -/

/-- C12: when `fopen` fails, `write_object_fprintf` prints the diagnostic and
returns without a file: no header line and no block, whatever the meshes and the
flags, also for meshes on which the loop could not run. -/
theorem failed_open_writes_nothing {F : Type}
    (meshes : List (OBJ_obmesh_to_export F)) (export_params : OBJExportParams) :
    write_object_fprintf false meshes export_params =
      some { file := none, stdout := ["Error in creating the file\n"] } := by
  unfold write_object_fprintf
  rw [if_neg (by decide)]

/-- C12 on a mesh the loop cannot write: with the destination open the export has
no defined result, with the destination closed it returns the diagnostic alone. -/
theorem failed_open_writes_nothing_witness :
    write_object_fprintf true [mesh_too_short] { export_uv := true, export_normals := true }
      = none ∧
    write_object_fprintf false [mesh_too_short] { export_uv := true, export_normals := true }
      = some { file := none, stdout := ["Error in creating the file\n"] } :=
  ⟨by decide,
    failed_open_writes_nothing [mesh_too_short] { export_uv := true, export_normals := true }⟩

/-! ## C13: a face line lists the vertices of its polygon in order -/

theorem f_lines_f_block {F : Type} (export_params : OBJExportParams) (offset : Offset3)
    (m : OBJ_obmesh_to_export F) :
    f_lines (f_block export_params offset m : List (Record F)) =
      (m.polygon_list.take m.tot_poly).mapIdx fun i polygon =>
        face_line export_params offset i polygon := by
  unfold f_lines f_block
  apply filterMap_mapIdx_some
  intro i a
  rfl

/-- C13: whatever the flags, the face loops write for polygon `i` a face line with
exactly `total_vertices_per_poly` references, reference `j` built from entry `j` of
`vertex_index` (and of `uv_vertex_index` with `export_uv`), so the vertex components
are the stored indices in their order, each plus `offset[0]` as a `uint`; a polygon without
vertices gets a face line without references. For a readable mesh these are the face
lines of the block written by `write_geomtery_per_mesh`. -/
theorem face_line_keeps_polygon_vertices {F : Type} (export_params : OBJExportParams)
    (m : OBJ_obmesh_to_export F) (offset : Offset3) (out : List (Record F))
    (hpoly : m.tot_poly ≤ m.polygon_list.length)
    (hp : ∀ polygon ∈ m.polygon_list.take m.tot_poly,
      polygon.total_vertices_per_poly ≤ polygon.vertex_index.length ∧
      (export_params.export_uv = true →
        polygon.total_vertices_per_poly ≤ polygon.uv_vertex_index.length)) :
    ∃ fs : List (Record F),
      (if export_params.export_normals then
        if export_params.export_uv then write_faces_v_vt_vn m offset out
        else write_faces_v_vn m offset out
      else
        if export_params.export_uv then write_faces_v_vt m offset out
        else write_faces_v m offset out) = some (out ++ fs) ∧
      fs.length = m.tot_poly ∧
      (∀ i, i < m.tot_poly → ∃ polygon refs,
        m.polygon_list[i]? = some polygon ∧ fs[i]? = some (Record.f refs) ∧
        refs.length = polygon.total_vertices_per_poly ∧
        (∀ j, j < polygon.total_vertices_per_poly → ∃ vi ref,
          polygon.vertex_index[j]? = some vi ∧ refs[j]? = some ref ∧
          ref.vertex = uint32 (vi + offset.vertex) ∧
          (export_params.export_uv = true → ∃ ui,
            polygon.uv_vertex_index[j]? = some ui ∧
            ref.uv = some (uint32 (ui + 1 + offset.uv)))) ∧
        refs.map FaceRef.vertex =
          (polygon.vertex_index.take polygon.total_vertices_per_poly).map
            (fun vi => uint32 (vi + offset.vertex)) ∧
        (polygon.total_vertices_per_poly = 0 → refs = [])) ∧
      (readable export_params m → ∃ block,
        write_geomtery_per_mesh out m offset export_params = some (out ++ block) ∧
        f_lines block = f_lines fs) := by
  refine ⟨f_block export_params offset m,
    write_faces_eq export_params m offset out hpoly hp, ?_, ?_, ?_⟩
  · rw [f_block, List.length_mapIdx, List.length_take, Nat.min_eq_left hpoly]
  · intro i hi
    have hget : m.polygon_list[i]? = some m.polygon_list[i] :=
      List.getElem?_eq_getElem (by omega)
    obtain ⟨h1, h2⟩ := hp _ (mem_take_of_getElem? _ _ _ _ hi hget)
    have hlen := face_line_length export_params offset i _ h1 h2
    refine ⟨_, _, hget, ?_, hlen, ?_, face_line_vertices export_params offset i _ h1 h2, ?_⟩
    · rw [f_block, List.getElem?_mapIdx, List.getElem?_take, if_pos hi, hget]
      rfl
    · intro j hj
      have hjv : j < m.polygon_list[i].vertex_index.length := by omega
      refine ⟨_, _, List.getElem?_eq_getElem hjv,
        face_line_getElem? export_params offset i _ j _ hj (List.getElem?_eq_getElem hjv) h2,
        face_ref_vertex _ _ _ _ _, ?_⟩
      intro hu
      have hju : j < m.polygon_list[i].uv_vertex_index.length := by
        have := h2 hu
        omega
      refine ⟨_, List.getElem?_eq_getElem hju, ?_⟩
      rw [face_ref_uv, if_pos hu]
      simp [List.getD_eq_getElem?_getD, List.getElem?_eq_getElem hju]
    · intro h0
      rw [h0] at hlen
      exact List.length_eq_zero.mp hlen
  · intro hr
    refine ⟨_, write_geomtery_per_mesh_eq export_params m offset out hr, ?_⟩
    rw [f_lines_mesh_block, f_lines_f_block]

/-- C13 on a mesh whose second polygon has no vertex, written with UV and
normals by the face loop `f v1/vt1/vn1`. -/
theorem face_line_keeps_polygon_vertices_witness :
    (mesh_with_empty_polygon.tot_poly ≤ mesh_with_empty_polygon.polygon_list.length ∧
      ∀ polygon ∈ mesh_with_empty_polygon.polygon_list.take mesh_with_empty_polygon.tot_poly,
        polygon.total_vertices_per_poly ≤ polygon.vertex_index.length ∧
        (true = true → polygon.total_vertices_per_poly ≤ polygon.uv_vertex_index.length)) ∧
    (∃ fs : List (Record Int),
      (if ({ export_uv := true, export_normals := true } : OBJExportParams).export_normals then
        if ({ export_uv := true, export_normals := true } : OBJExportParams).export_uv then
          write_faces_v_vt_vn mesh_with_empty_polygon { vertex := 0, uv := 0, normal := 0 } []
        else write_faces_v_vn mesh_with_empty_polygon { vertex := 0, uv := 0, normal := 0 } []
      else
        if ({ export_uv := true, export_normals := true } : OBJExportParams).export_uv then
          write_faces_v_vt mesh_with_empty_polygon { vertex := 0, uv := 0, normal := 0 } []
        else write_faces_v mesh_with_empty_polygon { vertex := 0, uv := 0, normal := 0 } [])
        = some ([] ++ fs) ∧
      fs.length = mesh_with_empty_polygon.tot_poly ∧
      (∀ i, i < mesh_with_empty_polygon.tot_poly → ∃ polygon refs,
        mesh_with_empty_polygon.polygon_list[i]? = some polygon ∧
        fs[i]? = some (Record.f refs) ∧
        refs.length = polygon.total_vertices_per_poly ∧
        (∀ j, j < polygon.total_vertices_per_poly → ∃ vi ref,
          polygon.vertex_index[j]? = some vi ∧ refs[j]? = some ref ∧
          ref.vertex = uint32 (vi + 0) ∧
          (true = true → ∃ ui,
            polygon.uv_vertex_index[j]? = some ui ∧ ref.uv = some (uint32 (ui + 1 + 0)))) ∧
        refs.map FaceRef.vertex =
          (polygon.vertex_index.take polygon.total_vertices_per_poly).map
            (fun vi => uint32 (vi + 0)) ∧
        (polygon.total_vertices_per_poly = 0 → refs = [])) ∧
      (readable { export_uv := true, export_normals := true } mesh_with_empty_polygon →
        ∃ block,
          write_geomtery_per_mesh [] mesh_with_empty_polygon
            { vertex := 0, uv := 0, normal := 0 }
            { export_uv := true, export_normals := true } = some ([] ++ block) ∧
          f_lines block = f_lines fs)) ∧
    write_faces_v_vt_vn mesh_with_empty_polygon { vertex := 0, uv := 0, normal := 0 } []
      = some [Record.f [FaceRef.v_vt_vn 1 1 1, FaceRef.v_vt_vn 2 2 1, FaceRef.v_vt_vn 3 3 1],
          Record.f []] ∧
    write_geomtery_per_mesh [] mesh_with_empty_polygon { vertex := 0, uv := 0, normal := 0 }
        { export_uv := true, export_normals := false }
      = some [Record.o "MeshA", Record.v 0 0 0, Record.v 1 0 0, Record.v 0 1 0,
          Record.vt 0 0, Record.vt 1 0, Record.vt 0 1,
          Record.f [FaceRef.v_vt 1 1, FaceRef.v_vt 2 2, FaceRef.v_vt 3 3], Record.f []] :=
  ⟨by decide,
    face_line_keeps_polygon_vertices { export_uv := true, export_normals := true }
      mesh_with_empty_polygon { vertex := 0, uv := 0, normal := 0 } [] (by decide) (by decide),
    by decide, by decide⟩

/-! ## C14: the four face loops and the single emitter -/

theorem for_loop_map {σ τ : Type} (φ : σ → τ) (body : Nat → σ → Option σ)
    (body' : Nat → τ → Option τ) (h : ∀ i s, (body i s).map φ = body' i (φ s)) :
    ∀ (c i : Nat) (s : σ), (for_loop body c i s).map φ = for_loop body' c i (φ s) := by
  intro c
  induction c with
  | zero =>
    intro i s
    rfl
  | succ c ih =>
    intro i s
    rw [for_loop, for_loop, ← h i s]
    cases body i s with
    | none => rfl
    | some s' => exact ih (i + 1) s'

theorem face_text_snoc {F : Type} (out : List (Record F)) (line : List FaceRef) :
    face_text (out ++ [Record.f line]) = face_text out ++ [line.map FaceRef.text] := by
  simp [face_text, f_lines, List.filterMap_append]

theorem face_loop_text {F : Type} (export_params : OBJExportParams)
    (m : OBJ_obmesh_to_export F) (offset : Offset3) (out : List (Record F))
    (inner : Nat → Polygon → Nat → List FaceRef → Option (List FaceRef))
    (hinner : ∀ i polygon j line,
      (inner i polygon j line).map (List.map FaceRef.text) =
        (polygon.vertex_index[j]?).bind fun vi =>
        (if export_params.export_uv then polygon.uv_vertex_index[j]? else some 0).bind
          fun ui =>
        some (line.map FaceRef.text ++
          [single_emitter_reference export_params (vi + offset.vertex)
            (ui + 1 + offset.uv) (i + 1 + offset.normal)])) :
    (for_loop
      (fun i out =>
        (m.polygon_list[i]?).bind fun polygon =>
        (for_loop (inner i polygon) polygon.total_vertices_per_poly 0 []).bind fun line =>
        some (out ++ [Record.f line]))
      m.tot_poly 0 out).map face_text
      = single_emitter_faces export_params m offset (face_text out) := by
  unfold single_emitter_faces
  apply for_loop_map
  intro i s
  cases m.polygon_list[i]? with
  | none => rfl
  | some polygon =>
    simp only [Option.some_bind]
    have hin := for_loop_map (List.map FaceRef.text) (inner i polygon)
      (fun j line =>
        (polygon.vertex_index[j]?).bind fun vi =>
        (if export_params.export_uv then polygon.uv_vertex_index[j]? else some 0).bind
          fun ui =>
        some (line ++ [single_emitter_reference export_params (vi + offset.vertex)
          (ui + 1 + offset.uv) (i + 1 + offset.normal)]))
      (hinner i polygon) polygon.total_vertices_per_poly 0 []
    rw [List.map_nil] at hin
    rw [← hin]
    cases for_loop (inner i polygon) polygon.total_vertices_per_poly 0 [] with
    | none => rfl
    | some line =>
      simp only [Option.some_bind, Option.map_some', face_text_snoc]

/-- C14: for every mesh, offsets, flag pair and earlier output, the characters of
the face lines written by the four face loops of `write_geomtery_per_mesh` are those
written by the single emitter, also when a read fails; for a readable mesh the single
emitter writes the characters of the face lines of the block. -/
theorem four_face_loops_refine_single_emitter {F : Type} (export_params : OBJExportParams)
    (m : OBJ_obmesh_to_export F) (offset : Offset3) (out : List (Record F)) :
    (if export_params.export_normals then
        if export_params.export_uv then write_faces_v_vt_vn m offset out
        else write_faces_v_vn m offset out
      else
        if export_params.export_uv then write_faces_v_vt m offset out
        else write_faces_v m offset out).map face_text
      = single_emitter_faces export_params m offset (face_text out) ∧
    (readable export_params m → ∃ block,
      write_geomtery_per_mesh out m offset export_params = some (out ++ block) ∧
      single_emitter_faces export_params m offset [] = some (face_text block)) := by
  have hloops : ∀ out' : List (Record F),
      (if export_params.export_normals then
        if export_params.export_uv then write_faces_v_vt_vn m offset out'
        else write_faces_v_vn m offset out'
      else
        if export_params.export_uv then write_faces_v_vt m offset out'
        else write_faces_v m offset out').map face_text
      = single_emitter_faces export_params m offset (face_text out') := by
    intro out'
    obtain ⟨uv, normals⟩ := export_params
    cases uv <;> cases normals
    · simp only [Bool.false_eq_true, if_false]
      unfold write_faces_v
      exact face_loop_text _ m offset out'
        (fun _ polygon j line =>
          (polygon.vertex_index[j]?).bind fun vi =>
          some (line ++ [FaceRef.v (uint32 (vi + offset.vertex))]))
        (by
          intro i polygon j line
          dsimp only
          cases polygon.vertex_index[j]? with
          | none => rfl
          | some vi => simp [FaceRef.text, single_emitter_reference, decimal_uint32])
    · simp only [Bool.false_eq_true, if_false, if_true]
      unfold write_faces_v_vn
      exact face_loop_text _ m offset out'
        (fun i polygon j line =>
          (polygon.vertex_index[j]?).bind fun vi =>
          some (line ++ [FaceRef.v_vn (uint32 (vi + offset.vertex))
            (uint32 (i + 1 + offset.normal))]))
        (by
          intro i polygon j line
          dsimp only
          cases polygon.vertex_index[j]? with
          | none => rfl
          | some vi => simp [FaceRef.text, single_emitter_reference, decimal_uint32])
    · simp only [Bool.false_eq_true, if_false, if_true]
      unfold write_faces_v_vt
      exact face_loop_text _ m offset out'
        (fun _ polygon j line =>
          (polygon.vertex_index[j]?).bind fun vi =>
          (polygon.uv_vertex_index[j]?).bind fun ui =>
          some (line ++ [FaceRef.v_vt (uint32 (vi + offset.vertex))
            (uint32 (ui + 1 + offset.uv))]))
        (by
          intro i polygon j line
          dsimp only
          cases polygon.vertex_index[j]? with
          | none => rfl
          | some vi =>
            cases polygon.uv_vertex_index[j]? with
            | none => rfl
            | some ui => simp [FaceRef.text, single_emitter_reference, decimal_uint32])
    · simp only [if_true]
      unfold write_faces_v_vt_vn
      exact face_loop_text _ m offset out'
        (fun i polygon j line =>
          (polygon.vertex_index[j]?).bind fun vi =>
          (polygon.uv_vertex_index[j]?).bind fun ui =>
          some (line ++ [FaceRef.v_vt_vn (uint32 (vi + offset.vertex))
            (uint32 (ui + 1 + offset.uv)) (uint32 (i + 1 + offset.normal))]))
        (by
          intro i polygon j line
          dsimp only
          cases polygon.vertex_index[j]? with
          | none => rfl
          | some vi =>
            cases polygon.uv_vertex_index[j]? with
            | none => rfl
            | some ui => simp [FaceRef.text, single_emitter_reference, decimal_uint32])
  refine ⟨hloops out, ?_⟩
  intro hr
  refine ⟨_, write_geomtery_per_mesh_eq export_params m offset out hr, ?_⟩
  have h := hloops []
  rw [write_faces_eq export_params m offset [] hr.2.2.1 (by
    intro polygon hmem
    exact ⟨(hr.2.2.2 polygon hmem).1, (hr.2.2.2 polygon hmem).2.1⟩)] at h
  have hnil : face_text ([] : List (Record F)) = [] := rfl
  rw [hnil] at h
  rw [← h]
  simp only [Option.map_some', List.nil_append, face_text, f_lines_mesh_block, f_lines_f_block]

/-- C14 on Mesh B with the offsets `{3, 3, 1}`, for the four flag pairs. -/
theorem four_face_loops_refine_single_emitter_witness :
    ((if ({ export_uv := false, export_normals := true } : OBJExportParams).export_normals then
        if ({ export_uv := false, export_normals := true } : OBJExportParams).export_uv then
          write_faces_v_vt_vn mesh_b { vertex := 3, uv := 3, normal := 1 } []
        else write_faces_v_vn mesh_b { vertex := 3, uv := 3, normal := 1 } []
      else
        if ({ export_uv := false, export_normals := true } : OBJExportParams).export_uv then
          write_faces_v_vt mesh_b { vertex := 3, uv := 3, normal := 1 } []
        else write_faces_v mesh_b { vertex := 3, uv := 3, normal := 1 } []).map face_text
      = single_emitter_faces { export_uv := false, export_normals := true } mesh_b
          { vertex := 3, uv := 3, normal := 1 } (face_text ([] : List (Record Int))) ∧
    (readable { export_uv := false, export_normals := true } mesh_b → ∃ block,
      write_geomtery_per_mesh [] mesh_b { vertex := 3, uv := 3, normal := 1 }
        { export_uv := false, export_normals := true } = some ([] ++ block) ∧
      single_emitter_faces { export_uv := false, export_normals := true } mesh_b
        { vertex := 3, uv := 3, normal := 1 } [] = some (face_text block))) ∧
    single_emitter_faces { export_uv := false, export_normals := true } mesh_b
        { vertex := 3, uv := 3, normal := 1 } []
      = some [[['4', '/', '/', '2', ' '], ['5', '/', '/', '2', ' ']]] ∧
    single_emitter_faces { export_uv := true, export_normals := true } mesh_b
        { vertex := 3, uv := 3, normal := 1 } []
      = some [[['4', '/', '5', '/', '2', ' '], ['5', '/', '4', '/', '2', ' ']]] ∧
    single_emitter_faces { export_uv := true, export_normals := false } mesh_b
        { vertex := 3, uv := 3, normal := 1 } []
      = some [[['4', '/', '5', ' '], ['5', '/', '4', ' ']]] ∧
    single_emitter_faces { export_uv := false, export_normals := false } mesh_b
        { vertex := 3, uv := 3, normal := 1 } []
      = some [[['4', ' '], ['5', ' ']]] :=
  ⟨four_face_loops_refine_single_emitter { export_uv := false, export_normals := true } mesh_b
      { vertex := 3, uv := 3, normal := 1 } [],
    by decide, by decide, by decide, by decide⟩

/-! ## C15: the vertex a face reference designates -/

theorem face_normal_of_single_vertex {F : Type} (vertex_list : List (MVert F)) (s : Nat)
    (vertex : MVert F) (h1 : 1 ≤ s) (hv : vertex_list[s - 1]? = some vertex) (axis : Fin 3)
    (uv_vertex_index : List Nat)
    (h16 : -32768 ≤ vertex.no axis ∧ vertex.no axis ≤ 32767) :
    face_normal_axis_component
        { total_vertices_per_poly := 1, vertex_index := [s], uv_vertex_index := uv_vertex_index }
        axis vertex_list
      = some (vertex.no axis) := by
  have hs : s ≤ vertex_list.length := by
    by_contra hge
    rw [List.getElem?_eq_none (by omega)] at hv
    cases hv
  have hidx : ∀ s' ∈ ([s] : List Nat).take 1, 1 ≤ s' ∧ s' ≤ vertex_list.length := by
    intro s' hs'
    simp only [List.take_succ_cons, List.take_zero, List.mem_singleton] at hs'
    subst hs'
    exact ⟨h1, hs⟩
  have hexact := (averaged_normal_exact
    { total_vertices_per_poly := 1, vertex_index := [s], uv_vertex_index := uv_vertex_index }
    axis vertex_list Nat.zero_lt_one (by simp) hidx (by simp) (by
      intro s' hs' vertex' hv'
      simp only [List.take_succ_cons, List.take_zero, List.mem_singleton] at hs'
      subst hs'
      rw [hv] at hv'
      injection hv' with hv'
      subst hv'
      exact h16)).1
  rw [face_normal_axis_component_eq _ axis vertex_list Nat.zero_lt_one (by simp) hidx, hexact]
  simp [normal_components, index_at_pred _ _ h1, hv]

/-- C15 as stated fails: the face reference is a `uint` printed with `%d`. Behind a
mesh of `2^31` vertices, the stored vertex indices 1 and 2 of Mesh B are written as
`-2147483647` and `-2147483646`, while the `v` line of its first vertex, the one
whose normal the estimator reads for the index 1, is line 2147483649 of the `v` lines
of the file. -/
theorem face_reference_wraps_counterexample :
    ∃ file,
      write_object_fprintf true [huge_mesh, mesh_b]
          { export_uv := true, export_normals := true }
        = some { file := some file, stdout := [] } ∧
      (v_lines file)[2147483648]? = some (2, 0, 0) ∧
      index_at mesh_b.mvert ((1 : Int) - 1)
        = some { co := ![2, 0, 0], no := ![0, 32767, 0] } ∧
      ((f_lines file)[2147483648]?).map (List.map FaceRef.text)
        = some [['-', '2', '1', '4', '7', '4', '8', '3', '6', '4', '7', '/',
                 '-', '2', '1', '4', '7', '4', '8', '3', '6', '4', '6', '/',
                 '-', '2', '1', '4', '7', '4', '8', '3', '6', '4', '7', ' '],
                ['-', '2', '1', '4', '7', '4', '8', '3', '6', '4', '6', '/',
                 '-', '2', '1', '4', '7', '4', '8', '3', '6', '4', '7', '/',
                 '-', '2', '1', '4', '7', '4', '8', '3', '6', '4', '7', ' ']] := by
  obtain ⟨file, hfile, hv, -, -, hf⟩ := export_object_lines [huge_mesh, mesh_b]
    { export_uv := true, export_normals := true }
    (readable_huge_then _ mesh_b (by decide)) 1 mesh_b rfl
  refine ⟨file, hfile, ?_, rfl, ?_⟩
  · exact hv 0 { co := ![2, 0, 0], no := ![0, 32767, 0] } (by decide) rfl
  · have h := hf 0 _ (by decide) rfl
    rw [show (2147483648 : Nat)
      = (([huge_mesh, mesh_b].take 1).map fun m => m.tot_poly).sum + 0 from by decide, h]
    decide

/-- C15, amended: for a stored vertex index `s` with `1 ≤ s ≤ tot_vertices` of object
`k`, the face reference is the `uint` sum `s + offset[0]`, and as long as it stays
below `2^31` the written number is the ordinal, counted from 1 over the whole file,
of the `v` line written for `mvert[s - 1]` of that object, inside the `v` lines of
its own block; and `mvert[s - 1]` is the element `face_normal_axis_component` reads
for `s`: the read `vertex_list[s - 1]` returns it, and a polygon made of `s` alone
gets its normal, a `short`. -/
theorem face_reference_designates_estimator_vertex {F : Type}
    (meshes : List (OBJ_obmesh_to_export F)) (export_params : OBJExportParams)
    (hr : ∀ m ∈ meshes, readable export_params m)
    (k : Nat) (mesh : OBJ_obmesh_to_export F) (hk : meshes[k]? = some mesh) :
    ∃ (file pre block rest : List (Record F)) (offset : Offset3),
      write_object_fprintf true meshes export_params
        = some { file := some file, stdout := [] } ∧
      export_loop meshes export_params k
        = some { outfile := pre, index_offset := offset } ∧
      write_geomtery_per_mesh pre mesh offset export_params = some (pre ++ block) ∧
      file = pre ++ block ++ rest ∧
      offset.vertex = uint32 (v_lines pre).length ∧
      ∀ s, 1 ≤ s → s ≤ mesh.tot_vertices →
        ∃ vertex,
          index_at mesh.mvert ((s : Int) - 1) = some vertex ∧
          (∀ (axis : Fin 3) (uv_vertex_index : List Nat),
            -32768 ≤ vertex.no axis → vertex.no axis ≤ 32767 →
            face_normal_axis_component
                { total_vertices_per_poly := 1, vertex_index := [s]
                  uv_vertex_index := uv_vertex_index }
                axis mesh.mvert
              = some (vertex.no axis)) ∧
          (v_lines block)[s - 1]? = some (vertex.co 0, vertex.co 1, vertex.co 2) ∧
          (v_lines file)[(v_lines pre).length + s - 1]?
            = some (vertex.co 0, vertex.co 1, vertex.co 2) ∧
          (v_lines pre).length < (v_lines pre).length + s ∧
          (v_lines pre).length + s ≤ (v_lines pre).length + (v_lines block).length ∧
          (∀ i j polygon, i < mesh.tot_poly → mesh.polygon_list[i]? = some polygon →
            j < polygon.total_vertices_per_poly → polygon.vertex_index[j]? = some s →
            ∃ refs ref, (f_lines block)[i]? = some refs ∧ refs[j]? = some ref ∧
              ref.vertex = uint32 (s + offset.vertex) ∧
              ((v_lines pre).length + s < 2147483648 →
                ref.vertex = (v_lines pre).length + s ∧
                int_of_uint ref.vertex = (((v_lines pre).length + s : Nat) : Int) ∧
                decimal ref.vertex = Nat.toDigits 10 ((v_lines pre).length + s))) := by
  obtain ⟨rest, hfile, hloop, hwrite⟩ := export_split meshes export_params hr k mesh hk
  have hlt : k < meshes.length := by
    by_contra hge
    rw [List.getElem?_eq_none (by omega)] at hk
    cases hk
  have hmesh : readable export_params mesh := hr mesh (List.getElem?_mem hk)
  have hoff := (offset_after_eq_counts export_params meshes k (by omega)
    (fun m hm => hr m (List.mem_of_mem_take hm))).1
  have hvb := v_lines_mesh_block export_params (offset_after (meshes.take k)) mesh
  have hvlen : (v_lines (mesh_block export_params (offset_after (meshes.take k)) mesh)).length
      = mesh.tot_vertices := by
    rw [hvb, List.length_map, List.length_take, Nat.min_eq_left hmesh.1]
  refine ⟨_, _, _, rest, _, hfile, hloop, hwrite, rfl, hoff, ?_⟩
  intro s h1 h2
  have hs : s - 1 < mesh.mvert.length := by
    have := hmesh.1
    omega
  have hget : mesh.mvert[s - 1]? = some mesh.mvert[s - 1] := List.getElem?_eq_getElem hs
  have hb : (v_lines (mesh_block export_params (offset_after (meshes.take k)) mesh))[s - 1]?
      = some (mesh.mvert[s - 1].co 0, mesh.mvert[s - 1].co 1, mesh.mvert[s - 1].co 2) := by
    rw [hvb]
    simp [List.getElem?_map, List.getElem?_take, hget]
    omega
  refine ⟨mesh.mvert[s - 1], ?_, ?_, hb, ?_, by omega, by omega, ?_⟩
  · rw [index_at_pred _ _ h1, hget]
  · intro axis uv_vertex_index hlo hhi
    exact face_normal_of_single_vertex mesh.mvert s _ h1 hget axis uv_vertex_index ⟨hlo, hhi⟩
  · have hidx : (v_lines (file_after export_params meshes k)).length + s - 1
        = (v_lines (file_after export_params meshes k)).length + (s - 1) := by
      omega
    have happ : ∀ a b : List (Record F), v_lines (a ++ b) = v_lines a ++ v_lines b :=
      fun a b => List.filterMap_append a b _
    rw [hidx, happ, happ, getElem?_middle _ _ _ _ (by rw [hvlen]; omega), hb]
  · intro i j polygon hi hp hj hsj
    have hpr := polygon_readable_of_mem export_params mesh hmesh i polygon hi hp
    refine ⟨_, _, f_lines_mesh_block_getElem? export_params _ mesh i polygon hi hp,
      face_line_getElem? export_params _ i polygon j s hj hsj hpr.2.1,
      face_ref_vertex _ _ _ _ _, ?_⟩
    intro hsmall
    rw [face_ref_vertex, hoff, uint32_add_right,
      Nat.add_comm s (v_lines (file_after export_params meshes k)).length]
    exact written_of_lt _ hsmall

/-- C15, amended, on the two-mesh scenario with Mesh B as object 1, normals
exported. -/
theorem face_reference_designates_estimator_vertex_witness :
    (∀ m ∈ [mesh_a, mesh_b], readable { export_uv := false, export_normals := true } m) ∧
    [mesh_a, mesh_b][1]? = some mesh_b ∧
    (∃ (file pre block rest : List (Record Int)) (offset : Offset3),
      write_object_fprintf true [mesh_a, mesh_b] { export_uv := false, export_normals := true }
        = some { file := some file, stdout := [] } ∧
      export_loop [mesh_a, mesh_b] { export_uv := false, export_normals := true } 1
        = some { outfile := pre, index_offset := offset } ∧
      write_geomtery_per_mesh pre mesh_b offset { export_uv := false, export_normals := true }
        = some (pre ++ block) ∧
      file = pre ++ block ++ rest ∧
      offset.vertex = uint32 (v_lines pre).length ∧
      ∀ s, 1 ≤ s → s ≤ mesh_b.tot_vertices →
        ∃ vertex,
          index_at mesh_b.mvert ((s : Int) - 1) = some vertex ∧
          (∀ (axis : Fin 3) (uv_vertex_index : List Nat),
            -32768 ≤ vertex.no axis → vertex.no axis ≤ 32767 →
            face_normal_axis_component
                { total_vertices_per_poly := 1, vertex_index := [s]
                  uv_vertex_index := uv_vertex_index }
                axis mesh_b.mvert
              = some (vertex.no axis)) ∧
          (v_lines block)[s - 1]? = some (vertex.co 0, vertex.co 1, vertex.co 2) ∧
          (v_lines file)[(v_lines pre).length + s - 1]?
            = some (vertex.co 0, vertex.co 1, vertex.co 2) ∧
          (v_lines pre).length < (v_lines pre).length + s ∧
          (v_lines pre).length + s ≤ (v_lines pre).length + (v_lines block).length ∧
          (∀ i j polygon, i < mesh_b.tot_poly → mesh_b.polygon_list[i]? = some polygon →
            j < polygon.total_vertices_per_poly → polygon.vertex_index[j]? = some s →
            ∃ refs ref, (f_lines block)[i]? = some refs ∧ refs[j]? = some ref ∧
              ref.vertex = uint32 (s + offset.vertex) ∧
              ((v_lines pre).length + s < 2147483648 →
                ref.vertex = (v_lines pre).length + s ∧
                int_of_uint ref.vertex = (((v_lines pre).length + s : Nat) : Int) ∧
                decimal ref.vertex = Nat.toDigits 10 ((v_lines pre).length + s)))) ∧
    write_object_fprintf true [mesh_a, mesh_b] { export_uv := false, export_normals := true }
      = some
        { file := some
            [Record.comment "Blender 2.90",
             Record.o "MeshA", Record.v 0 0 0, Record.v 1 0 0, Record.v 0 1 0,
             Record.vn 0 0 32767,
             Record.f [FaceRef.v_vn 1 1, FaceRef.v_vn 2 1, FaceRef.v_vn 3 1],
             Record.o "MeshB", Record.v 2 0 0, Record.v 3 0 0,
             Record.vn 0 32767 0,
             Record.f [FaceRef.v_vn 4 2, FaceRef.v_vn 5 2]]
          stdout := [] } :=
  ⟨by decide, rfl,
    face_reference_designates_estimator_vertex [mesh_a, mesh_b]
      { export_uv := false, export_normals := true } (by decide) 1 mesh_b rfl,
    by decide⟩
/-! ## C16: a well-formed mesh is written without a failing read -/

theorem readable_of_well_formed {F : Type} (m : OBJ_obmesh_to_export F)
    (hwf : well_formed m) (export_params : OBJExportParams) : readable export_params m := by
  obtain ⟨hv, huv, hpoly, hp⟩ := hwf
  refine ⟨by omega, fun _ => by omega, by omega, ?_⟩
  intro polygon hmem
  obtain ⟨h0, h1, h2, h3, -⟩ := hp polygon (List.mem_of_mem_take hmem)
  refine ⟨by omega, fun _ => by omega, fun _ => ⟨h0, ?_⟩⟩
  intro s hs
  have := h3 s (List.mem_of_mem_take hs)
  omega

/-- C16: for a well-formed mesh and every flag pair, offsets and earlier output,
every read of `write_geomtery_per_mesh` and of `face_normal_axis_component` is inside
its array (`mvert[i]`, `uv_coords[i]`, `polygon_list[i]`, `vertex_index[j]`,
`uv_vertex_index[j]` and `vertex_list[vertex_index[j] - 1]`), the divisor
`total_vertices_per_poly` is not zero, and both functions return a value. -/
theorem well_formed_mesh_is_written {F : Type} (m : OBJ_obmesh_to_export F)
    (hwf : well_formed m) (export_params : OBJExportParams) (offset : Offset3)
    (out : List (Record F)) :
    (∃ block, write_geomtery_per_mesh out m offset export_params = some (out ++ block)) ∧
    (∀ i, i < m.tot_vertices → ∃ vertex, m.mvert[i]? = some vertex) ∧
    (∀ i, i < m.tot_uv_vertices → ∃ uv_vertex, m.uv_coords[i]? = some uv_vertex) ∧
    (∀ i, i < m.tot_poly → ∃ polygon,
      m.polygon_list[i]? = some polygon ∧
      polygon.total_vertices_per_poly ≠ 0 ∧
      (∀ axis, ∃ value, face_normal_axis_component polygon axis m.mvert = some value) ∧
      ∀ j, j < polygon.total_vertices_per_poly → ∃ s ui vertex,
        polygon.vertex_index[j]? = some s ∧
        polygon.uv_vertex_index[j]? = some ui ∧
        index_at m.mvert ((s : Int) - 1) = some vertex) := by
  have hr := readable_of_well_formed m hwf export_params
  obtain ⟨hv, huv, hpoly, hp⟩ := hwf
  refine ⟨⟨_, write_geomtery_per_mesh_eq export_params m offset out hr⟩, ?_, ?_, ?_⟩
  · intro i hi
    exact ⟨_, List.getElem?_eq_getElem (by omega)⟩
  · intro i hi
    exact ⟨_, List.getElem?_eq_getElem (by omega)⟩
  · intro i hi
    have hlt : i < m.polygon_list.length := by omega
    have hget : m.polygon_list[i]? = some m.polygon_list[i] := List.getElem?_eq_getElem hlt
    obtain ⟨h0, h1, h2, h3, -⟩ := hp _ (List.getElem?_mem hget)
    have hidx : ∀ s ∈ m.polygon_list[i].vertex_index.take
        m.polygon_list[i].total_vertices_per_poly, 1 ≤ s ∧ s ≤ m.mvert.length := by
      intro s hs
      have := h3 s (List.mem_of_mem_take hs)
      omega
    refine ⟨_, hget, by omega, ?_, ?_⟩
    · intro axis
      exact ⟨_, face_normal_axis_component_eq _ axis m.mvert h0 (by omega) hidx⟩
    · intro j hj
      have hjv : j < m.polygon_list[i].vertex_index.length := by omega
      have hju : j < m.polygon_list[i].uv_vertex_index.length := by omega
      have hs := h3 _ (List.getElem?_mem (List.getElem?_eq_getElem hjv))
      have hsv : m.polygon_list[i].vertex_index[j] - 1 < m.mvert.length := by omega
      refine ⟨_, _, m.mvert[m.polygon_list[i].vertex_index[j] - 1],
        List.getElem?_eq_getElem hjv, List.getElem?_eq_getElem hju, ?_⟩
      rw [index_at_pred _ _ hs.1]
      exact List.getElem?_eq_getElem hsv

/-- C16 on Mesh A with both flags set. -/
theorem well_formed_mesh_is_written_witness :
    well_formed mesh_a ∧
    (∃ block, write_geomtery_per_mesh [] mesh_a { vertex := 0, uv := 0, normal := 0 }
      { export_uv := true, export_normals := true } = some ([] ++ block)) ∧
    (∀ i, i < mesh_a.tot_vertices → ∃ vertex, mesh_a.mvert[i]? = some vertex) ∧
    (∀ i, i < mesh_a.tot_uv_vertices → ∃ uv_vertex, mesh_a.uv_coords[i]? = some uv_vertex) ∧
    (∀ i, i < mesh_a.tot_poly → ∃ polygon,
      mesh_a.polygon_list[i]? = some polygon ∧
      polygon.total_vertices_per_poly ≠ 0 ∧
      (∀ axis, ∃ value, face_normal_axis_component polygon axis mesh_a.mvert = some value) ∧
      ∀ j, j < polygon.total_vertices_per_poly → ∃ s ui vertex,
        polygon.vertex_index[j]? = some s ∧
        polygon.uv_vertex_index[j]? = some ui ∧
        index_at mesh_a.mvert ((s : Int) - 1) = some vertex) :=
  ⟨by decide,
    well_formed_mesh_is_written mesh_a (by decide)
      { export_uv := true, export_normals := true } { vertex := 0, uv := 0, normal := 0 } []⟩

/-! ## C17: the estimated normal stays within the contributing components -/

theorem exists_least_and_greatest (l : List Int) (hl : l ≠ []) :
    ∃ cmin cmax, cmin ∈ l ∧ cmax ∈ l ∧ ∀ c ∈ l, cmin ≤ c ∧ c ≤ cmax := by
  induction l with
  | nil => exact absurd rfl hl
  | cons a l ih =>
    cases l with
    | nil =>
      refine ⟨a, a, by simp, by simp, ?_⟩
      intro c hc
      simp only [List.mem_singleton] at hc
      omega
    | cons b l =>
      obtain ⟨cmin, cmax, hmin, hmax, hall⟩ := ih (by simp)
      refine ⟨if a ≤ cmin then a else cmin, if cmax ≤ a then a else cmax, ?_, ?_, ?_⟩
      · split
        · exact List.mem_cons_self _ _
        · exact List.mem_cons_of_mem _ hmin
      · split
        · exact List.mem_cons_self _ _
        · exact List.mem_cons_of_mem _ hmax
      · intro c hc
        rw [List.mem_cons] at hc
        cases hc with
        | inl h =>
          subst h
          constructor <;> split <;> omega
        | inr h =>
          obtain ⟨h1, h2⟩ := hall c h
          constructor <;> split <;> omega

/-- C17 as stated fails: the sum is accumulated in a `float`, which holds integers
exactly only up to `2^24`. For a polygon that lists 513 times a vertex whose normal
has the y component -32765, all contributing components equal -32765 and the function
returns -32764, above the greatest of them. -/
theorem face_normal_outside_components_counterexample :
    normal_components polygon_of_513 AXIS_Y steep_vertices = List.replicate 513 (-32765) ∧
    (∀ c ∈ normal_components polygon_of_513 AXIS_Y steep_vertices,
      -32768 ≤ c ∧ c ≤ 32767 ∧ c = -32765) ∧
    face_normal_axis_component polygon_of_513 AXIS_Y steep_vertices = some (-32764) := by
  have hcomp : normal_components polygon_of_513 AXIS_Y steep_vertices
      = List.replicate 513 (-32765) := normal_components_of_513 AXIS_Y _
  have hf : f32_sum (List.replicate 513 (-32765 : Int)) = -16808444 := by
    rw [f32_sum_of_513 _ (by decide) (by decide)]
    decide
  refine ⟨hcomp, ?_, ?_⟩
  · intro c hc
    rw [hcomp] at hc
    rw [(List.mem_replicate.1 hc).2]
    decide
  · rw [face_normal_axis_component_eq polygon_of_513 AXIS_Y steep_vertices (by decide)
      (by rw [polygon_of_513, List.length_replicate])
      (by
        intro s hs
        have hs' := List.mem_of_mem_take hs
        rw [polygon_of_513, List.mem_replicate] at hs'
        rw [hs'.2]
        decide)]
    unfold averaged_normal
    rw [hcomp, hf]
    decide

/-- C17, amended: for a polygon with at least one and at most 512 vertices whose
referenced normal components on an axis are in `-32768 .. 32767`, the value of
`face_normal_axis_component` is the truncated quotient itself (the conversion to
`short` changes nothing), it lies between the least and the greatest contributing
component, hence between any two bounds of the components and in the `short` range,
and it is `c` when every contributing component is `c`. -/
theorem face_normal_within_components {F : Type} (polygon : Polygon) (axis : Fin 3)
    (vertex_list : List (MVert F)) (hn : 0 < polygon.total_vertices_per_poly)
    (hlen : polygon.total_vertices_per_poly ≤ polygon.vertex_index.length)
    (hidx : ∀ s ∈ polygon.vertex_index.take polygon.total_vertices_per_poly,
      1 ≤ s ∧ s ≤ vertex_list.length)
    (hmany : polygon.total_vertices_per_poly ≤ 512)
    (h16 : ∀ s ∈ polygon.vertex_index.take polygon.total_vertices_per_poly,
      ∀ vertex, vertex_list[s - 1]? = some vertex →
        -32768 ≤ vertex.no axis ∧ vertex.no axis ≤ 32767) :
    ∃ (components : List Int) (r : Int),
      List.Forall₂
        (fun (s : Nat) (c : Int) =>
          ∃ vertex, vertex_list[s - 1]? = some vertex ∧ c = vertex.no axis)
        (polygon.vertex_index.take polygon.total_vertices_per_poly) components ∧
      face_normal_axis_component polygon axis vertex_list = some r ∧
      r = Int.tdiv components.sum polygon.total_vertices_per_poly ∧
      (∃ cmin cmax, cmin ∈ components ∧ cmax ∈ components ∧
        (∀ c ∈ components, cmin ≤ c ∧ c ≤ cmax) ∧ cmin ≤ r ∧ r ≤ cmax) ∧
      (∀ lo hi, (∀ c ∈ components, lo ≤ c ∧ c ≤ hi) → lo ≤ r ∧ r ≤ hi) ∧
      -32768 ≤ r ∧ r ≤ 32767 ∧
      (∀ c, (∀ c' ∈ components, c' = c) → r = c) := by
  have hclen : (normal_components polygon axis vertex_list).length
      = polygon.total_vertices_per_poly := by
    simp [normal_components, hlen]
  have hne : normal_components polygon axis vertex_list ≠ [] := by
    intro h
    rw [h] at hclen
    simp at hclen
    omega
  have hbetween : ∀ lo hi,
      (∀ c ∈ normal_components polygon axis vertex_list, lo ≤ c ∧ c ≤ hi) →
      lo ≤ Int.tdiv (normal_components polygon axis vertex_list).sum
          polygon.total_vertices_per_poly ∧
        Int.tdiv (normal_components polygon axis vertex_list).sum
          polygon.total_vertices_per_poly ≤ hi := by
    intro lo hi h
    obtain ⟨h1, h2⟩ := sum_between _ lo hi h
    rw [hclen] at h1 h2
    exact tdiv_between _ _ hn lo hi h1 h2
  have h16c : ∀ c ∈ normal_components polygon axis vertex_list,
      (-32768 : Int) ≤ c ∧ c ≤ 32767 := by
    intro c hc
    obtain ⟨s, vertex, hs, hv, rfl⟩ := mem_normal_components polygon axis vertex_list hidx c hc
    exact h16 s hs vertex hv
  obtain ⟨hq1, hq2⟩ := hbetween _ _ h16c
  obtain ⟨cmin, cmax, hmin, hmax, hall⟩ := exists_least_and_greatest _ hne
  refine ⟨normal_components polygon axis vertex_list, _, ?_, ?_, rfl,
    ⟨cmin, cmax, hmin, hmax, hall, hbetween cmin cmax hall⟩, hbetween, hq1, hq2, ?_⟩
  · unfold normal_components
    rw [List.forall₂_map_right_iff, List.forall₂_same]
    intro s hs
    obtain ⟨h1, h2⟩ := hidx s hs
    have hlt : s - 1 < vertex_list.length := by omega
    refine ⟨vertex_list[s - 1], List.getElem?_eq_getElem hlt, ?_⟩
    rw [index_at_pred _ _ h1, List.getElem?_eq_getElem hlt]
    rfl
  · rw [face_normal_axis_component_eq polygon axis vertex_list hn hlen hidx,
      (averaged_normal_exact polygon axis vertex_list hn hlen hidx hmany h16).1]
  · intro c hc
    have := hbetween c c (fun c' hc' => by rw [hc c' hc']; omega)
    omega

/-- C17, amended, on `tilted_polygon`: on the x axis the components 5, 6, 6 give 5,
and on the z axis the three equal components 32767 give 32767. -/
theorem face_normal_within_components_witness :
    (0 < tilted_polygon.total_vertices_per_poly ∧
      tilted_polygon.total_vertices_per_poly ≤ tilted_polygon.vertex_index.length ∧
      (∀ s ∈ tilted_polygon.vertex_index.take tilted_polygon.total_vertices_per_poly,
        1 ≤ s ∧ s ≤ tilted_vertices.length) ∧
      tilted_polygon.total_vertices_per_poly ≤ 512 ∧
      ∀ s ∈ tilted_polygon.vertex_index.take tilted_polygon.total_vertices_per_poly,
        ∀ vertex, tilted_vertices[s - 1]? = some vertex →
          -32768 ≤ vertex.no AXIS_Z ∧ vertex.no AXIS_Z ≤ 32767) ∧
    (∃ (components : List Int) (r : Int),
      List.Forall₂
        (fun (s : Nat) (c : Int) =>
          ∃ vertex, tilted_vertices[s - 1]? = some vertex ∧ c = vertex.no AXIS_Z)
        (tilted_polygon.vertex_index.take tilted_polygon.total_vertices_per_poly)
        components ∧
      face_normal_axis_component tilted_polygon AXIS_Z tilted_vertices = some r ∧
      r = Int.tdiv components.sum tilted_polygon.total_vertices_per_poly ∧
      (∃ cmin cmax, cmin ∈ components ∧ cmax ∈ components ∧
        (∀ c ∈ components, cmin ≤ c ∧ c ≤ cmax) ∧ cmin ≤ r ∧ r ≤ cmax) ∧
      (∀ lo hi, (∀ c ∈ components, lo ≤ c ∧ c ≤ hi) → lo ≤ r ∧ r ≤ hi) ∧
      -32768 ≤ r ∧ r ≤ 32767 ∧
      (∀ c, (∀ c' ∈ components, c' = c) → r = c)) ∧
    face_normal_axis_component tilted_polygon AXIS_X tilted_vertices = some 5 ∧
    face_normal_axis_component tilted_polygon AXIS_Z tilted_vertices = some 32767 :=
  ⟨⟨by decide, by decide, by decide, by decide, tilted_components_are_short AXIS_Z⟩,
    face_normal_within_components tilted_polygon AXIS_Z tilted_vertices (by decide) (by decide)
      (by decide) (by decide) (tilted_components_are_short AXIS_Z),
    by decide, by decide⟩
end obj
